import Mathlib

/-! # TI 3410/5052 USB serial driver: embedding of `ti_usb_3410_5052.c`

The driver's C functions are embedded as pure Lean functions over an explicit
device state.  Every call into the USB core, the firmware loader or the memory
allocator is an input of the embedded function (its return value is supplied by
the caller), and every such call is appended to a trace kept in the state, so
that the order of commands can be stated.

Conventions
* C `int` status values are `Int`; bytes and 16-bit words are `Nat` with the
  truncation written out where the C code truncates.
* `td_open_port_count` is an `Int` (it is a C `int` that the code decrements
  below zero and then clamps).
* A port is named by its index in `serial->port[]`, which is its `port_number`.
* `ti_open` and `ti_close` return the state they leave together with an
  `Option`: `none` when the call does not come back, either because it
  dereferences a `NULL` URB pointer or because it sleeps on a lock whose holder
  is gone.
-/

namespace TiUsb

/-! ## Constants of the driver -/

def TI_BOOT_CONFIG : Nat := 1
def TI_ACTIVE_CONFIG : Nat := 2

def MTS_VENDOR_ID : Nat := 0x06E0
def MTS_CDMA_PRODUCT_ID : Nat := 0xF110
def MTS_GSM_PRODUCT_ID : Nat := 0xF111
def MTS_EDGE_PRODUCT_ID : Nat := 0xF112
def MTS_MT9234MU_PRODUCT_ID : Nat := 0xF114
def MTS_MT9234ZBA_PRODUCT_ID : Nat := 0xF115
def MTS_MT9234ZBAOLD_PRODUCT_ID : Nat := 0x0319

def MXU1_VENDOR_ID : Nat := 0x110a
def MXU1_1130_PRODUCT_ID : Nat := 0x1130
def MXU1_1131_PRODUCT_ID : Nat := 0x1131

def TI_SET_CONFIG : Nat := 0x05
def TI_OPEN_PORT : Nat := 0x06
def TI_CLOSE_PORT : Nat := 0x07
def TI_START_PORT : Nat := 0x08
def TI_PURGE_PORT : Nat := 0x0B
def TI_WRITE_DATA : Nat := 0x80

def TI_UART1_PORT : Nat := 0x03
def TI_RAM_PORT : Nat := 0x05

def TI_MSR_DELTA_CTS : Nat := 0x01
def TI_MSR_DELTA_DSR : Nat := 0x02
def TI_MSR_DELTA_RI : Nat := 0x04
def TI_MSR_DELTA_CD : Nat := 0x08
def TI_MSR_DELTA_MASK : Nat := 0x0F
def TI_MSR_MASK : Nat := 0xF0

def TI_MCR_LOOP : Nat := 0x04
def TI_MCR_DTR : Nat := 0x10
def TI_MCR_RTS : Nat := 0x20

def TI_UART_ENABLE_RTS_IN : Nat := 0x0001
def TI_UART_ENABLE_PARITY_CHECKING : Nat := 0x0008
def TI_UART_ENABLE_CTS_OUT : Nat := 0x0020
def TI_UART_ENABLE_X_OUT : Nat := 0x0040
def TI_UART_ENABLE_X_IN : Nat := 0x0100
def TI_UART_ENABLE_MS_INTS : Nat := 0x2000
def TI_UART_ENABLE_AUTO_START_DMA : Nat := 0x4000

def TI_UART_NO_PARITY : Nat := 0x00
def TI_UART_ODD_PARITY : Nat := 0x01
def TI_UART_EVEN_PARITY : Nat := 0x02

def TI_UART_1_STOP_BITS : Nat := 0x00
def TI_UART_2_STOP_BITS : Nat := 0x02

def TI_UART_5_DATA_BITS : Nat := 0x00
def TI_UART_6_DATA_BITS : Nat := 0x01
def TI_UART_7_DATA_BITS : Nat := 0x02
def TI_UART_8_DATA_BITS : Nat := 0x03

def TI_UART_232 : Nat := 0x00
def TI_UART_485_RECEIVER_DISABLED : Nat := 0x01

def TI_PIPE_MODE_CONTINOUS : Nat := 0x01
def TI_PIPE_TIMEOUT_ENABLE : Nat := 0x80

def TI_PURGE_OUTPUT : Nat := 0x00
def TI_PURGE_INPUT : Nat := 0x80

def TI_RW_DATA_ADDR_XDATA : Nat := 0x30
def TI_RW_DATA_BYTE : Nat := 0x01

def TI_CODE_HARDWARE_ERROR : Nat := 0xFF
def TI_CODE_DATA_ERROR : Nat := 0x03
def TI_CODE_MODEM_STATUS : Nat := 0x04

def TI_DOWNLOAD_MAX_PACKET_SIZE : Nat := 64

def TI_UART1_BASE_ADDR : Nat := 0xFFA0
def TI_UART2_BASE_ADDR : Nat := 0xFFB0
def TI_UART_OFFSET_MCR : Nat := 0x0004

def TI_3410_BAUD_BASE : Nat := 923077
def TI_5052_BAUD_BASE : Nat := 461538

def TI_FIRMWARE_BUF_SIZE : Nat := 16284
def TI_TRANSFER_TIMEOUT : Nat := 2

/-- Size of `struct ti_firmware_header`: `__le16 wLength; u8 bCheckSum`, packed. -/
def sizeof_ti_firmware_header : Nat := 3

/-! ## Kernel constants the driver uses (errno values, termios bits of
`asm-generic/termbits.h`) -/

def ENOENT : Int := 2
def EIO : Int := 5
def ENOMEM : Int := 12
def ENODEV : Int := 19
def EINVAL : Int := 22
def ECONNRESET : Int := 104
def ESHUTDOWN : Int := 108
def ERESTARTSYS : Int := 512

def CBAUD : Nat := 0o010017
def B0 : Nat := 0
def CSIZE : Nat := 0o60
def CS5 : Nat := 0o00
def CS6 : Nat := 0o20
def CS7 : Nat := 0o40
def CS8 : Nat := 0o60
def CSTOPB : Nat := 0o100
def PARENB : Nat := 0o400
def PARODD : Nat := 0o1000
def CMSPAR : Nat := 0o10000000000
def CRTSCTS : Nat := 0o20000000000
def IXON : Nat := 0o2000
def IXOFF : Nat := 0o10000

/-! ## Data model -/

/-- The driver's `struct ti_port` (the lock and the back pointers are left out:
the port is found by its index, the device is the enclosing state). -/
structure ti_port where
  tp_msr : Nat
  tp_shadow_mcr : Nat
  tp_uart_mode : Nat
  tp_uart_base_addr : Nat
  deriving DecidableEq, Repr, Inhabited

/-- The driver's `struct ti_device` (without the mutex, which is in the state). -/
structure ti_device where
  td_open_port_count : Int
  td_is_3410 : Bool
  td_model : Nat
  deriving DecidableEq, Repr, Inhabited

/-- The modem-event counters of `port->icount` that the driver touches (each a
`__u32`). -/
structure async_icount where
  cts : Nat
  dsr : Nat
  rng : Nat
  dcd : Nat
  deriving DecidableEq, Repr, Inhabited

/-- What the driver uses of a `struct usb_serial_port`: `has_read_urb` and
`has_write_urb` say whether `port->read_urb` and `port->write_urb` are not
`NULL`. -/
structure usb_serial_port where
  tport : ti_port
  icount : async_icount
  has_read_urb : Bool
  has_write_urb : Bool
  deriving DecidableEq, Repr, Inhabited

/-- The calls the driver makes into the USB core, the firmware loader, the
locking primitives and the error log, in the order they are made.
`control_msg` is one `usb_control_msg` with its request, value, index, data
block and return value; `bulk_msg` is one `usb_bulk_msg` with its data, its
return value and the transferred count; `dev_err` is one error message (its
text without the arguments). -/
inductive Event where
  | mutex_lock
  | mutex_unlock
  | submit_interrupt_urb (status : Int)
  | kill_interrupt_urb
  | control_msg (request value index : Nat) (data : List Nat) (ret : Int)
  | clear_halt_write
  | clear_halt_read
  | submit_read_urb (status : Int)
  | kill_read_urb
  | kill_write_urb
  | kfifo_reset_out
  | wake_up_delta_msr_wait
  | request_firmware (name : String) (found : Bool)
  | bulk_msg (data : List Nat) (status : Int) (done : Nat)
  | usb_reset_device
  | usb_driver_set_configuration (config : Nat) (ret : Int)
  | dev_err (msg : String)
  deriving DecidableEq, Repr

/-- One attached device: the `struct usb_serial` with its ports, the driver's
`ti_device`, whether `serial->port[0]->interrupt_in_urb` exists and whether it
is submitted (the interrupt channel is running), whether `td_open_close_lock`
is held, and the trace of calls made so far. -/
structure usb_serial where
  num_ports : Nat
  port : List usb_serial_port
  tdev : ti_device
  has_interrupt_in_urb : Bool
  interrupt_in_urb_active : Bool
  td_open_close_lock : Bool
  trace : List Event
  deriving DecidableEq, Repr

/-- What the driver reads of the tty's `struct ktermios`; `baud` is what
`tty_get_baud_rate` returns for it. -/
structure ktermios where
  c_cflag : Nat
  c_iflag : Nat
  c_cc_VSTART : Nat
  c_cc_VSTOP : Nat
  baud : Nat
  deriving DecidableEq, Repr, Inhabited

/-! ## State helpers -/

def emit (s : usb_serial) (e : Event) : usb_serial :=
  { s with trace := s.trace ++ [e] }

/-- One `dev_err` under a condition: `if (c) dev_err(...)`. -/
def dev_err_if (s : usb_serial) (c : Bool) (msg : String) : usb_serial :=
  if c then emit s (Event.dev_err msg) else s

/-- Apply `f` to the element of index `p`. -/
def update_port (ports : List usb_serial_port) (p : Nat)
    (f : usb_serial_port → usb_serial_port) : List usb_serial_port :=
  match ports, p with
  | [], _ => []
  | x :: xs, 0 => f x :: xs
  | x :: xs, p + 1 => x :: update_port xs p f

/-- The `ti_port` of port `p` (`usb_get_serial_port_data`). -/
def get_tport (s : usb_serial) (p : Nat) : ti_port :=
  (s.port.getD p default).tport

def set_tport (s : usb_serial) (p : Nat) (f : ti_port → ti_port) : usb_serial :=
  { s with port := update_port s.port p (fun x => { x with tport := f x.tport }) }

/-- Taking `td_open_close_lock`. -/
def mutex_lock (s : usb_serial) : usb_serial :=
  { emit s Event.mutex_lock with td_open_close_lock := true }

/-- Releasing `td_open_close_lock`. -/
def mutex_unlock (s : usb_serial) : usb_serial :=
  { emit s Event.mutex_unlock with td_open_close_lock := false }

/-- Kernel `usb_kill_urb` on the interrupt URB: afterwards it is not submitted. -/
def usb_kill_interrupt_urb (s : usb_serial) : usb_serial :=
  { emit s Event.kill_interrupt_urb with interrupt_in_urb_active := false }

/-- Kernel `usb_submit_urb` on the interrupt URB with the given return value:
the URB is in flight afterwards exactly when the call returned 0. -/
def usb_submit_interrupt_urb (s : usb_serial) (status : Int) : usb_serial :=
  if status = 0 then
    { emit s (Event.submit_interrupt_urb status) with interrupt_in_urb_active := true }
  else emit s (Event.submit_interrupt_urb status)

/-! ## Control transfers -/

/-- Source `ti_send_ctrl_data_urb`: `ret` is what `usb_control_msg` returned. -/
def ti_send_ctrl_data_urb (s : usb_serial) (request value index : Nat)
    (data : List Nat) (ret : Int) : usb_serial × Int :=
  let s := emit s (Event.control_msg request value index data ret)
  if ret < 0 then (emit s (Event.dev_err "usb_control_msg failed"), ret)
  else if ret ≠ (data.length : Int) then (emit s (Event.dev_err "short write"), - EIO)
  else (s, 0)

/-- Source `ti_send_ctrl_urb`: a control transfer without data. -/
def ti_send_ctrl_urb (s : usb_serial) (request value index : Nat) (ret : Int) :
    usb_serial × Int :=
  ti_send_ctrl_data_urb s request value index [] ret

/-- Source `ti_write_byte`: `alloc` is whether `kmalloc` succeeded. The record
is `ti_write_data_bytes` (7 bytes, packed) followed by mask and byte. -/
def ti_write_byte (s : usb_serial) (addr mask byte : Nat) (alloc : Bool) (ret : Int) :
    usb_serial × Int :=
  if !alloc then (s, -ENOMEM)
  else
    let hi := (addr >>> 16) % 65536
    let lo := addr % 65536
    let data := [TI_RW_DATA_ADDR_XDATA, TI_RW_DATA_BYTE, 1,
                 hi / 256, hi % 256, lo / 256, lo % 256, mask % 256, byte % 256]
    let r := ti_send_ctrl_data_urb s TI_WRITE_DATA 0 TI_RAM_PORT data ret
    (dev_err_if r.1 (decide (r.2 < 0)) "ti_write_byte failed", r.2)

/-- Source `ti_set_mcr`: the shadow is updated only when the write succeeded. -/
def ti_set_mcr (s : usb_serial) (p : Nat) (mcr : Nat) (alloc : Bool) (ret : Int) :
    usb_serial × Int :=
  let r := ti_write_byte s ((get_tport s p).tp_uart_base_addr + TI_UART_OFFSET_MCR)
    (TI_MCR_RTS ||| TI_MCR_DTR ||| TI_MCR_LOOP) mcr alloc ret
  if r.2 = 0 then (set_tport r.1 p (fun t => { t with tp_shadow_mcr := mcr % 256 }), r.2)
  else r

/-! ## Line settings -/

/-- The driver's `struct ti_uart_config`, fields in host order; `wBaudRate` and
`wFlags` are 16-bit. -/
structure ti_uart_config where
  wBaudRate : Nat
  wFlags : Nat
  bDataBits : Nat
  bParity : Nat
  bStopBits : Nat
  cXon : Nat
  cXoff : Nat
  bUartMode : Nat
  deriving DecidableEq, Repr, Inhabited

/-- The bytes of the packed `struct ti_uart_config` after `cpu_to_be16s` on the
two 16-bit fields, as handed to `ti_send_ctrl_data_urb` with `sizeof(*config)`. -/
def ti_uart_config_bytes (c : ti_uart_config) : List Nat :=
  [c.wBaudRate / 256 % 256, c.wBaudRate % 256, c.wFlags / 256 % 256, c.wFlags % 256,
   c.bDataBits, c.bParity, c.bStopBits, c.cXon, c.cXoff, c.bUartMode]

/-- The value a C `int` holds after it is assigned a 32-bit `unsigned int`:
values from 2^31 on come out negative. -/
def int_of_unsigned (x : Nat) : Int :=
  if x % 4294967296 < 2147483648 then ((x % 4294967296 : Nat) : Int)
  else ((x % 4294967296 : Nat) : Int) - 4294967296

/-- The baud rate `ti_set_termios` works with (lines 954-956): the `speed_t`
that `tty_get_baud_rate` returns, stored in `int baud`, and 9600 if that is 0. -/
def ti_termios_baud (tty : ktermios) : Int :=
  if int_of_unsigned tty.baud = 0 then 9600 else int_of_unsigned tty.baud

/-- The configuration `ti_set_termios` builds in its zeroed `config` block
(source lines 894-960), before the byte swap.  The divisor is computed in C
`int` arithmetic (division truncates towards zero) and cut to the 16 bits of
`wBaudRate` by the assignment. -/
def ti_termios_config (tport : ti_port) (td_is_3410 : Bool) (tty : ktermios) :
    ti_uart_config :=
  let cflag := tty.c_cflag
  let iflag := tty.c_iflag
  let wFlags := (0 ||| TI_UART_ENABLE_MS_INTS) ||| TI_UART_ENABLE_AUTO_START_DMA
  let bDataBits :=
    if cflag &&& CSIZE = CS5 then TI_UART_5_DATA_BITS
    else if cflag &&& CSIZE = CS6 then TI_UART_6_DATA_BITS
    else if cflag &&& CSIZE = CS7 then TI_UART_7_DATA_BITS
    else TI_UART_8_DATA_BITS
  let wFlags :=
    if cflag &&& PARENB ≠ 0 then wFlags ||| TI_UART_ENABLE_PARITY_CHECKING
    else wFlags &&& (0xFFFF ^^^ TI_UART_ENABLE_PARITY_CHECKING)
  let bParity :=
    if cflag &&& PARENB ≠ 0 then
      (if cflag &&& PARODD ≠ 0 then TI_UART_ODD_PARITY else TI_UART_EVEN_PARITY)
    else TI_UART_NO_PARITY
  let bStopBits :=
    if cflag &&& CSTOPB ≠ 0 then TI_UART_2_STOP_BITS else TI_UART_1_STOP_BITS
  let wFlags :=
    if cflag &&& CRTSCTS ≠ 0 then
      (if cflag &&& CBAUD ≠ B0 then wFlags ||| TI_UART_ENABLE_RTS_IN else wFlags)
        ||| TI_UART_ENABLE_CTS_OUT
    else wFlags
  let xany := iflag &&& IXOFF ≠ 0 ∨ iflag &&& IXON ≠ 0
  let cXon := if xany then tty.c_cc_VSTART % 256 else 0
  let cXoff := if xany then tty.c_cc_VSTOP % 256 else 0
  let wFlags :=
    if xany then
      let w := if iflag &&& IXOFF ≠ 0 then wFlags ||| TI_UART_ENABLE_X_IN else wFlags
      if iflag &&& IXON ≠ 0 then w ||| TI_UART_ENABLE_X_OUT else w
    else wFlags
  let baud := ti_termios_baud tty
  let wBaudRate :=
    if td_is_3410 then
      (Int.tdiv ((TI_3410_BAUD_BASE : Int) + Int.tdiv baud 2) baud % 65536).toNat
    else (Int.tdiv ((TI_5052_BAUD_BASE : Int) + Int.tdiv baud 2) baud % 65536).toNat
  { wBaudRate := wBaudRate, wFlags := wFlags, bDataBits := bDataBits,
    bParity := bParity, bStopBits := bStopBits, cXon := cXon, cXoff := cXoff,
    bUartMode := tport.tp_uart_mode }

/-- Results of the calls `ti_set_termios` makes: the two allocations and the
two `usb_control_msg` calls. -/
structure termios_env where
  config_alloc : Bool
  set_config_ret : Int
  mcr_alloc : Bool
  mcr_ret : Int
  deriving DecidableEq, Repr, Inhabited

/-- The termios as `ti_set_termios` leaves it: `CMSPAR` cleared, and the rate
re-encoded by `tty_encode_baud_rate(tty, baud, baud)` unless the rate is `B0`
(the `int` is passed as a `speed_t` again). -/
def ti_termios_after (tty : ktermios) : ktermios :=
  { tty with
    c_cflag := tty.c_cflag &&& (0xFFFFFFFF ^^^ CMSPAR),
    baud := if tty.c_cflag &&& CBAUD ≠ B0 then (ti_termios_baud tty % 4294967296).toNat
            else tty.baud }

/-- Source `ti_set_termios` for port `p`.  Both failures are only logged. -/
def ti_set_termios (s : usb_serial) (p : Nat) (tty : ktermios) (e : termios_env) :
    usb_serial × ktermios :=
  if !e.config_alloc then (s, tty)
  else
    let config := ti_termios_config (get_tport s p) s.tdev.td_is_3410 tty
    let r := ti_send_ctrl_data_urb s TI_SET_CONFIG 0 (TI_UART1_PORT + p)
      (ti_uart_config_bytes config) e.set_config_ret
    let s1 := dev_err_if r.1 (decide (r.2 ≠ 0)) "cannot set config"
    let mcr := (get_tport s1 p).tp_shadow_mcr
    let mcr :=
      if tty.c_cflag &&& CBAUD = B0 then mcr &&& (0xFFFFFFFF ^^^ (TI_MCR_DTR ||| TI_MCR_RTS))
      else mcr
    let r2 := ti_set_mcr s1 p mcr e.mcr_alloc e.mcr_ret
    (dev_err_if r2.1 (decide (r2.2 ≠ 0)) "cannot set modem control", ti_termios_after tty)

/-- Source `ti_set_termios` as `ti_open` calls it: only `if (tty)`. -/
def ti_open_set_termios (s : usb_serial) (p : Nat) (tty : Option ktermios)
    (e : termios_env) : usb_serial × Option ktermios :=
  match tty with
  | none => (s, none)
  | some t => ((ti_set_termios s p t e).1, some (ti_set_termios s p t e).2)

/-! ## Open and close -/

/-- Results of the calls one `ti_open` makes, in source order: whether
`mutex_lock_interruptible` was interrupted, `usb_submit_urb` on the interrupt
URB, the first `ti_set_termios`, the four `usb_control_msg` of the first
command block, the second `ti_set_termios`, the two `usb_control_msg` of the
second block and `usb_submit_urb` on the read URB.  `tty` is the caller's tty
(`NULL` or its termios). -/
structure ti_open_env where
  tty : Option ktermios
  lock_interrupted : Bool
  int_submit : Int
  termios1 : termios_env
  open1 : Int
  start1 : Int
  purge_in : Int
  purge_out : Int
  termios2 : termios_env
  open2 : Int
  start2 : Int
  read_submit : Int
  deriving DecidableEq, Repr, Inhabited

/-- Label `release_lock` of `ti_open`. -/
def ti_open_release_lock (s : usb_serial) (status : Int) : usb_serial × Int :=
  (mutex_unlock s, status)

/-- Label `unlink_int_urb` of `ti_open`, falling through to `release_lock`. -/
def ti_open_unlink_int_urb (s : usb_serial) (status : Int) : usb_serial × Int :=
  if s.tdev.td_open_port_count = 0 then ti_open_release_lock (usb_kill_interrupt_urb s) status
  else ti_open_release_lock s status

/-- The value `open_settings` of `ti_open`. -/
def ti_open_settings : Nat :=
  (TI_PIPE_MODE_CONTINOUS ||| TI_PIPE_TIMEOUT_ENABLE ||| (TI_TRANSFER_TIMEOUT <<< 2)) % 65536

/-- A failure exit of `ti_open` after the interrupt URB was started: the error
message, then `goto unlink_int_urb`. -/
def ti_open_fail (s : usb_serial) (msg : String) (status : Int) : usb_serial × Int :=
  ti_open_unlink_int_urb (emit s (Event.dev_err msg)) status

/-- A call that came back with the status `r.2`. -/
def returned (r : usb_serial × Int) : usb_serial × Option Int :=
  (r.1, some r.2)

/-- Source `ti_open` from line 746 on, `tty` being what the first
`ti_set_termios` left.  The status is `none` when the call does not come back:
lines 746 and 747 read `port->write_urb->pipe` and `port->read_urb->pipe`
before the `NULL` test of line 770, so on a port without one of the two URBs
the call faults there (a `NULL` dereference in the kernel ends the calling
task), in the state reached so far and with the lock still held. -/
def ti_open_restart (s : usb_serial) (p : Nat) (tty : Option ktermios) (e : ti_open_env) :
    usb_serial × Option Int :=
  if !(s.port.getD p default).has_write_urb then (s, none) else
  let s := emit s Event.clear_halt_write
  if !(s.port.getD p default).has_read_urb then (s, none) else
  let s := emit s Event.clear_halt_read
  let t2 := ti_open_set_termios s p tty e.termios2
  let r := ti_send_ctrl_urb t2.1 TI_OPEN_PORT ti_open_settings (TI_UART1_PORT + p) e.open2
  if r.2 ≠ 0 then returned (ti_open_fail r.1 "cannot send open command (2)" r.2) else
  let r := ti_send_ctrl_urb r.1 TI_START_PORT 0 (TI_UART1_PORT + p) e.start2
  if r.2 ≠ 0 then returned (ti_open_fail r.1 "cannot send start command (2)" r.2) else
  if !(r.1.port.getD p default).has_read_urb then
    returned (ti_open_fail r.1 "no read urb" (-EINVAL)) else
  let s := emit r.1 (Event.submit_read_urb e.read_submit)
  if e.read_submit ≠ 0 then returned (ti_open_fail s "submit read urb failed" e.read_submit) else
  let s := { s with tdev := { s.tdev with td_open_port_count := s.tdev.td_open_port_count + 1 } }
  returned (ti_open_release_lock s e.read_submit)

/-- Source `ti_open`, from the first `ti_set_termios` (line 709) on. -/
def ti_open_commands (s : usb_serial) (p : Nat) (e : ti_open_env) : usb_serial × Option Int :=
  let t1 := ti_open_set_termios s p e.tty e.termios1
  let r := ti_send_ctrl_urb t1.1 TI_OPEN_PORT ti_open_settings (TI_UART1_PORT + p) e.open1
  if r.2 ≠ 0 then returned (ti_open_fail r.1 "cannot send open command" r.2) else
  let r := ti_send_ctrl_urb r.1 TI_START_PORT 0 (TI_UART1_PORT + p) e.start1
  if r.2 ≠ 0 then returned (ti_open_fail r.1 "cannot send start command" r.2) else
  let r := ti_send_ctrl_urb r.1 TI_PURGE_INPUT TI_PURGE_INPUT (TI_UART1_PORT + p) e.purge_in
  if r.2 ≠ 0 then returned (ti_open_fail r.1 "cannot clear input buffers" r.2) else
  let r := ti_send_ctrl_urb r.1 TI_PURGE_INPUT TI_PURGE_OUTPUT (TI_UART1_PORT + p) e.purge_out
  if r.2 ≠ 0 then returned (ti_open_fail r.1 "cannot clear output buffers" r.2) else
  ti_open_restart r.1 p t1.2 e

/-- Lines 690-691 of `ti_open`: `tp_msr = 0; tp_shadow_mcr |= (TI_MCR_RTS | TI_MCR_DTR)`. -/
def ti_open_reset_cache (s : usb_serial) (p : Nat) : usb_serial :=
  set_tport s p (fun t =>
    { t with tp_msr := 0, tp_shadow_mcr := t.tp_shadow_mcr ||| (TI_MCR_RTS ||| TI_MCR_DTR) })

/-- Source `ti_open` on port `p`: the new state and the returned status, `none`
when the call does not come back.  `mutex_lock_interruptible` returns non-zero
when a signal interrupts it (`lock_interrupted`); when it is not interrupted it
takes the lock if the lock is free and otherwise sleeps: a lock that is held
when the call is made is held by a task that faulted, so the sleep does not
end. -/
def ti_open (s : usb_serial) (p : Nat) (e : ti_open_env) : usb_serial × Option Int :=
  if e.lock_interrupted then (s, some (-ERESTARTSYS)) else
  if s.td_open_close_lock then (s, none) else
  let s := ti_open_reset_cache (mutex_lock s) p
  if s.tdev.td_open_port_count = 0 then
    if !s.has_interrupt_in_urb then
      returned (ti_open_release_lock (emit s (Event.dev_err "no interrupt urb")) (-EINVAL))
    else
      let s := usb_submit_interrupt_urb s e.int_submit
      if e.int_submit ≠ 0 then
        returned (ti_open_release_lock
          (emit s (Event.dev_err "submit interrupt urb failed")) e.int_submit)
      else ti_open_commands s p e
  else ti_open_commands s p e

/-- Results of the calls one `ti_close` makes: `usb_control_msg` of the
close-port command and whether `mutex_lock_interruptible` was interrupted. -/
structure ti_close_env where
  close_ret : Int
  lock_interrupted : Bool
  deriving DecidableEq, Repr, Inhabited

/-- Source `ti_close` up to `mutex_lock_interruptible` (lines 808-821).
`usb_kill_urb` accepts a `NULL` URB. -/
def ti_close_head (s : usb_serial) (p : Nat) (e : ti_close_env) : usb_serial :=
  let s := emit (emit (emit s Event.kill_read_urb) Event.kill_write_urb) Event.kfifo_reset_out
  let r := ti_send_ctrl_urb s TI_CLOSE_PORT 0 (TI_UART1_PORT + p) e.close_ret
  dev_err_if r.1 (decide (r.2 ≠ 0)) "cannot send close port command"

/-- Source `ti_close` from `mutex_lock_interruptible` on (lines 824-832), once
that call has come back: `do_unlock` is whether it took the lock. -/
def ti_close_tail (s : usb_serial) (do_unlock : Bool) : usb_serial :=
  let s : usb_serial := if do_unlock then mutex_lock s else s
  let s : usb_serial :=
    { s with tdev := { s.tdev with td_open_port_count := s.tdev.td_open_port_count - 1 } }
  let s : usb_serial :=
    if s.tdev.td_open_port_count ≤ 0 then
      { usb_kill_interrupt_urb s with
        tdev := { s.tdev with td_open_port_count := 0 } }
    else s
  if do_unlock then mutex_unlock s else s

/-- Source `ti_close` on port `p`: the new state, and `some ()` when the call
comes back.  As in `ti_open`, a `mutex_lock_interruptible` that is not
interrupted sleeps without end on a lock that is held. -/
def ti_close (s : usb_serial) (p : Nat) (e : ti_close_env) : usb_serial × Option Unit :=
  let s := ti_close_head s p e
  if (!e.lock_interrupted && s.td_open_close_lock) = true then (s, none)
  else (ti_close_tail s (!e.lock_interrupted), some ())

/-- One call of the driver's open or close entry point with its call results. -/
inductive Call where
  | ti_open (p : Nat) (e : ti_open_env)
  | ti_close (p : Nat) (e : ti_close_env)
  deriving Repr

/-- The state after one call (the state it left when it did not come back). -/
def step (s : usb_serial) : Call → usb_serial
  | Call.ti_open p e => (ti_open s p e).1
  | Call.ti_close p e => (ti_close s p e).1

/-- Whether the call comes back. -/
def call_returns (s : usb_serial) : Call → Prop
  | Call.ti_open p e => (ti_open s p e).2 ≠ none
  | Call.ti_close p e => (ti_close s p e).2 ≠ none

/-- Every call of the sequence comes back. -/
def all_return : usb_serial → List Call → Prop
  | _, [] => True
  | s, c :: cs => call_returns s c ∧ all_return (step s c) cs

/-- The state after a sequence of calls, made one after the other. -/
def run (s : usb_serial) (calls : List Call) : usb_serial :=
  calls.foldl step s

/-- A freshly attached device (`ti_startup` zeroes the `ti_device`): no port
open, interrupt URB not submitted, lock free, nothing traced yet. -/
def attached (num_ports : Nat) (port : List usb_serial_port) (td_is_3410 : Bool)
    (td_model : Nat) (has_interrupt_in_urb : Bool) : usb_serial :=
  { num_ports := num_ports, port := port,
    tdev := { td_open_port_count := 0, td_is_3410 := td_is_3410, td_model := td_model },
    has_interrupt_in_urb := has_interrupt_in_urb, interrupt_in_urb_active := false,
    td_open_close_lock := false, trace := [] }

/-! ## Interrupt channel -/

/-- Source `ti_get_port_from_code`: a C `int`, negative for codes below 0x30. -/
def ti_get_port_from_code (code : Nat) : Int :=
  ((code >>> 4 : Nat) : Int) - 3

/-- Source `ti_get_func_from_code`. -/
def ti_get_func_from_code (code : Nat) : Nat :=
  code &&& 0x0f

/-- Source `ti_handle_new_msr` for the port of index `port`: the modem-event
counters of that port (`__u32`, so `++` wraps at 2^32), then its cached modem
status. -/
def ti_handle_new_msr (s : usb_serial) (port : Nat) (msr : Nat) : usb_serial :=
  let s : usb_serial :=
    if msr &&& TI_MSR_DELTA_MASK ≠ 0 then
      emit { s with port := update_port s.port port (fun x =>
        { x with icount :=
          { cts := if msr &&& TI_MSR_DELTA_CTS ≠ 0 then (x.icount.cts + 1) % 4294967296
                   else x.icount.cts,
            dsr := if msr &&& TI_MSR_DELTA_DSR ≠ 0 then (x.icount.dsr + 1) % 4294967296
                   else x.icount.dsr,
            dcd := if msr &&& TI_MSR_DELTA_CD ≠ 0 then (x.icount.dcd + 1) % 4294967296
                   else x.icount.dcd,
            rng := if msr &&& TI_MSR_DELTA_RI ≠ 0 then (x.icount.rng + 1) % 4294967296
                   else x.icount.rng } }) }
        Event.wake_up_delta_msr_wait
    else s
  set_tport s port (fun t => { t with tp_msr := msr &&& TI_MSR_MASK })

/-- A completed interrupt URB as `ti_interrupt_callback` sees it: `context` is
the index of the port the URB belongs to (the USB serial core sets
`urb->context` to the port that owns the URB; `ti_open` submits the URB of
`serial->port[0]`), `status` the completion status, `actual_length` the
received length and `transfer_buffer` the received bytes. -/
structure urb where
  context : Nat
  status : Int
  actual_length : Nat
  transfer_buffer : List Nat
  deriving DecidableEq, Repr, Inhabited

/-- Label `exit` of `ti_interrupt_callback`: resubmit the URB; `resubmit` is
what `usb_submit_urb` returns. -/
def ti_interrupt_callback_exit (s : usb_serial) (resubmit : Int) : usb_serial :=
  dev_err_if (usb_submit_interrupt_urb s resubmit) (decide (resubmit ≠ 0))
    "resubmit interrupt urb failed"

/-- Source `ti_interrupt_callback`.  On entry the URB has completed, so it is
not in flight until it is submitted again. -/
def ti_interrupt_callback (s : usb_serial) (u : urb) (resubmit : Int) : usb_serial :=
  let s : usb_serial := { s with interrupt_in_urb_active := false }
  let port := u.context
  let data := u.transfer_buffer
  if u.status = 0 then
    if u.actual_length ≠ 2 then ti_interrupt_callback_exit s resubmit
    else if data.getD 0 0 = TI_CODE_HARDWARE_ERROR then
      ti_interrupt_callback_exit (emit s (Event.dev_err "hardware error")) resubmit
    else
      let port_number := ti_get_port_from_code (data.getD 0 0)
      let function := ti_get_func_from_code (data.getD 0 0)
      if port_number ≥ (s.num_ports : Int) then
        ti_interrupt_callback_exit (emit s (Event.dev_err "bad port number")) resubmit
      else if function = TI_CODE_DATA_ERROR then
        ti_interrupt_callback_exit (emit s (Event.dev_err "DATA ERROR")) resubmit
      else if function = TI_CODE_MODEM_STATUS then
        ti_interrupt_callback_exit (ti_handle_new_msr s port (data.getD 1 0)) resubmit
      else
        ti_interrupt_callback_exit (emit s (Event.dev_err "unknown interrupt code")) resubmit
  else if u.status = -ECONNRESET ∨ u.status = -ENOENT ∨ u.status = -ESHUTDOWN then s
  else ti_interrupt_callback_exit (emit s (Event.dev_err "nonzero urb status")) resubmit

/-! ## Firmware download -/

/-- One hexadecimal digit as `printf` writes it for `%x`. -/
def hex_digit (d : Nat) : Char :=
  if d < 10 then Char.ofNat (48 + d) else Char.ofNat (87 + d)

/-- The digits of `n` in base 16, most significant first, at least `width` of
them (`fuel` bounds the number of digits produced). -/
def hex_digits : Nat → Nat → Nat → List Char
  | 0, _, _ => []
  | fuel + 1, width, n =>
    if n < 16 ∧ width ≤ 1 then [hex_digit n]
    else hex_digits fuel (width - 1) (n / 16) ++ [hex_digit (n % 16)]

/-- Kernel `sprintf` with `%04x` for a 16-bit value. -/
def hex04 (n : Nat) : String :=
  String.mk (hex_digits 4 4 (n % 65536))

/-- The name `ti_download_firmware` asks for first (line 1314). -/
def ti_firmware_name_id (idVendor idProduct : Nat) : String :=
  "ti_usb-v" ++ hex04 idVendor ++ "-p" ++ hex04 idProduct ++ ".fw"

/-- The Multi-Tech `switch` of `ti_download_firmware` (lines 1322-1340): the
name copied into `buf`, or `buf` left empty. -/
def ti_firmware_name_mts (idProduct : Nat) : String :=
  if idProduct = MTS_CDMA_PRODUCT_ID then "mts_cdma.fw"
  else if idProduct = MTS_GSM_PRODUCT_ID then "mts_gsm.fw"
  else if idProduct = MTS_EDGE_PRODUCT_ID then "mts_edge.fw"
  else if idProduct = MTS_MT9234MU_PRODUCT_ID then "mts_mt9234mu.fw"
  else if idProduct = MTS_MT9234ZBA_PRODUCT_ID then "mts_mt9234zba.fw"
  else if idProduct = MTS_MT9234ZBAOLD_PRODUCT_ID then "mts_mt9234zba.fw"
  else ""

/-- The name `ti_download_firmware` asks for when the first request failed
(lines 1320-1355). -/
def ti_firmware_name_second (idVendor idProduct : Nat) (td_is_3410 : Bool) : String :=
  let buf := ""
  let buf := if idVendor = MTS_VENDOR_ID then ti_firmware_name_mts idProduct else buf
  let buf :=
    if idVendor = MXU1_VENDOR_ID then "moxa/moxa-" ++ hex04 idProduct ++ ".fw" else buf
  if buf = "" then (if td_is_3410 then "ti_3410.fw" else "ti_5052.fw") else buf

/-- The checksum loop of `ti_do_download` (lines 1282-1283): the bytes at
positions `sizeof(*header) .. size - 1`, summed in a `u8`. -/
def ti_do_download_checksum (buffer : List Nat) (size : Nat) : Nat :=
  (List.range' sizeof_ti_firmware_header (size - sizeof_ti_firmware_header)).foldl
    (fun cs pos => (cs + buffer.getD pos 0) % 256) 0

/-- The header write of `ti_do_download` (lines 1285-1287): `wLength` is
`size - sizeof(*header)` cut to 16 bits, stored low byte first, then the
checksum byte. -/
def ti_do_download_header (buffer : List Nat) (size : Nat) : List Nat :=
  let wLength := (((size : Int) - (sizeof_ti_firmware_header : Int)) % 65536).toNat
  ((buffer.set 0 (wLength % 256)).set 1 (wLength / 256)).set 2
    (ti_do_download_checksum buffer size)

/-- The transfer loop of `ti_do_download` (lines 1290-1296) from position `pos`
with `k` transfers made so far.  `usb_bulk_msg k len` is the status and the
transferred count of transfer number `k`, of requested length `len`.  The
result is the status and the trace of transfers; `none` when the loop has not
ended after `fuel` transfers. -/
def ti_do_download_loop (usb_bulk_msg : Nat → Nat → Int × Nat) (buffer : List Nat)
    (size : Nat) : Nat → Nat → Nat → Option (Int × List Event)
  | 0, _, pos => if pos < size then none else some (0, [])
  | fuel + 1, k, pos =>
    if pos < size then
      let len := min (size - pos) TI_DOWNLOAD_MAX_PACKET_SIZE
      let r := usb_bulk_msg k len
      let ev := Event.bulk_msg ((buffer.drop pos).take len) r.1 r.2
      if r.1 ≠ 0 then some (r.1, [ev])
      else (ti_do_download_loop usb_bulk_msg buffer size fuel (k + 1) (pos + r.2)).map
        (fun x => (x.1, ev :: x.2))
    else some (0, [])

/-- What a download leaves behind: the returned status, the calls made and the
transfer buffer as it was streamed (if one was allocated). -/
structure download_result where
  status : Int
  trace : List Event
  buffer : Option (List Nat)
  deriving DecidableEq, Repr

/-- Source `ti_do_download`. -/
def ti_do_download (usb_bulk_msg : Nat → Nat → Int × Nat) (buffer : List Nat) (size : Nat)
    (fuel : Nat) : Option download_result :=
  let buffer := ti_do_download_header buffer size
  (ti_do_download_loop usb_bulk_msg buffer size fuel 0 0).map
    (fun x => { status := x.1, trace := x.2, buffer := some buffer })

/-- The transfer buffer of `ti_download_firmware` (lines 1368-1372): the image
followed by 0xff up to `TI_FIRMWARE_BUF_SIZE + sizeof(struct ti_firmware_header)`. -/
def ti_download_buffer (data : List Nat) : List Nat :=
  data ++ List.replicate (TI_FIRMWARE_BUF_SIZE + sizeof_ti_firmware_header - data.length) 0xff

/-- Source `ti_download_firmware` from line 1362 on, for the image `data` that
`request_firmware` delivered.  `requests` is the trace so far. -/
def ti_download_image (requests : List Event) (data : List Nat) (buffer_alloc : Bool)
    (usb_bulk_msg : Nat → Nat → Int × Nat) (fuel : Nat) : Option download_result :=
  if data.length > TI_FIRMWARE_BUF_SIZE then
    some { status := -ENOENT, trace := requests ++ [Event.dev_err "firmware too large"],
           buffer := none }
  else if !buffer_alloc then
    some { status := -ENOMEM, trace := requests ++ [Event.dev_err "error downloading firmware"],
           buffer := none }
  else
    (ti_do_download usb_bulk_msg (ti_download_buffer data) data.length fuel).map
      (fun r =>
        { r with trace := requests ++ r.trace ++
            (if r.status ≠ 0 then [Event.dev_err "error downloading firmware"] else []) })

/-- Source `ti_download_firmware`.  `request_firmware name` is the image the
firmware loader delivers for `name`, or `none` when the request fails. -/
def ti_download_firmware (idVendor idProduct : Nat) (td_is_3410 : Bool)
    (request_firmware : String → Option (List Nat)) (buffer_alloc : Bool)
    (usb_bulk_msg : Nat → Nat → Int × Nat) (fuel : Nat) : Option download_result :=
  let buf := ti_firmware_name_id idVendor idProduct
  match request_firmware buf with
  | some data =>
    ti_download_image [Event.request_firmware buf true] data buffer_alloc usb_bulk_msg fuel
  | none =>
    let buf2 := ti_firmware_name_second idVendor idProduct td_is_3410
    match request_firmware buf2 with
    | some data =>
      ti_download_image [Event.request_firmware buf false, Event.request_firmware buf2 true]
        data buffer_alloc usb_bulk_msg fuel
    | none =>
      some { status := -ENOENT,
             trace := [Event.request_firmware buf false, Event.request_firmware buf2 false,
                       Event.dev_err "firmware not found"],
             buffer := none }

/-! ## Attach -/

/-- What `ti_startup` reads of the device and the results of the calls it
makes: whether `kzalloc` of the `ti_device` succeeded, whether the driver bound
is the one-port driver, the descriptor fields, the firmware loader, the buffer
allocation and bulk transfers of the download, and the return value of
`usb_driver_set_configuration`. -/
structure ti_startup_env where
  tdev_alloc : Bool
  is_1port : Bool
  idVendor : Nat
  idProduct : Nat
  bNumConfigurations : Nat
  bNumEndpoints : Nat
  bConfigurationValue : Nat
  request_firmware : String → Option (List Nat)
  buffer_alloc : Bool
  usb_bulk_msg : Nat → Nat → Int × Nat
  set_configuration : Int

/-- What `ti_startup` leaves behind: the returned status, the `ti_device` kept
as the serial data (`none` after `free_tdev` or when it was never allocated) and
the calls made. -/
structure startup_result where
  status : Int
  serial_data : Option ti_device
  trace : List Event
  deriving DecidableEq, Repr

/-- Source `ti_startup`; `none` when the firmware download has not ended after
`fuel` transfers. -/
def ti_startup (e : ti_startup_env) (fuel : Nat) : Option startup_result :=
  if !e.tdev_alloc then some { status := -ENOMEM, serial_data := none, trace := [] }
  else
    let tdev : ti_device :=
      { td_open_port_count := 0, td_is_3410 := e.is_1port, td_model := e.idProduct }
    if e.bNumConfigurations = 1 ∧ e.bNumEndpoints = 1 then
      (ti_download_firmware e.idVendor e.idProduct tdev.td_is_3410 e.request_firmware
          e.buffer_alloc e.usb_bulk_msg fuel).map
        (fun r =>
          if r.status ≠ 0 then { status := r.status, serial_data := none, trace := r.trace }
          else
            { status := -ENODEV, serial_data := none,
              trace := r.trace ++ (if tdev.td_is_3410 then [Event.usb_reset_device] else []) })
    else if e.bConfigurationValue = TI_BOOT_CONFIG then
      some { status := if e.set_configuration ≠ 0 then e.set_configuration else -ENODEV,
             serial_data := none,
             trace := [Event.usb_driver_set_configuration TI_ACTIVE_CONFIG e.set_configuration] }
    else some { status := 0, serial_data := some tdev, trace := [] }

/-- The states a device is in after a finite sequence of `ti_open` and
`ti_close` calls on a freshly attached device, every one of which came back. -/
def reachable (s : usb_serial) : Prop :=
  ∃ (num_ports : Nat) (port : List usb_serial_port) (td_is_3410 : Bool) (td_model : Nat)
    (has_interrupt_in_urb : Bool) (calls : List Call),
    all_return (attached num_ports port td_is_3410 td_model has_interrupt_in_urb) calls ∧
    s = run (attached num_ports port td_is_3410 td_model has_interrupt_in_urb) calls

/-- A port as `ti_port_probe` sets it up on an RS-232 model: port 0 gets the
first UART's base address, any other port the second's. -/
def probed_port (p : Nat) : usb_serial_port :=
  { tport := { tp_msr := 0, tp_shadow_mcr := 0, tp_uart_mode := TI_UART_232,
               tp_uart_base_addr := if p = 0 then TI_UART1_BASE_ADDR else TI_UART2_BASE_ADDR },
    icount := { cts := 0, dsr := 0, rng := 0, dcd := 0 },
    has_read_urb := true, has_write_urb := true }

/-- A port for which the USB serial core has no bulk-in URB (`port->read_urb`
is `NULL`). -/
def port_without_read_urb (p : Nat) : usb_serial_port :=
  { probed_port p with has_read_urb := false }

/-- A freshly attached one-port (3410) device whose port has no read URB. -/
def attached_3410_no_read_urb : usb_serial :=
  attached 1 [port_without_read_urb 0] true 0x3410 true

/-- A freshly attached two-port (5052) device whose second port has no read
URB. -/
def attached_5052_no_read_urb : usb_serial :=
  attached 2 [probed_port 0, port_without_read_urb 1] false 0x5052 true

/-- A freshly attached one-port (3410) device. -/
def fresh_3410 : usb_serial :=
  attached 1 [probed_port 0] true 0x3410 true

/-- A freshly attached two-port (5052) device. -/
def fresh_5052 : usb_serial :=
  attached 2 [probed_port 0, probed_port 1] false 0x5052 true

/-- Call results of a `ti_set_termios` in which both allocations and both
control transfers succeed (the transfers return the lengths written). -/
def termios_ok : termios_env :=
  { config_alloc := true, set_config_ret := 10, mcr_alloc := true, mcr_ret := 9 }

/-- Call results of a `ti_open` without a tty in which every call succeeds. -/
def open_ok : ti_open_env :=
  { tty := none, lock_interrupted := false, int_submit := 0, termios1 := termios_ok,
    open1 := 0, start1 := 0, purge_in := 0, purge_out := 0, termios2 := termios_ok,
    open2 := 0, start2 := 0, read_submit := 0 }

/-- The control transfers of a trace, in order: request, value and index. -/
def control_messages (t : List Event) : List (Nat × Nat × Nat) :=
  t.filterMap (fun ev =>
    match ev with
    | Event.control_msg request value index _ _ => some (request, value, index)
    | _ => none)

/-- The status `ti_startup` returns. -/
def ti_startup_status (e : ti_startup_env) (fuel : Nat) : Option Int :=
  (ti_startup e fuel).map (fun r => r.status)

/-- A bulk pipe on which every transfer succeeds and moves the whole chunk. -/
def bulk_whole : Nat → Nat → Int × Nat :=
  fun _ len => (0, len)

/-- A bulk pipe whose first transfer moves at most two bytes and whose second
transfer times out. -/
def bulk_second_fails : Nat → Nat → Int × Nat :=
  fun k len => if k = 0 then (0, min len 2) else (-110, 0)

/-- A firmware loader that has no image at all. -/
def no_firmware : String → Option (List Nat) :=
  fun _ => none

/-- A device running its firmware in the active configuration (two
configurations, three endpoints, configuration value 2), for which the
allocation of the `ti_device` fails. -/
def startup_no_memory : ti_startup_env :=
  { tdev_alloc := false, is_1port := true, idVendor := 0x0451, idProduct := 0x3410,
    bNumConfigurations := 2, bNumEndpoints := 3, bConfigurationValue := 2,
    request_firmware := no_firmware, buffer_alloc := true, usb_bulk_msg := bulk_whole,
    set_configuration := 0 }

/-- The lengths of the bulk transfers of a trace, in order. -/
def bulk_lengths (t : List Event) : List Nat :=
  t.filterMap (fun ev =>
    match ev with
    | Event.bulk_msg data _ _ => some data.length
    | _ => none)

/-- The names passed to `request_firmware` in a trace, in order. -/
def requested_names (t : List Event) : List String :=
  t.filterMap (fun ev =>
    match ev with
    | Event.request_firmware name _ => some name
    | _ => none)

/-- The image `ti_download_firmware` works with: the one delivered for the first
name, else the one delivered for the second name, else none. -/
def ti_firmware_resolved (idVendor idProduct : Nat) (td_is_3410 : Bool)
    (request_firmware : String → Option (List Nat)) : Option (List Nat) :=
  match request_firmware (ti_firmware_name_id idVendor idProduct) with
  | some data => some data
  | none => request_firmware (ti_firmware_name_second idVendor idProduct td_is_3410)

/-- A firmware loader that delivers `data` under every name. -/
def any_firmware (data : List Nat) : String → Option (List Nat) :=
  fun _ => some data

/-- A firmware loader that delivers `data` under the name `name` only. -/
def only_firmware (name : String) (data : List Nat) : String → Option (List Nat) :=
  fun n => if n = name then some data else none

/-- A device running its firmware in the active configuration. -/
def startup_ready : ti_startup_env :=
  { startup_no_memory with tdev_alloc := true }

/-- A device running its firmware but still in the boot configuration, for
which the configuration-switch request succeeds. -/
def startup_boot_config : ti_startup_env :=
  { startup_no_memory with tdev_alloc := true, bConfigurationValue := 1 }

/-- A device without firmware (one configuration, one endpoint) for which the
loader delivers the four-byte image 00 00 00 01 and the download goes through. -/
def startup_no_firmware : ti_startup_env :=
  { startup_no_memory with
    tdev_alloc := true, bNumConfigurations := 1, bNumEndpoints := 1, bConfigurationValue := 1,
    request_firmware := any_firmware [0, 0, 0, 1] }

/-! ## Modem-control lines -/

def TI_MSR_CTS : Nat := 0x10
def TI_MSR_DSR : Nat := 0x20
def TI_MSR_RI : Nat := 0x40
def TI_MSR_CD : Nat := 0x80

/-! The `TIOCM_*` bits of the kernel's `asm-generic/termios.h`. -/

def TIOCM_DTR : Nat := 0x002
def TIOCM_RTS : Nat := 0x004
def TIOCM_CTS : Nat := 0x020
def TIOCM_CAR : Nat := 0x040
def TIOCM_RI : Nat := 0x080
def TIOCM_DSR : Nat := 0x100
def TIOCM_LOOP : Nat := 0x8000

/-- The value `ti_tiocmget` builds from the two cached bytes (lines 1011-1017). -/
def ti_tiocmget_result (msr mcr : Nat) : Nat :=
  (if mcr &&& TI_MCR_DTR ≠ 0 then TIOCM_DTR else 0)
    ||| (if mcr &&& TI_MCR_RTS ≠ 0 then TIOCM_RTS else 0)
    ||| (if mcr &&& TI_MCR_LOOP ≠ 0 then TIOCM_LOOP else 0)
    ||| (if msr &&& TI_MSR_CTS ≠ 0 then TIOCM_CTS else 0)
    ||| (if msr &&& TI_MSR_CD ≠ 0 then TIOCM_CAR else 0)
    ||| (if msr &&& TI_MSR_RI ≠ 0 then TIOCM_RI else 0)
    ||| (if msr &&& TI_MSR_DSR ≠ 0 then TIOCM_DSR else 0)

/-- Source `ti_tiocmget` for port `p`. -/
def ti_tiocmget (s : usb_serial) (p : Nat) : Nat :=
  ti_tiocmget_result (get_tport s p).tp_msr (get_tport s p).tp_shadow_mcr

/-- The value `mcr` that `ti_tiocmset` computes from the shadow (lines 1034-1048). -/
def ti_tiocmset_mcr (shadow set clear : Nat) : Nat :=
  let mcr := shadow
  let mcr := if set &&& TIOCM_RTS ≠ 0 then mcr ||| TI_MCR_RTS else mcr
  let mcr := if set &&& TIOCM_DTR ≠ 0 then mcr ||| TI_MCR_DTR else mcr
  let mcr := if set &&& TIOCM_LOOP ≠ 0 then mcr ||| TI_MCR_LOOP else mcr
  let mcr := if clear &&& TIOCM_RTS ≠ 0 then mcr &&& (0xFFFFFFFF ^^^ TI_MCR_RTS) else mcr
  let mcr := if clear &&& TIOCM_DTR ≠ 0 then mcr &&& (0xFFFFFFFF ^^^ TI_MCR_DTR) else mcr
  if clear &&& TIOCM_LOOP ≠ 0 then mcr &&& (0xFFFFFFFF ^^^ TI_MCR_LOOP) else mcr

/-- Source `ti_tiocmset` for port `p`: `alloc` and `ret` are the results of the
`kmalloc` and the `usb_control_msg` inside `ti_write_byte`. -/
def ti_tiocmset (s : usb_serial) (p : Nat) (set clear : Nat) (alloc : Bool) (ret : Int) :
    usb_serial × Int :=
  ti_set_mcr s p (ti_tiocmset_mcr (get_tport s p).tp_shadow_mcr set clear) alloc ret

/-- The modem-control bits of the lines named in a `TIOCM_*` mask: RTS, DTR and
LOOP. -/
def tiocm_lines (mask : Nat) : Nat :=
  (if mask &&& TIOCM_RTS ≠ 0 then TI_MCR_RTS else 0)
    ||| (if mask &&& TIOCM_DTR ≠ 0 then TI_MCR_DTR else 0)
    ||| (if mask &&& TIOCM_LOOP ≠ 0 then TI_MCR_LOOP else 0)

/-- The byte obtained from the shadow byte `shadow` by turning on the lines named
in `set` and then turning off the lines named in `clear`, all other bits kept. -/
def mcr_set_then_clear (shadow set clear : Nat) : Nat :=
  (shadow ||| tiocm_lines set) &&& (0xFF ^^^ tiocm_lines clear)

/-- The modem-control bits of RTS, DTR and LOOP, each where its flag is set. -/
def mcr_lines (rts dtr loop : Bool) : Nat :=
  (if rts then TI_MCR_RTS else 0) ||| (if dtr then TI_MCR_DTR else 0)
    ||| (if loop then TI_MCR_LOOP else 0)

/-- The six steps of `ti_tiocmset` on the value `mcr`, with the six tests of
`set` and `clear` as flags. -/
def ti_tiocmset_steps (sr sd sl cr cd cl : Bool) (mcr : Nat) : Nat :=
  let mcr := if sr then mcr ||| TI_MCR_RTS else mcr
  let mcr := if sd then mcr ||| TI_MCR_DTR else mcr
  let mcr := if sl then mcr ||| TI_MCR_LOOP else mcr
  let mcr := if cr then mcr &&& (0xFFFFFFFF ^^^ TI_MCR_RTS) else mcr
  let mcr := if cd then mcr &&& (0xFFFFFFFF ^^^ TI_MCR_DTR) else mcr
  if cl then mcr &&& (0xFFFFFFFF ^^^ TI_MCR_LOOP) else mcr

/-! ## Baud divisor -/

/-- The base clock of the family. -/
def ti_baud_base (td_is_3410 : Bool) : Nat :=
  if td_is_3410 then TI_3410_BAUD_BASE else TI_5052_BAUD_BASE

/-- The value of the expression on the right of the assignment to
`config->wBaudRate` (lines 958 and 960), a C `int` computed from `int baud`,
before it is stored in the 16-bit field. -/
def ti_baud_divisor (td_is_3410 : Bool) (baud : Int) : Int :=
  if td_is_3410 then Int.tdiv ((TI_3410_BAUD_BASE : Int) + Int.tdiv baud 2) baud
  else Int.tdiv ((TI_5052_BAUD_BASE : Int) + Int.tdiv baud 2) baud

/-- The quotient `base / rate` rounded to the nearest integer, exact halves
rounded up: the largest `q` with `q - 1/2 <= base / rate`. -/
def round_div (base rate : Nat) : Nat :=
  (2 * base + rate) / (2 * rate)

/-! ## Projections of a trace -/

/-- A list of events without a lock or unlock of `td_open_close_lock`. -/
def gate_free (t : List Event) : Prop :=
  Event.mutex_lock ∉ t ∧ Event.mutex_unlock ∉ t

/-- State `b` continues the trace of state `a` without a lock or unlock of
`td_open_close_lock`. -/
def gate_quiet (a b : usb_serial) : Prop :=
  ∃ t, b.trace = a.trace ++ t ∧ gate_free t

/-- State `b` continues the trace of state `a` by one lock of
`td_open_close_lock`, then events that neither lock nor unlock it, then one
unlock as the last event, and the lock is free in `b`. -/
def gate_held_once (a b : usb_serial) : Prop :=
  ∃ t, gate_free t ∧ b.trace = a.trace ++ Event.mutex_lock :: (t ++ [Event.mutex_unlock]) ∧
    b.td_open_close_lock = false

/-- How a `ti_open` that took the lock in state `a` ends in `r`: a call that
comes back has held the lock once and released it as its last step; a call that
does not come back has taken the lock and not released it. -/
def gate_outcome (a : usb_serial) (r : usb_serial × Option Int) : Prop :=
  (r.2 ≠ none → gate_held_once a r.1) ∧
  (r.2 = none → gate_quiet (mutex_lock a) r.1)

/-- The return values of the submissions of the interrupt URB in a trace, in
order. -/
def interrupt_submissions (t : List Event) : List Int :=
  t.filterMap (fun ev =>
    match ev with
    | Event.submit_interrupt_urb status => some status
    | _ => none)

/-- The error messages of a trace, in order. -/
def error_messages (t : List Event) : List String :=
  t.filterMap (fun ev =>
    match ev with
    | Event.dev_err msg => some msg
    | _ => none)

/-- The data blocks of the set-config control transfers of a trace, in order. -/
def config_records (t : List Event) : List (List Nat) :=
  t.filterMap (fun ev =>
    match ev with
    | Event.control_msg request _ _ data _ => if request = TI_SET_CONFIG then some data else none
    | _ => none)

/-- The data blocks of the write-data control transfers of a trace, in order. -/
def write_data_records (t : List Event) : List (List Nat) :=
  t.filterMap (fun ev =>
    match ev with
    | Event.control_msg request _ _ data _ => if request = TI_WRITE_DATA then some data else none
    | _ => none)

/-- The return values of the bulk transfers of a trace, in order. -/
def bulk_statuses (t : List Event) : List Int :=
  t.filterMap (fun ev =>
    match ev with
    | Event.bulk_msg _ status _ => some status
    | _ => none)

/-- The bytes the successful bulk transfers of a trace moved, in order: of each
chunk the transferred count. -/
def bulk_transferred (t : List Event) : List Nat :=
  match t with
  | [] => []
  | Event.bulk_msg data status done :: rest =>
    (if status = 0 then data.take done else []) ++ bulk_transferred rest
  | _ :: rest => bulk_transferred rest

/-- A tty at 9600 baud, 8 data bits, no parity, one stop bit, no flow control
(`B9600 | CS8 | CREAD | HUPCL | CLOCAL`). -/
def tty_9600_8n1 : ktermios :=
  { c_cflag := 0o6275, c_iflag := 0, c_cc_VSTART := 0x11, c_cc_VSTOP := 0x13, baud := 9600 }

/-- A tty with hardware flow control whose rate is the hang-up rate B0. -/
def tty_hangup_crtscts : ktermios :=
  { c_cflag := 0o20000006260, c_iflag := 0, c_cc_VSTART := 0x11, c_cc_VSTOP := 0x13, baud := 0 }

/-- What the command part of `ti_open`, started in state `s`, has done to the
counter and the channel when it ends in `r`: on success one more open port, on
a failure that is returned the same count and the channel stopped if the count
is 0, and after a fault both as they were. -/
def open_commands_effect (s : usb_serial) (r : usb_serial × Option Int) : Prop :=
  (r.2 = some 0 →
    r.1.tdev.td_open_port_count = s.tdev.td_open_port_count + 1 ∧
    r.1.interrupt_in_urb_active = s.interrupt_in_urb_active) ∧
  (∀ st, r.2 = some st → st ≠ 0 →
    r.1.tdev.td_open_port_count = s.tdev.td_open_port_count ∧
    r.1.interrupt_in_urb_active
      = (if s.tdev.td_open_port_count = 0 then false else s.interrupt_in_urb_active)) ∧
  (r.2 = none →
    r.1.tdev.td_open_port_count = s.tdev.td_open_port_count ∧
    r.1.interrupt_in_urb_active = s.interrupt_in_urb_active)

/-- The device invariant: the open-port counter is not negative and the
interrupt channel is running exactly when the counter is positive. -/
def counter_invariant (s : usb_serial) : Prop :=
  0 ≤ s.tdev.td_open_port_count ∧
    (s.interrupt_in_urb_active = true ↔ 0 < s.tdev.td_open_port_count)

/-! # Theorems -/

/-! ## Frame lemmas: what the helpers leave alone -/

section frame

@[simp] theorem emit_tdev (s : usb_serial) (e : Event) : (emit s e).tdev = s.tdev := rfl

@[simp] theorem emit_active (s : usb_serial) (e : Event) :
    (emit s e).interrupt_in_urb_active = s.interrupt_in_urb_active := rfl

@[simp] theorem emit_port (s : usb_serial) (e : Event) : (emit s e).port = s.port := rfl

@[simp] theorem emit_has_urb (s : usb_serial) (e : Event) :
    (emit s e).has_interrupt_in_urb = s.has_interrupt_in_urb := rfl

@[simp] theorem dev_err_if_tdev (s : usb_serial) (c : Bool) (msg : String) :
    (dev_err_if s c msg).tdev = s.tdev := by
  cases c <;> rfl

@[simp] theorem dev_err_if_active (s : usb_serial) (c : Bool) (msg : String) :
    (dev_err_if s c msg).interrupt_in_urb_active = s.interrupt_in_urb_active := by
  cases c <;> rfl

@[simp] theorem dev_err_if_port (s : usb_serial) (c : Bool) (msg : String) :
    (dev_err_if s c msg).port = s.port := by
  cases c <;> rfl

@[simp] theorem mutex_lock_tdev (s : usb_serial) : (mutex_lock s).tdev = s.tdev := rfl

@[simp] theorem mutex_lock_active (s : usb_serial) :
    (mutex_lock s).interrupt_in_urb_active = s.interrupt_in_urb_active := rfl

@[simp] theorem mutex_lock_has_urb (s : usb_serial) :
    (mutex_lock s).has_interrupt_in_urb = s.has_interrupt_in_urb := rfl

@[simp] theorem mutex_unlock_tdev (s : usb_serial) : (mutex_unlock s).tdev = s.tdev := rfl

@[simp] theorem mutex_unlock_active (s : usb_serial) :
    (mutex_unlock s).interrupt_in_urb_active = s.interrupt_in_urb_active := rfl

@[simp] theorem ti_open_reset_cache_tdev (s : usb_serial) (p : Nat) :
    (ti_open_reset_cache s p).tdev = s.tdev := rfl

@[simp] theorem ti_open_reset_cache_active (s : usb_serial) (p : Nat) :
    (ti_open_reset_cache s p).interrupt_in_urb_active = s.interrupt_in_urb_active := rfl

@[simp] theorem ti_open_reset_cache_has_urb (s : usb_serial) (p : Nat) :
    (ti_open_reset_cache s p).has_interrupt_in_urb = s.has_interrupt_in_urb := rfl

@[simp] theorem usb_kill_interrupt_urb_tdev (s : usb_serial) :
    (usb_kill_interrupt_urb s).tdev = s.tdev := rfl

@[simp] theorem usb_kill_interrupt_urb_active (s : usb_serial) :
    (usb_kill_interrupt_urb s).interrupt_in_urb_active = false := rfl

@[simp] theorem usb_submit_interrupt_urb_tdev (s : usb_serial) (st : Int) :
    (usb_submit_interrupt_urb s st).tdev = s.tdev := by
  unfold usb_submit_interrupt_urb
  split_ifs <;> rfl

@[simp] theorem usb_submit_interrupt_urb_active (s : usb_serial) (st : Int) :
    (usb_submit_interrupt_urb s st).interrupt_in_urb_active
      = (if st = 0 then true else s.interrupt_in_urb_active) := by
  unfold usb_submit_interrupt_urb
  split_ifs <;> rfl

@[simp] theorem set_tport_tdev (s : usb_serial) (p : Nat) (f : ti_port → ti_port) :
    (set_tport s p f).tdev = s.tdev := rfl

@[simp] theorem set_tport_active (s : usb_serial) (p : Nat) (f : ti_port → ti_port) :
    (set_tport s p f).interrupt_in_urb_active = s.interrupt_in_urb_active := rfl

@[simp] theorem ti_send_ctrl_data_urb_tdev (s : usb_serial) (a b c : Nat) (d : List Nat)
    (ret : Int) : (ti_send_ctrl_data_urb s a b c d ret).1.tdev = s.tdev := by
  unfold ti_send_ctrl_data_urb
  simp only []
  split_ifs <;> rfl

@[simp] theorem ti_send_ctrl_data_urb_active (s : usb_serial) (a b c : Nat) (d : List Nat)
    (ret : Int) :
    (ti_send_ctrl_data_urb s a b c d ret).1.interrupt_in_urb_active
      = s.interrupt_in_urb_active := by
  unfold ti_send_ctrl_data_urb
  simp only []
  split_ifs <;> rfl

@[simp] theorem ti_send_ctrl_urb_tdev (s : usb_serial) (a b c : Nat) (ret : Int) :
    (ti_send_ctrl_urb s a b c ret).1.tdev = s.tdev := by
  simp [ti_send_ctrl_urb]

@[simp] theorem ti_send_ctrl_urb_active (s : usb_serial) (a b c : Nat) (ret : Int) :
    (ti_send_ctrl_urb s a b c ret).1.interrupt_in_urb_active = s.interrupt_in_urb_active := by
  simp [ti_send_ctrl_urb]

@[simp] theorem ti_set_mcr_tdev (s : usb_serial) (p mcr : Nat) (alloc : Bool) (ret : Int) :
    (ti_set_mcr s p mcr alloc ret).1.tdev = s.tdev := by
  unfold ti_set_mcr ti_write_byte
  simp only []
  split_ifs <;> simp

@[simp] theorem ti_set_mcr_active (s : usb_serial) (p mcr : Nat) (alloc : Bool) (ret : Int) :
    (ti_set_mcr s p mcr alloc ret).1.interrupt_in_urb_active = s.interrupt_in_urb_active := by
  unfold ti_set_mcr ti_write_byte
  simp only []
  split_ifs <;> simp

@[simp] theorem ti_set_termios_tdev (s : usb_serial) (p : Nat) (tty : ktermios)
    (e : termios_env) : (ti_set_termios s p tty e).1.tdev = s.tdev := by
  unfold ti_set_termios
  split_ifs <;> simp

@[simp] theorem ti_set_termios_active (s : usb_serial) (p : Nat) (tty : ktermios)
    (e : termios_env) :
    (ti_set_termios s p tty e).1.interrupt_in_urb_active = s.interrupt_in_urb_active := by
  unfold ti_set_termios
  split_ifs <;> simp

@[simp] theorem ti_open_set_termios_tdev (s : usb_serial) (p : Nat) (tty : Option ktermios)
    (e : termios_env) : (ti_open_set_termios s p tty e).1.tdev = s.tdev := by
  cases tty <;> simp [ti_open_set_termios]

@[simp] theorem ti_open_set_termios_active (s : usb_serial) (p : Nat) (tty : Option ktermios)
    (e : termios_env) :
    (ti_open_set_termios s p tty e).1.interrupt_in_urb_active = s.interrupt_in_urb_active := by
  cases tty <;> simp [ti_open_set_termios]

theorem open_commands_effect_fail (s b : usb_serial) (msg : String) (st : Int)
    (hst : st ≠ 0) (ht : b.tdev = s.tdev)
    (ha : b.interrupt_in_urb_active = s.interrupt_in_urb_active) :
    open_commands_effect s (returned (ti_open_fail b msg st)) := by
  refine ⟨fun h => ?_, fun st2 h _ => ?_, fun h => ?_⟩
  · simp [returned, ti_open_fail, ti_open_unlink_int_urb, ti_open_release_lock] at h
    split_ifs at h <;> exact absurd h hst
  · simp only [returned, ti_open_fail, ti_open_unlink_int_urb, ti_open_release_lock, emit_tdev,
      ht]
    split_ifs <;> simp [ht, ha]
  · simp [returned] at h

theorem open_commands_effect_fault (s b : usb_serial) (ht : b.tdev = s.tdev)
    (ha : b.interrupt_in_urb_active = s.interrupt_in_urb_active) :
    open_commands_effect s (b, none) := by
  refine ⟨fun h => ?_, fun st h _ => ?_, fun _ => ?_⟩
  · simp at h
  · simp at h
  · simp [ht, ha]

theorem open_commands_effect_success (s b : usb_serial) (st : Int) (hst : st = 0)
    (ht : b.tdev.td_open_port_count = s.tdev.td_open_port_count + 1)
    (ha : b.interrupt_in_urb_active = s.interrupt_in_urb_active) :
    open_commands_effect s (returned (ti_open_release_lock b st)) := by
  subst hst
  refine ⟨fun _ => ?_, fun st h hne => ?_, fun h => ?_⟩
  · simp [returned, ti_open_release_lock, ht, ha]
  · simp [returned, ti_open_release_lock] at h
    exact absurd h.symm hne
  · simp [returned] at h

theorem ti_open_restart_effect (s b : usb_serial) (p : Nat) (tty : Option ktermios)
    (e : ti_open_env) (ht : b.tdev = s.tdev)
    (ha : b.interrupt_in_urb_active = s.interrupt_in_urb_active) :
    open_commands_effect s (ti_open_restart b p tty e) := by
  unfold ti_open_restart
  simp only []
  split_ifs
  · exact open_commands_effect_fault _ _ ht ha
  · exact open_commands_effect_fault _ _ (by simp [ht]) (by simp [ha])
  · exact open_commands_effect_fail _ _ _ _ ‹_› (by simp [ht]) (by simp [ha])
  · exact open_commands_effect_fail _ _ _ _ ‹_› (by simp [ht]) (by simp [ha])
  · exact open_commands_effect_fail _ _ _ _ (by decide) (by simp [ht]) (by simp [ha])
  · exact open_commands_effect_fail _ _ _ _ ‹_› (by simp [ht]) (by simp [ha])
  · exact open_commands_effect_success _ _ _ (by simpa using ‹¬ e.read_submit ≠ 0›)
      (by simp [ht]) (by simp [ha])

/-- Counter and channel after the command part of `ti_open`. -/
theorem ti_open_commands_effect (s : usb_serial) (p : Nat) (e : ti_open_env) :
    open_commands_effect s (ti_open_commands s p e) := by
  unfold ti_open_commands
  simp only []
  split_ifs
  · exact open_commands_effect_fail _ _ _ _ ‹_› (by simp) (by simp)
  · exact open_commands_effect_fail _ _ _ _ ‹_› (by simp) (by simp)
  · exact open_commands_effect_fail _ _ _ _ ‹_› (by simp) (by simp)
  · exact open_commands_effect_fail _ _ _ _ ‹_› (by simp) (by simp)
  · exact ti_open_restart_effect _ _ _ _ _ (by simp) (by simp)

/-- Counter and channel after a `ti_open` that comes back. -/
theorem ti_open_effect (s : usb_serial) (p : Nat) (e : ti_open_env) :
    ((ti_open s p e).2 = some 0 →
        (ti_open s p e).1.tdev.td_open_port_count = s.tdev.td_open_port_count + 1 ∧
        (ti_open s p e).1.interrupt_in_urb_active
          = (if s.tdev.td_open_port_count = 0 then true else s.interrupt_in_urb_active)) ∧
    (∀ st, (ti_open s p e).2 = some st → st ≠ 0 →
        (ti_open s p e).1.tdev.td_open_port_count = s.tdev.td_open_port_count ∧
        ((ti_open s p e).1.interrupt_in_urb_active = true →
          s.interrupt_in_urb_active = true) ∧
        (s.tdev.td_open_port_count ≠ 0 →
          (ti_open s p e).1.interrupt_in_urb_active = s.interrupt_in_urb_active)) := by
  by_cases hl : e.lock_interrupted = true
  · simp [ti_open, hl, ERESTARTSYS]
  by_cases hk : s.td_open_close_lock = true
  · simp [ti_open, hl, hk]
  by_cases hz : s.tdev.td_open_port_count = 0
  · by_cases hu : s.has_interrupt_in_urb = true
    · by_cases hi : e.int_submit = 0
      · have heq : ti_open s p e = ti_open_commands
            (usb_submit_interrupt_urb (ti_open_reset_cache (mutex_lock s) p) e.int_submit)
            p e := by
          simp [ti_open, hl, hk, hz, hu, hi]
        have hc := ti_open_commands_effect
          (usb_submit_interrupt_urb (ti_open_reset_cache (mutex_lock s) p) e.int_submit) p e
        unfold open_commands_effect at hc
        simp only [usb_submit_interrupt_urb_tdev, usb_submit_interrupt_urb_active,
          ti_open_reset_cache_tdev, mutex_lock_tdev, hz, if_pos hi, if_true] at hc
        obtain ⟨h1, h2, _⟩ := hc
        rw [heq]
        refine ⟨fun h => ?_, fun st h hne => ?_⟩
        · obtain ⟨ha, hb⟩ := h1 h
          simp [hz, ha, hb]
        · obtain ⟨ha, hb⟩ := h2 st h hne
          simp [hz, ha, hb]
      · simp [ti_open, hl, hk, hz, hu, hi, ti_open_release_lock, returned]
    · simp [ti_open, hl, hk, hz, hu, ti_open_release_lock, returned, EINVAL]
  · have heq : ti_open s p e = ti_open_commands (ti_open_reset_cache (mutex_lock s) p) p e := by
      simp [ti_open, hl, hk, hz]
    have hc := ti_open_commands_effect (ti_open_reset_cache (mutex_lock s) p) p e
    unfold open_commands_effect at hc
    simp only [ti_open_reset_cache_tdev, mutex_lock_tdev, ti_open_reset_cache_active,
      mutex_lock_active, hz, if_false] at hc
    obtain ⟨h1, h2, _⟩ := hc
    rw [heq]
    refine ⟨fun h => ?_, fun st h hne => ?_⟩
    · obtain ⟨ha, hb⟩ := h1 h
      simp [hz, ha, hb]
    · obtain ⟨ha, hb⟩ := h2 st h hne
      simp [hz, ha, hb]

@[simp] theorem ti_close_head_tdev (s : usb_serial) (p : Nat) (e : ti_close_env) :
    (ti_close_head s p e).tdev = s.tdev := by
  simp [ti_close_head]

@[simp] theorem ti_close_head_active (s : usb_serial) (p : Nat) (e : ti_close_env) :
    (ti_close_head s p e).interrupt_in_urb_active = s.interrupt_in_urb_active := by
  simp [ti_close_head]

theorem ti_close_tail_effect (s : usb_serial) (do_unlock : Bool) :
    (s.tdev.td_open_port_count - 1 ≤ 0 →
        (ti_close_tail s do_unlock).tdev.td_open_port_count = 0 ∧
        (ti_close_tail s do_unlock).interrupt_in_urb_active = false) ∧
    (0 < s.tdev.td_open_port_count - 1 →
        (ti_close_tail s do_unlock).tdev.td_open_port_count = s.tdev.td_open_port_count - 1 ∧
        (ti_close_tail s do_unlock).interrupt_in_urb_active = s.interrupt_in_urb_active) := by
  unfold ti_close_tail
  simp only []
  constructor
  · intro h
    cases do_unlock <;> simp [h]
  · intro h
    have h' : ¬ (s.tdev.td_open_port_count - 1 ≤ 0) := not_le.mpr h
    cases do_unlock <;> simp [h']

/-- Counter and channel after `ti_close`: a call that comes back has dropped the
count by one but not below zero and has stopped the channel when the count
reached zero; a call that sleeps on the lock has changed neither. -/
theorem ti_close_effect (s : usb_serial) (p : Nat) (e : ti_close_env) :
    ((ti_close s p e).2 = none →
        (ti_close s p e).1.tdev.td_open_port_count = s.tdev.td_open_port_count ∧
        (ti_close s p e).1.interrupt_in_urb_active = s.interrupt_in_urb_active) ∧
    ((ti_close s p e).2 ≠ none → s.tdev.td_open_port_count - 1 ≤ 0 →
        (ti_close s p e).1.tdev.td_open_port_count = 0 ∧
        (ti_close s p e).1.interrupt_in_urb_active = false) ∧
    ((ti_close s p e).2 ≠ none → 0 < s.tdev.td_open_port_count - 1 →
        (ti_close s p e).1.tdev.td_open_port_count = s.tdev.td_open_port_count - 1 ∧
        (ti_close s p e).1.interrupt_in_urb_active = s.interrupt_in_urb_active) := by
  have ht := ti_close_tail_effect (ti_close_head s p e) (!e.lock_interrupted)
  simp only [ti_close_head_tdev, ti_close_head_active] at ht
  unfold ti_close
  simp only []
  by_cases hb : (!e.lock_interrupted && (ti_close_head s p e).td_open_close_lock) = true
  · rw [if_pos hb]
    simp
  · rw [if_neg hb]
    exact ⟨fun h => by simp at h, fun _ h => ht.1 h, fun _ h => ht.2 h⟩

end frame

theorem counter_invariant_attached (n : Nat) (port : List usb_serial_port) (b : Bool)
    (m : Nat) (u : Bool) : counter_invariant (attached n port b m u) := by
  simp [counter_invariant, attached]

theorem counter_invariant_ti_open (s : usb_serial) (p : Nat) (e : ti_open_env)
    (h : counter_invariant s) (hr : (ti_open s p e).2 ≠ none) :
    counter_invariant (ti_open s p e).1 := by
  obtain ⟨h0, h1⟩ := h
  have he := ti_open_effect s p e
  unfold counter_invariant
  cases hst : (ti_open s p e).2 with
  | none => exact absurd hst hr
  | some st =>
    by_cases hs : st = 0
    · subst hs
      obtain ⟨hc, ha⟩ := he.1 hst
      rw [hc, ha]
      refine ⟨by omega, ?_⟩
      split_ifs with hz
      · simp [hz]
      · rw [h1]
        constructor <;> intro <;> omega
    · obtain ⟨hc, ha, hb⟩ := he.2 st hst hs
      rw [hc]
      refine ⟨h0, fun hx => h1.mp (ha hx), fun hx => ?_⟩
      rw [hb (by omega)]
      exact h1.mpr hx

theorem counter_invariant_ti_close (s : usb_serial) (p : Nat) (e : ti_close_env)
    (h : counter_invariant s) : counter_invariant (ti_close s p e).1 := by
  obtain ⟨h0, h1⟩ := h
  have he := ti_close_effect s p e
  unfold counter_invariant
  by_cases hn : (ti_close s p e).2 = none
  · obtain ⟨hc, ha⟩ := he.1 hn
    rw [hc, ha]
    exact ⟨h0, h1⟩
  · by_cases hs : s.tdev.td_open_port_count - 1 ≤ 0
    · obtain ⟨hc, ha⟩ := he.2.1 hn hs
      simp [hc, ha]
    · obtain ⟨hc, ha⟩ := he.2.2 hn (not_le.mp hs)
      rw [hc, ha]
      refine ⟨by omega, fun _ => by omega, fun _ => h1.mpr (by omega)⟩

theorem counter_invariant_run (calls : List Call) (s : usb_serial)
    (h : counter_invariant s) (hr : all_return s calls) :
    counter_invariant (run s calls) := by
  induction calls generalizing s with
  | nil => exact h
  | cons c cs ih =>
    obtain ⟨hc, hcs⟩ := hr
    cases c with
    | ti_open p e => exact ih _ (counter_invariant_ti_open s p e h hc) hcs
    | ti_close p e => exact ih _ (counter_invariant_ti_close s p e h) hcs

theorem all_return_take (calls : List Call) : ∀ (s : usb_serial) (n : Nat),
    all_return s calls → all_return s (calls.take n) := by
  induction calls with
  | nil => intro s n h; simpa using h
  | cons c cs ih =>
    intro s n h
    cases n with
    | zero => trivial
    | succ n => exact ⟨h.1, ih _ n h.2⟩

/-- What does hold of the counter: starting from a freshly attached device,
after each call of a finite sequence of `ti_open` and `ti_close` calls every one
of which comes back, whatever the results of the transport calls inside them,
the open-port counter is at least 0 and the interrupt channel is running if and
only if the counter is greater than 0. -/
theorem counter_invariant_when_calls_return (num_ports : Nat) (port : List usb_serial_port)
    (td_is_3410 : Bool) (td_model : Nat) (has_interrupt_in_urb : Bool)
    (calls : List Call) (n : Nat)
    (hr : all_return (attached num_ports port td_is_3410 td_model has_interrupt_in_urb) calls) :
    0 ≤ (run (attached num_ports port td_is_3410 td_model has_interrupt_in_urb)
          (calls.take n)).tdev.td_open_port_count ∧
    ((run (attached num_ports port td_is_3410 td_model has_interrupt_in_urb)
          (calls.take n)).interrupt_in_urb_active = true ↔
      0 < (run (attached num_ports port td_is_3410 td_model has_interrupt_in_urb)
          (calls.take n)).tdev.td_open_port_count) :=
  counter_invariant_run _ _ (counter_invariant_attached _ _ _ _ _) (all_return_take _ _ _ hr)

/-- C1. On a one-port device whose port has no read URB, a `ti_open` in which
every transport call succeeds does not come back: it faults at line 747, after
the interrupt URB was submitted and before the counter is raised.  A second
`ti_open`, whose wait for the lock is interrupted, returns -ERESTARTSYS, and
after it has returned the open-port counter is 0 while the interrupt channel is
running. -/
theorem ti_open_fault_breaks_counter_invariant :
    attached_3410_no_read_urb.tdev.td_open_port_count = 0 ∧
    attached_3410_no_read_urb.interrupt_in_urb_active = false ∧
    (ti_open attached_3410_no_read_urb 0 open_ok).2 = none ∧
    (ti_open (ti_open attached_3410_no_read_urb 0 open_ok).1 0
      { open_ok with lock_interrupted := true }).2 = some (-ERESTARTSYS) ∧
    (run attached_3410_no_read_urb
      [Call.ti_open 0 open_ok,
       Call.ti_open 0 { open_ok with lock_interrupted := true }]).tdev.td_open_port_count
      = 0 ∧
    (run attached_3410_no_read_urb
      [Call.ti_open 0 open_ok,
       Call.ti_open 0 { open_ok with lock_interrupted := true }]).interrupt_in_urb_active
      = true ∧
    ¬ ((run attached_3410_no_read_urb
        [Call.ti_open 0 open_ok,
         Call.ti_open 0 { open_ok with lock_interrupted := true }]).interrupt_in_urb_active
        = true ↔
      0 < (run attached_3410_no_read_urb
        [Call.ti_open 0 open_ok,
         Call.ti_open 0 { open_ok with lock_interrupted := true }]).tdev.td_open_port_count) := by
  decide

theorem reachable_counter_invariant (s : usb_serial) (h : reachable s) :
    counter_invariant s := by
  obtain ⟨n, port, b, m, u, calls, hr, rfl⟩ := h
  exact counter_invariant_run _ _ (counter_invariant_attached _ _ _ _ _) hr

/-- What does hold of a `ti_open` made on a device in a state reached by earlier
open and close calls that all came back: when it returns a non-zero status the
open-port counter has the value it had on entry, and if that value was 0 the
interrupt channel is not running on return; when it returns 0 the counter is
exactly one more than on entry. -/
theorem ti_open_counter_when_calls_return (s : usb_serial) (hs : reachable s) (p : Nat)
    (e : ti_open_env) :
    (∀ st, (ti_open s p e).2 = some st → st ≠ 0 →
      (ti_open s p e).1.tdev.td_open_port_count = s.tdev.td_open_port_count ∧
      (s.tdev.td_open_port_count = 0 → (ti_open s p e).1.interrupt_in_urb_active = false)) ∧
    ((ti_open s p e).2 = some 0 →
      (ti_open s p e).1.tdev.td_open_port_count = s.tdev.td_open_port_count + 1) := by
  have hinv := reachable_counter_invariant s hs
  have he := ti_open_effect s p e
  refine ⟨fun st h hne => ?_, fun h => (he.1 h).1⟩
  obtain ⟨hc, ha, _⟩ := he.2 st h hne
  refine ⟨hc, fun hz => ?_⟩
  cases hx : (ti_open s p e).1.interrupt_in_urb_active with
  | false => rfl
  | true =>
    have := hinv.2.mp (ha hx)
    omega

/-- C2. On a two-port device whose second port has no read URB, a `ti_open` of
that port in which every transport call succeeds faults at line 747 with the
interrupt URB submitted and the counter still 0.  A later `ti_open` of port 0
whose wait for the lock is interrupted returns the non-zero status
-ERESTARTSYS: the counter is 0 on entry and on return, and the interrupt channel
is running on return. -/
theorem ti_open_returns_failure_with_channel_running :
    (ti_open attached_5052_no_read_urb 1 open_ok).2 = none ∧
    (ti_open attached_5052_no_read_urb 1 open_ok).1.tdev.td_open_port_count = 0 ∧
    (ti_open (ti_open attached_5052_no_read_urb 1 open_ok).1 0
      { open_ok with lock_interrupted := true }).2 = some (-512) ∧
    (ti_open (ti_open attached_5052_no_read_urb 1 open_ok).1 0
      { open_ok with lock_interrupted := true }).1.tdev.td_open_port_count = 0 ∧
    (ti_open (ti_open attached_5052_no_read_urb 1 open_ok).1 0
      { open_ok with lock_interrupted := true }).1.interrupt_in_urb_active = true := by
  decide

/-- C3. A `ti_open` on port 0 of a fresh one-port device, without a tty and with
every transport call succeeding, returns 0 and sends six port commands, all
with index 3: open-port (0x06), start-port (0x08), then two commands whose
request byte is 0x80 (`TI_PURGE_INPUT`, the purge mode, which is also the
write-data request) with values 0x80 and 0x00, then open-port and start-port
again.  No command with request 0x0B (`TI_PURGE_PORT`) is sent. -/
theorem ti_open_purge_request_code :
    (ti_open fresh_3410 0 open_ok).2 = some 0 ∧
    control_messages (ti_open fresh_3410 0 open_ok).1.trace
      = [(0x06, 0x89, 3), (0x08, 0, 3), (0x80, 0x80, 3), (0x80, 0x00, 3),
         (0x06, 0x89, 3), (0x08, 0, 3)] ∧
    control_messages (ti_open fresh_3410 0 open_ok).1.trace
      ≠ [(TI_OPEN_PORT, 0x89, 3), (TI_START_PORT, 0, 3), (TI_PURGE_PORT, 0x80, 3),
         (TI_PURGE_PORT, 0x00, 3), (TI_OPEN_PORT, 0x89, 3), (TI_START_PORT, 0, 3)] := by
  decide

/-- C4, as stated, fails: on a device that is in its active configuration
(not one configuration with one endpoint, configuration value not 1)
`ti_startup` returns -ENOMEM, not 0, when the `ti_device` cannot be allocated. -/
theorem ti_startup_no_memory_not_ready :
    ¬ (ti_startup_status startup_no_memory 0 = some 0 ↔
        (¬ (startup_no_memory.bNumConfigurations = 1 ∧ startup_no_memory.bNumEndpoints = 1) ∧
          startup_no_memory.bConfigurationValue ≠ TI_BOOT_CONFIG)) := by
  decide

/-- C4, amended. When the allocation of the `ti_device` fails `ti_startup`
returns -ENOMEM.  When it succeeds: `ti_startup` returns 0 if and only if it is
not the case that the device has exactly one configuration and its active
interface exactly one endpoint, and the active configuration value is not the
boot configuration; in the firmware-absent branch it returns, for every result
of the download, a non-zero status (the download's own status if that is
non-zero, -ENODEV if the download returned 0); in the boot-configuration branch
it returns a non-zero status (the status of the configuration-switch request if
that is non-zero, -ENODEV otherwise). -/
theorem ti_startup_branches (e : ti_startup_env) (fuel : Nat) :
    (e.tdev_alloc = false → ti_startup_status e fuel = some (-ENOMEM)) ∧
    (e.tdev_alloc = true →
      (ti_startup_status e fuel = some 0 ↔
        (¬ (e.bNumConfigurations = 1 ∧ e.bNumEndpoints = 1) ∧
          e.bConfigurationValue ≠ TI_BOOT_CONFIG)) ∧
      ((e.bNumConfigurations = 1 ∧ e.bNumEndpoints = 1) →
        ∀ r, ti_download_firmware e.idVendor e.idProduct e.is_1port e.request_firmware
            e.buffer_alloc e.usb_bulk_msg fuel = some r →
          ti_startup_status e fuel = some (if r.status ≠ 0 then r.status else -ENODEV) ∧
          (if r.status ≠ 0 then r.status else -ENODEV) ≠ 0) ∧
      (¬ (e.bNumConfigurations = 1 ∧ e.bNumEndpoints = 1) →
        e.bConfigurationValue = TI_BOOT_CONFIG →
          ti_startup_status e fuel
            = some (if e.set_configuration ≠ 0 then e.set_configuration else -ENODEV) ∧
          (if e.set_configuration ≠ 0 then e.set_configuration else -ENODEV) ≠ 0)) := by
  refine ⟨fun ha => ?_, fun ha => ⟨?_, ?_, ?_⟩⟩
  · simp [ti_startup_status, ti_startup, ha]
  · by_cases h1 : e.bNumConfigurations = 1 ∧ e.bNumEndpoints = 1
    · simp only [ti_startup_status, ti_startup, ha, h1]
      cases hd : ti_download_firmware e.idVendor e.idProduct e.is_1port e.request_firmware
          e.buffer_alloc e.usb_bulk_msg fuel with
      | none => simp
      | some r =>
        by_cases hr : r.status = 0 <;> simp [hr, ENODEV]
    · by_cases h2 : e.bConfigurationValue = TI_BOOT_CONFIG
      · by_cases h3 : e.set_configuration = 0 <;>
          simp [ti_startup_status, ti_startup, ha, h1, h2, h3, ENODEV]
      · simp [ti_startup_status, ti_startup, ha, h1, h2]
  · intro h1 r hr
    constructor
    · simp only [ti_startup_status, ti_startup, ha, h1, hr]
      by_cases hs : r.status = 0 <;> simp [hs]
    · by_cases hs : r.status = 0 <;> simp [hs, ENODEV]
  · intro h1 h2
    by_cases h3 : e.set_configuration = 0 <;>
      simp [ti_startup_status, ti_startup, ha, h1, h2, h3, ENODEV]

/-! ## Firmware buffer -/

/-- The checksum loop computes the sum modulo 256 of `k` bytes from position `a`. -/
theorem checksum_fold (l : List Nat) : ∀ (k a c : Nat), c < 256 →
    (List.range' a k).foldl (fun cs pos => (cs + l.getD pos 0) % 256) c
      = (c + ((l.drop a).take k).sum) % 256 := by
  intro k
  induction k with
  | zero => intro a c hc; simp [Nat.mod_eq_of_lt hc]
  | succ k ih =>
    intro a c hc
    rw [List.range'_succ, List.foldl_cons, ih (a + 1) _ (Nat.mod_lt _ (by norm_num))]
    by_cases ha : a < l.length
    · rw [List.drop_eq_getElem_cons ha, List.take_succ_cons, List.sum_cons,
        List.getD_eq_getElem _ _ ha]
      omega
    · have hl : l.length ≤ a := Nat.le_of_not_lt ha
      rw [List.drop_eq_nil_of_le hl, List.drop_eq_nil_of_le (by omega),
        List.getD_eq_default _ _ hl]
      simp

theorem ti_download_buffer_length (data : List Nat) :
    TI_FIRMWARE_BUF_SIZE + sizeof_ti_firmware_header ≤ (ti_download_buffer data).length := by
  simp only [ti_download_buffer, List.length_append, List.length_replicate]
  omega

theorem ti_do_download_header_getD (buffer : List Nat) (size i : Nat) (hi : 3 ≤ i) :
    (ti_do_download_header buffer size).getD i 0 = buffer.getD i 0 := by
  simp only [ti_do_download_header, List.getD_eq_getElem?_getD]
  rw [List.getElem?_set_ne (by omega), List.getElem?_set_ne (by omega),
    List.getElem?_set_ne (by omega)]

theorem ti_do_download_header_checksum (buffer : List Nat) (size : Nat)
    (h : 3 ≤ buffer.length) :
    (ti_do_download_header buffer size).getD 2 0 = ti_do_download_checksum buffer size := by
  simp only [ti_do_download_header, List.getD_eq_getElem?_getD]
  rw [List.getElem?_set_eq_of_lt _ (by simpa using h)]
  rfl

theorem ti_do_download_header_drop (buffer : List Nat) (size : Nat) :
    (ti_do_download_header buffer size).drop 3 = buffer.drop 3 := by
  apply List.ext_getElem?
  intro i
  simp only [ti_do_download_header, List.getElem?_drop]
  rw [List.getElem?_set_ne (by omega), List.getElem?_set_ne (by omega),
    List.getElem?_set_ne (by omega)]

/-- The bytes of the transfer buffer between the header and the image size are
the image bytes after its first three. -/
theorem ti_download_buffer_image (data : List Nat) :
    ((ti_download_buffer data).drop 3).take (data.length - 3) = data.drop 3 := by
  simp only [ti_download_buffer, List.drop_append_eq_append_drop,
    List.take_append_eq_append_take, List.length_drop]
  simp

/-- The checksum byte of the streamed buffer is the sum modulo 256 of the image
bytes after the first three. -/
theorem ti_download_checksum_byte (data : List Nat) :
    (ti_do_download_header (ti_download_buffer data) data.length).getD 2 0
      = (data.drop 3).sum % 256 := by
  have hlen := ti_download_buffer_length data
  have h3 : 3 ≤ (ti_download_buffer data).length := by
    simp only [TI_FIRMWARE_BUF_SIZE, sizeof_ti_firmware_header] at hlen
    omega
  rw [ti_do_download_header_checksum _ _ h3]
  simp only [ti_do_download_checksum, sizeof_ti_firmware_header]
  rw [checksum_fold _ _ _ _ (by norm_num), ti_download_buffer_image]
  simp

/-- The buffer a completed `ti_download_firmware` streamed is the padded image
with the header written into its first three bytes. -/
theorem ti_download_image_buffer (requests : List Event) (data : List Nat)
    (buffer_alloc : Bool) (usb_bulk_msg : Nat → Nat → Int × Nat) (fuel : Nat)
    (r : download_result) (b : List Nat)
    (hr : ti_download_image requests data buffer_alloc usb_bulk_msg fuel = some r)
    (hb : r.buffer = some b) :
    b = ti_do_download_header (ti_download_buffer data) data.length := by
  unfold ti_download_image at hr
  split_ifs at hr with h1 h2
  · cases hr; simp at hb
  · cases hr; simp at hb
  · simp only [ti_do_download, Option.map_map, Option.map_eq_some'] at hr
    obtain ⟨x, _, rfl⟩ := hr
    simpa using hb.symm

/-- C5, as stated, fails: for the five-byte image 00 00 00 01 02 the checksum
byte written into the header is 3, while the sum modulo 256 of all bytes of the
transfer buffer after the header (image bytes and 0xFF padding up to 16287) is
105. -/
theorem ti_download_checksum_excludes_padding :
    (ti_do_download_header (ti_download_buffer [0, 0, 0, 1, 2]) 5).getD 2 0
      ≠ ((ti_do_download_header (ti_download_buffer [0, 0, 0, 1, 2]) 5).drop 3).sum % 256 := by
  rw [ti_do_download_header_drop]
  have h := ti_download_checksum_byte [0, 0, 0, 1, 2]
  simp only [List.length_cons, List.length_nil] at h
  rw [h]
  have hb : (ti_download_buffer [0, 0, 0, 1, 2]).drop 3 = [1, 2] ++ List.replicate 16282 255 := by
    rfl
  rw [hb, List.sum_append, List.sum_replicate]
  decide

/-- C5, amended. For every firmware image, the checksum byte that
`ti_do_download` writes into the 3-byte header (byte 2 of the transfer buffer)
equals the sum modulo 256 of the bytes of the transfer buffer that follow the
header up to the image size, that is of the image bytes after the first three;
the 0xFF padding behind the image is not part of the sum. -/
theorem ti_download_checksum_covers_image (data : List Nat) :
    (ti_do_download_header (ti_download_buffer data) data.length).getD 2 0
      = (((ti_do_download_header (ti_download_buffer data) data.length).drop 3).take
          (data.length - 3)).sum % 256 ∧
    (ti_do_download_header (ti_download_buffer data) data.length).getD 2 0
      = (data.drop 3).sum % 256 := by
  rw [ti_do_download_header_drop, ti_download_buffer_image]
  exact ⟨ti_download_checksum_byte data, ti_download_checksum_byte data⟩

/-- C6, as stated, fails: for the one-byte image 00 the byte at index 2 of the
transfer buffer, which lies beyond the image, is the checksum byte 0, not 0xFF. -/
theorem ti_download_header_overwrites_padding :
    ¬ (∀ i, [0].length ≤ i → i < 16287 →
        (ti_do_download_header (ti_download_buffer [0]) [0].length).getD i 0 = 0xFF) := by
  intro h
  have h2 := h 2 (by decide) (by decide)
  rw [ti_do_download_header_checksum _ _
    (le_trans (by decide) (ti_download_buffer_length [0]))] at h2
  revert h2
  decide

/-- C6, amended. For every firmware image of size n with 0 <= n <= 16284, in
the 16287-byte transfer buffer as it is when streaming starts, every byte at an
index i with n <= i < 16287 and 3 <= i (behind the image and behind the 3-byte
header) equals 0xFF. -/
theorem ti_download_padding (data : List Nat) (_hn : data.length ≤ TI_FIRMWARE_BUF_SIZE)
    (i : Nat) (h1 : data.length ≤ i) (h3 : 3 ≤ i)
    (h2 : i < TI_FIRMWARE_BUF_SIZE + sizeof_ti_firmware_header) :
    (ti_do_download_header (ti_download_buffer data) data.length).length
      = TI_FIRMWARE_BUF_SIZE + sizeof_ti_firmware_header ∧
    (ti_do_download_header (ti_download_buffer data) data.length).getD i 0 = 0xFF := by
  constructor
  · simp only [ti_do_download_header, List.length_set, ti_download_buffer, List.length_append,
      List.length_replicate]
    omega
  · rw [ti_do_download_header_getD _ _ _ h3]
    simp only [ti_download_buffer, List.getD_eq_getElem?_getD]
    rw [List.getElem?_append_right h1, List.getElem?_replicate]
    have : i - data.length < TI_FIRMWARE_BUF_SIZE + sizeof_ti_firmware_header - data.length := by
      omega
    simp [this]

/-- C6, amended, at the five-byte image 00 00 00 01 02 and index 5, the first
byte behind the image. -/
theorem ti_download_padding_witness :
    (ti_do_download_header (ti_download_buffer [0, 0, 0, 1, 2])
        [0, 0, 0, 1, 2].length).getD 5 0 = 0xFF :=
  (ti_download_padding [0, 0, 0, 1, 2] (by decide) 5 (by decide) (by decide) (by decide)).2

/-! ## Firmware transfer -/

theorem ti_do_download_loop_done (bulk : Nat → Nat → Int × Nat) (buffer : List Nat)
    (size fuel k pos : Nat) (h : ¬ pos < size) :
    ti_do_download_loop bulk buffer size fuel k pos = some (0, []) := by
  cases fuel <;> simp [ti_do_download_loop, h]

theorem ti_do_download_loop_events (bulk : Nat → Nat → Int × Nat) (buffer : List Nat)
    (size : Nat) : ∀ (fuel k pos : Nat) (x : Int × List Event),
    ti_do_download_loop bulk buffer size fuel k pos = some x →
    ∀ ev ∈ x.2, ∃ d st dn, ev = Event.bulk_msg d st dn := by
  intro fuel
  induction fuel with
  | zero =>
    intro k pos x hx
    by_cases hp : pos < size
    · simp [ti_do_download_loop, hp] at hx
    · simp only [ti_do_download_loop, hp, if_false, Option.some.injEq] at hx
      subst hx
      simp
  | succ fuel ih =>
    intro k pos x hx
    by_cases hp : pos < size
    · simp only [ti_do_download_loop, hp, if_true] at hx
      by_cases hs : (bulk k (min (size - pos) TI_DOWNLOAD_MAX_PACKET_SIZE)).1 = 0
      · simp only [hs, ne_eq, not_true_eq_false, if_false, Option.map_eq_some'] at hx
        obtain ⟨y, hy, rfl⟩ := hx
        intro ev hev
        simp only [List.mem_cons] at hev
        rcases hev with rfl | hev
        · exact ⟨_, _, _, rfl⟩
        · exact ih _ _ y hy ev hev
      · simp only [hs, ne_eq, not_false_eq_true, if_true, Option.some.injEq] at hx
        subst hx
        intro ev hev
        simp only [List.mem_singleton] at hev
        exact ⟨_, _, _, hev⟩
    · simp only [ti_do_download_loop, hp, if_false, Option.some.injEq] at hx
      subst hx
      simp

theorem ti_do_download_loop_whole (buffer : List Nat) (size : Nat) (hb : size ≤ buffer.length)
    (r : Nat) (hr0 : 0 < r) (hr : r ≤ 64) : ∀ (q fuel k pos : Nat),
    pos + 64 * q + r = size → q + 1 ≤ fuel →
    ∃ t, ti_do_download_loop bulk_whole buffer size fuel k pos = some (0, t) ∧
      bulk_lengths t = List.replicate q 64 ++ [r] := by
  intro q
  induction q with
  | zero =>
    intro fuel k pos hpos hf
    obtain ⟨f, rfl⟩ : ∃ f, fuel = f + 1 := ⟨fuel - 1, by omega⟩
    have hp : pos < size := by omega
    have hlen : min (size - pos) TI_DOWNLOAD_MAX_PACKET_SIZE = r := by
      simp only [TI_DOWNLOAD_MAX_PACKET_SIZE]; omega
    have hd := ti_do_download_loop_done bulk_whole buffer size f (k + 1) (pos + r) (by omega)
    refine ⟨[Event.bulk_msg ((buffer.drop pos).take r) 0 r], ?_, ?_⟩
    · simp [ti_do_download_loop, hp, hlen, bulk_whole, hd]
    · simp only [bulk_lengths, List.filterMap_cons, List.filterMap_nil, List.length_take,
        List.length_drop, List.replicate_zero, List.nil_append, List.cons.injEq, and_true]
      omega
  | succ q ih =>
    intro fuel k pos hpos hf
    obtain ⟨f, rfl⟩ : ∃ f, fuel = f + 1 := ⟨fuel - 1, by omega⟩
    have hp : pos < size := by omega
    have hlen : min (size - pos) TI_DOWNLOAD_MAX_PACKET_SIZE = 64 := by
      simp only [TI_DOWNLOAD_MAX_PACKET_SIZE]; omega
    obtain ⟨t, ht, hl⟩ := ih f (k + 1) (pos + 64) (by omega) (by omega)
    refine ⟨Event.bulk_msg ((buffer.drop pos).take 64) 0 64 :: t, ?_, ?_⟩
    · simp [ti_do_download_loop, hp, hlen, bulk_whole, ht]
    · simp only [bulk_lengths, List.filterMap_cons, List.length_take, List.length_drop] at hl ⊢
      rw [hl, List.replicate_succ, List.cons_append]
      congr 1
      omega

theorem ti_do_download_header_length (buffer : List Nat) (size : Nat) :
    (ti_do_download_header buffer size).length = buffer.length := by
  simp [ti_do_download_header]

theorem bulk_lengths_append (a b : List Event) :
    bulk_lengths (a ++ b) = bulk_lengths a ++ bulk_lengths b := by
  simp [bulk_lengths]

theorem ti_download_image_whole (requests : List Event) (data : List Nat) (q r : Nat)
    (hr0 : 0 < r) (hr : r ≤ 64) (hlen : data.length = 64 * q + r)
    (hle : data.length ≤ TI_FIRMWARE_BUF_SIZE) (fuel : Nat) (hf : q + 1 ≤ fuel) :
    ∃ res, ti_download_image requests data true bulk_whole fuel = some res ∧ res.status = 0 ∧
      bulk_lengths res.trace = bulk_lengths requests ++ (List.replicate q 64 ++ [r]) := by
  have hb : data.length ≤ (ti_do_download_header (ti_download_buffer data) data.length).length := by
    rw [ti_do_download_header_length]
    have := ti_download_buffer_length data
    omega
  obtain ⟨t, ht, hl⟩ := ti_do_download_loop_whole _ data.length hb r hr0 hr
    q fuel 0 0 (by omega) hf
  refine ⟨{ status := 0, trace := requests ++ t ++ [],
             buffer := some (ti_do_download_header (ti_download_buffer data) data.length) },
    ?_, rfl, ?_⟩
  · have hs : ¬ data.length > TI_FIRMWARE_BUF_SIZE := by omega
    simp [ti_download_image, hs, ti_do_download, ht]
  · simp only [List.append_nil, bulk_lengths_append, hl]

theorem ti_download_image_too_large (requests : List Event) (data : List Nat)
    (buffer_alloc : Bool) (bulk : Nat → Nat → Int × Nat) (fuel : Nat)
    (h : TI_FIRMWARE_BUF_SIZE < data.length) :
    ti_download_image requests data buffer_alloc bulk fuel
      = some { status := -ENOENT, trace := requests ++ [Event.dev_err "firmware too large"],
               buffer := none } := by
  simp [ti_download_image, h]

/-- What an image within the size limit adds to the trace: bulk transfers and at
most the message that the download failed. -/
theorem ti_download_image_trace (requests : List Event) (data : List Nat)
    (buffer_alloc : Bool) (bulk : Nat → Nat → Int × Nat) (fuel : Nat)
    (h : data.length ≤ TI_FIRMWARE_BUF_SIZE) (r : download_result)
    (hr : ti_download_image requests data buffer_alloc bulk fuel = some r) :
    ∃ t, r.trace = requests ++ t ∧
      ∀ ev ∈ t, (∃ d st dn, ev = Event.bulk_msg d st dn) ∨
        ev = Event.dev_err "error downloading firmware" := by
  have hs : ¬ data.length > TI_FIRMWARE_BUF_SIZE := by omega
  unfold ti_download_image at hr
  simp only [hs, if_false] at hr
  by_cases ha : buffer_alloc = true
  · simp only [ha, Bool.not_true, Bool.false_eq_true, if_false, ti_do_download, Option.map_map,
      Option.map_eq_some'] at hr
    obtain ⟨x, hx, rfl⟩ := hr
    have hev := ti_do_download_loop_events _ _ _ _ _ _ x hx
    refine ⟨x.2 ++ (if x.1 ≠ 0 then [Event.dev_err "error downloading firmware"] else []),
      by simp, ?_⟩
    intro ev hmem
    rcases List.mem_append.mp hmem with h1 | h2
    · exact Or.inl (hev ev h1)
    · split_ifs at h2
      · exact Or.inr (by simpa using h2)
      · simp at h2
  · have ha' : buffer_alloc = false := by simpa using ha
    simp only [ha', Bool.not_false, if_true, Option.some.injEq] at hr
    subst hr
    exact ⟨[Event.dev_err "error downloading firmware"], rfl, by simp⟩

/-- How `ti_download_firmware` continues once an image is resolved. -/
theorem ti_download_firmware_resolved (idVendor idProduct : Nat) (td_is_3410 : Bool)
    (request_firmware : String → Option (List Nat)) (buffer_alloc : Bool)
    (bulk : Nat → Nat → Int × Nat) (fuel : Nat) (data : List Nat)
    (h : ti_firmware_resolved idVendor idProduct td_is_3410 request_firmware = some data) :
    ∃ requests, (∀ ev ∈ requests, ∃ name found, ev = Event.request_firmware name found) ∧
      ti_download_firmware idVendor idProduct td_is_3410 request_firmware buffer_alloc bulk fuel
        = ti_download_image requests data buffer_alloc bulk fuel := by
  unfold ti_firmware_resolved at h
  cases h1 : request_firmware (ti_firmware_name_id idVendor idProduct) with
  | some d =>
    simp only [h1, Option.some.injEq] at h
    subst h
    refine ⟨[Event.request_firmware (ti_firmware_name_id idVendor idProduct) true],
      by simp, ?_⟩
    simp only [ti_download_firmware, h1]
  | none =>
    simp only [h1] at h
    refine ⟨[Event.request_firmware (ti_firmware_name_id idVendor idProduct) false,
      Event.request_firmware (ti_firmware_name_second idVendor idProduct td_is_3410) true],
      by simp, ?_⟩
    simp only [ti_download_firmware, h1, h]

theorem bulk_lengths_requests (requests : List Event)
    (h : ∀ ev ∈ requests, ∃ name found, ev = Event.request_firmware name found) :
    bulk_lengths requests = [] := by
  induction requests with
  | nil => rfl
  | cons a l ih =>
    obtain ⟨n, f, rfl⟩ := h a (by simp)
    simpa [bulk_lengths] using ih (fun ev hev => h ev (by simp [hev]))

/-- C7, amended. When the transfer buffer is allocated and every bulk transfer
succeeds and transfers the whole chunk requested, a firmware image of exactly
16284 bytes is downloaded as 254 chunks of 64 bytes followed by one final chunk
of 28 bytes (255 transfers in all), and the download returns 0. -/
theorem ti_download_16284_chunks (idVendor idProduct : Nat) (td_is_3410 : Bool)
    (request_firmware : String → Option (List Nat)) (data : List Nat) (fuel : Nat)
    (hres : ti_firmware_resolved idVendor idProduct td_is_3410 request_firmware = some data)
    (hlen : data.length = 16284) (hf : 255 ≤ fuel) :
    ∃ r, ti_download_firmware idVendor idProduct td_is_3410 request_firmware true bulk_whole fuel
        = some r ∧ r.status = 0 ∧ bulk_lengths r.trace = List.replicate 254 64 ++ [28] := by
  obtain ⟨requests, hreq, heq⟩ := ti_download_firmware_resolved idVendor idProduct td_is_3410
    request_firmware true bulk_whole fuel data hres
  obtain ⟨r, hr, hs, hl⟩ := ti_download_image_whole requests data 254 28 (by decide)
    (by decide) (by omega) (by simp only [TI_FIRMWARE_BUF_SIZE]; omega) fuel (by omega)
  refine ⟨r, heq.trans hr, hs, ?_⟩
  rw [hl, bulk_lengths_requests requests hreq, List.nil_append]

/-- C7, amended, for the 16284-byte image of zeros on a TI 3410. -/
theorem ti_download_16284_chunks_witness :
    ∃ r, ti_download_firmware 0x0451 0x3410 true (any_firmware (List.replicate 16284 0)) true
        bulk_whole 255 = some r ∧ r.status = 0 ∧
      bulk_lengths r.trace = List.replicate 254 64 ++ [28] :=
  ti_download_16284_chunks 0x0451 0x3410 true (any_firmware (List.replicate 16284 0))
    (List.replicate 16284 0) 255 rfl (List.length_replicate _ _) (le_refl _)

/-- C7, as stated, fails: the 16284-byte image of zeros is not downloaded as 255
chunks of 64 bytes followed by a shorter one (16284 = 254 * 64 + 28). -/
theorem ti_download_16284_not_255_chunks :
    ¬ ∃ r k, ti_download_firmware 0x0451 0x3410 true (any_firmware (List.replicate 16284 0)) true
        bulk_whole 256 = some r ∧ k < 64 ∧
      bulk_lengths r.trace = List.replicate 255 64 ++ [k] := by
  rintro ⟨r, k, hr, _, hl⟩
  obtain ⟨requests, hreq, heq⟩ := ti_download_firmware_resolved 0x0451 0x3410 true
    (any_firmware (List.replicate 16284 0)) true bulk_whole 256 (List.replicate 16284 0) rfl
  obtain ⟨r', hr', _, hl'⟩ := ti_download_image_whole requests (List.replicate 16284 0)
    254 28 (by decide) (by decide) (List.length_replicate _ _)
    (by rw [List.length_replicate]; decide) 256 (by decide)
  rw [heq, hr'] at hr
  cases hr
  rw [hl', bulk_lengths_requests requests hreq, List.nil_append] at hl
  have := congrArg List.length hl
  simp only [List.length_append, List.length_replicate, List.length_cons, List.length_nil] at this
  omega

/-- What a resolved image adds to the trace: bulk transfers, the message that
the download failed, and the size message only for an image over the limit. -/
theorem ti_download_image_added (requests : List Event) (data : List Nat)
    (buffer_alloc : Bool) (bulk : Nat → Nat → Int × Nat) (fuel : Nat) (r : download_result)
    (hr : ti_download_image requests data buffer_alloc bulk fuel = some r) :
    ∃ t, r.trace = requests ++ t ∧
      ∀ ev ∈ t, (∃ d st dn, ev = Event.bulk_msg d st dn) ∨
        ev = Event.dev_err "error downloading firmware" ∨
        (ev = Event.dev_err "firmware too large" ∧ TI_FIRMWARE_BUF_SIZE < data.length) := by
  by_cases h : TI_FIRMWARE_BUF_SIZE < data.length
  · rw [ti_download_image_too_large _ _ _ _ _ h] at hr
    cases hr
    exact ⟨[Event.dev_err "firmware too large"], rfl, by simp [h]⟩
  · obtain ⟨t, ht, hev⟩ := ti_download_image_trace requests data buffer_alloc bulk fuel
      (by omega) r hr
    refine ⟨t, ht, fun ev hmem => ?_⟩
    rcases hev ev hmem with h1 | h2
    · exact Or.inl h1
    · exact Or.inr (Or.inl h2)

theorem requested_names_added (t : List Event) (data : List Nat)
    (h : ∀ ev ∈ t, (∃ d st dn, ev = Event.bulk_msg d st dn) ∨
        ev = Event.dev_err "error downloading firmware" ∨
        (ev = Event.dev_err "firmware too large" ∧ TI_FIRMWARE_BUF_SIZE < data.length)) :
    requested_names t = [] := by
  induction t with
  | nil => rfl
  | cons a l ih =>
    have hl := ih (fun ev hev => h ev (by simp [hev]))
    rcases h a (by simp) with ⟨d, st, dn, rfl⟩ | rfl | ⟨rfl, _⟩ <;>
      simpa [requested_names] using hl

theorem requested_names_append (a b : List Event) :
    requested_names (a ++ b) = requested_names a ++ requested_names b := by
  simp [requested_names]

/-- C8. Given a firmware image that was resolved, `ti_download_firmware` fails
for size (logs that the firmware is too large) if and only if the image is
larger than 16284 bytes, and when it does it returns an error (-ENOENT) with no
bulk transfer made and no transfer buffer filled. -/
theorem ti_download_firmware_size_limit (idVendor idProduct : Nat) (td_is_3410 : Bool)
    (request_firmware : String → Option (List Nat)) (buffer_alloc : Bool)
    (bulk : Nat → Nat → Int × Nat) (fuel : Nat) (data : List Nat)
    (hres : ti_firmware_resolved idVendor idProduct td_is_3410 request_firmware = some data) :
    (∀ r, ti_download_firmware idVendor idProduct td_is_3410 request_firmware buffer_alloc
          bulk fuel = some r →
        (Event.dev_err "firmware too large" ∈ r.trace ↔ TI_FIRMWARE_BUF_SIZE < data.length)) ∧
    (TI_FIRMWARE_BUF_SIZE < data.length →
      ∃ r, ti_download_firmware idVendor idProduct td_is_3410 request_firmware buffer_alloc
          bulk fuel = some r ∧
        r.status = -ENOENT ∧ bulk_lengths r.trace = [] ∧ r.buffer = none) := by
  obtain ⟨requests, hreq, heq⟩ := ti_download_firmware_resolved idVendor idProduct td_is_3410
    request_firmware buffer_alloc bulk fuel data hres
  rw [heq]
  constructor
  · intro r hr
    obtain ⟨t, ht, hev⟩ := ti_download_image_added requests data buffer_alloc bulk fuel r hr
    constructor
    · intro hmem
      rw [ht] at hmem
      rcases List.mem_append.mp hmem with h1 | h2
      · obtain ⟨n, f, hn⟩ := hreq _ h1
        cases hn
      · rcases hev _ h2 with ⟨d, st, dn, h3⟩ | h3 | ⟨_, h3⟩
        · cases h3
        · exact absurd h3 (by decide)
        · exact h3
    · intro hbig
      rw [ti_download_image_too_large _ _ _ _ _ hbig] at hr
      cases hr
      simp
  · intro hbig
    rw [ti_download_image_too_large _ _ _ _ _ hbig]
    refine ⟨_, rfl, rfl, ?_, rfl⟩
    simp only [bulk_lengths_append, bulk_lengths_requests requests hreq]
    rfl

/-- C8, at the limit: an image of 16285 bytes is rejected for size with nothing
sent, and an image of exactly 16284 bytes is not rejected for size (the download
goes through and returns 0). -/
theorem ti_download_firmware_size_limit_witness :
    (∃ r, ti_download_firmware 0x0451 0x3410 true (any_firmware (List.replicate 16285 0)) true
        bulk_whole 255 = some r ∧
      r.status = -ENOENT ∧ bulk_lengths r.trace = [] ∧ r.buffer = none) ∧
    (∃ r, ti_download_firmware 0x0451 0x3410 true (any_firmware (List.replicate 16284 0)) true
        bulk_whole 255 = some r ∧
      r.status = 0 ∧ Event.dev_err "firmware too large" ∉ r.trace) := by
  refine ⟨(ti_download_firmware_size_limit 0x0451 0x3410 true
      (any_firmware (List.replicate 16285 0)) true bulk_whole 255 (List.replicate 16285 0) rfl).2
      (by rw [List.length_replicate]; decide), ?_⟩
  obtain ⟨requests, _, heq⟩ := ti_download_firmware_resolved 0x0451 0x3410 true
    (any_firmware (List.replicate 16284 0)) true bulk_whole 255 (List.replicate 16284 0) rfl
  obtain ⟨r, hr, hs, _⟩ := ti_download_image_whole requests (List.replicate 16284 0)
    254 28 (by decide) (by decide) (List.length_replicate _ _)
    (by rw [List.length_replicate]; decide) 255 (le_refl _)
  refine ⟨r, heq.trans hr, hs, fun hmem => ?_⟩
  exact absurd (((ti_download_firmware_size_limit 0x0451 0x3410 true
    (any_firmware (List.replicate 16284 0)) true bulk_whole 255 (List.replicate 16284 0)
    rfl).1 r (heq.trans hr)).mp hmem) (by rw [List.length_replicate]; decide)

/-! ## Firmware names -/

theorem ti_firmware_name_moxa_ne_empty (idProduct : Nat) :
    "moxa/moxa-" ++ hex04 idProduct ++ ".fw" ≠ "" := by
  intro h
  have := congrArg String.length h
  simp only [String.length_append] at this
  have h0 : "".length = 0 := rfl
  have h1 : ".fw".length = 3 := rfl
  omega

/-- C9, as stated, fails: for a Multi-Tech 0xF110 device for which only
"ti_3410.fw" is available, `ti_download_firmware` asks for the identity name and
for "mts_cdma.fw", never for "ti_3410.fw", and fails with not-found. -/
theorem ti_download_firmware_no_generic_after_table :
    only_firmware "ti_3410.fw" [0, 0, 0, 1] "ti_3410.fw" = some [0, 0, 0, 1] ∧
    ti_download_firmware MTS_VENDOR_ID MTS_CDMA_PRODUCT_ID true
        (only_firmware "ti_3410.fw" [0, 0, 0, 1]) true bulk_whole 5
      = some { status := -ENOENT,
               trace := [Event.request_firmware "ti_usb-v06e0-pf110.fw" false,
                         Event.request_firmware "mts_cdma.fw" false,
                         Event.dev_err "firmware not found"],
               buffer := none } := by
  decide

theorem ti_firmware_name_second_generic (idVendor idProduct : Nat) (td_is_3410 : Bool)
    (h1 : idVendor = MTS_VENDOR_ID → ti_firmware_name_mts idProduct = "")
    (h2 : idVendor ≠ MXU1_VENDOR_ID) :
    ti_firmware_name_second idVendor idProduct td_is_3410
      = (if td_is_3410 then "ti_3410.fw" else "ti_5052.fw") := by
  unfold ti_firmware_name_second
  by_cases hv : idVendor = MTS_VENDOR_ID
  · simp [h1 hv, h2]
  · simp [hv, h2]

/-- C9, amended. For every device identity and every firmware store,
`ti_download_firmware` asks for the identity-specific name
"ti_usb-v<vid>-p<pid>.fw" first and, only if that request fails, for exactly one
more name: the Multi-Tech table name if the vendor is Multi-Tech and the product
is in the table (0xF115 and 0x0319 both map to "mts_mt9234zba.fw"), the Moxa
name "moxa/moxa-<pid>.fw" if the vendor is Moxa, and the generic family name
("ti_3410.fw" for the 3410 family, "ti_5052.fw" otherwise) in every other case.
It works with the first of the two that resolves, and it fails with not-found
exactly when neither of the two resolves. -/
theorem ti_download_firmware_candidates (idVendor idProduct : Nat) (td_is_3410 : Bool)
    (request_firmware : String → Option (List Nat)) (buffer_alloc : Bool)
    (bulk : Nat → Nat → Int × Nat) (fuel : Nat) :
    (∀ r, ti_download_firmware idVendor idProduct td_is_3410 request_firmware buffer_alloc
          bulk fuel = some r →
      requested_names r.trace
        = (if (request_firmware (ti_firmware_name_id idVendor idProduct)).isSome
            then [ti_firmware_name_id idVendor idProduct]
            else [ti_firmware_name_id idVendor idProduct,
                  ti_firmware_name_second idVendor idProduct td_is_3410]) ∧
      (Event.dev_err "firmware not found" ∈ r.trace ↔
        (request_firmware (ti_firmware_name_id idVendor idProduct) = none ∧
         request_firmware (ti_firmware_name_second idVendor idProduct td_is_3410) = none))) ∧
    (request_firmware (ti_firmware_name_id idVendor idProduct) = none →
      request_firmware (ti_firmware_name_second idVendor idProduct td_is_3410) = none →
      ∃ r, ti_download_firmware idVendor idProduct td_is_3410 request_firmware buffer_alloc
          bulk fuel = some r ∧ r.status = -ENOENT ∧ bulk_lengths r.trace = []) ∧
    (∀ data, ti_firmware_resolved idVendor idProduct td_is_3410 request_firmware = some data →
      ∃ requests,
        ti_download_firmware idVendor idProduct td_is_3410 request_firmware buffer_alloc bulk fuel
          = ti_download_image requests data buffer_alloc bulk fuel) ∧
    ti_firmware_name_id idVendor idProduct
      = "ti_usb-v" ++ hex04 idVendor ++ "-p" ++ hex04 idProduct ++ ".fw" ∧
    (idVendor = MTS_VENDOR_ID →
      (idProduct = 0xF110 →
        ti_firmware_name_second idVendor idProduct td_is_3410 = "mts_cdma.fw") ∧
      (idProduct = 0xF111 →
        ti_firmware_name_second idVendor idProduct td_is_3410 = "mts_gsm.fw") ∧
      (idProduct = 0xF112 →
        ti_firmware_name_second idVendor idProduct td_is_3410 = "mts_edge.fw") ∧
      (idProduct = 0xF114 →
        ti_firmware_name_second idVendor idProduct td_is_3410 = "mts_mt9234mu.fw") ∧
      (idProduct = 0xF115 →
        ti_firmware_name_second idVendor idProduct td_is_3410 = "mts_mt9234zba.fw") ∧
      (idProduct = 0x0319 →
        ti_firmware_name_second idVendor idProduct td_is_3410 = "mts_mt9234zba.fw") ∧
      (idProduct ∉ [0xF110, 0xF111, 0xF112, 0xF114, 0xF115, 0x0319] →
        ti_firmware_name_second idVendor idProduct td_is_3410
          = (if td_is_3410 then "ti_3410.fw" else "ti_5052.fw"))) ∧
    (idVendor = MXU1_VENDOR_ID →
      ti_firmware_name_second idVendor idProduct td_is_3410
        = "moxa/moxa-" ++ hex04 idProduct ++ ".fw") ∧
    (idVendor ≠ MTS_VENDOR_ID → idVendor ≠ MXU1_VENDOR_ID →
      ti_firmware_name_second idVendor idProduct td_is_3410
        = (if td_is_3410 then "ti_3410.fw" else "ti_5052.fw")) := by
  refine ⟨fun r hr => ?_, fun h1 h2 => ?_, fun data hres => ?_, rfl, fun hv => ?_, fun hv => ?_,
    fun hv1 hv2 => ?_⟩
  · cases h1 : request_firmware (ti_firmware_name_id idVendor idProduct) with
    | some d =>
      simp only [ti_download_firmware, h1] at hr
      obtain ⟨t, ht, hev⟩ := ti_download_image_added _ d buffer_alloc bulk fuel r hr
      have hn := requested_names_added t d hev
      refine ⟨by rw [ht, requested_names_append, hn]; simp [requested_names], ?_⟩
      constructor
      · intro hmem
        rw [ht] at hmem
        rcases List.mem_append.mp hmem with h | h
        · simp at h
        · rcases hev _ h with ⟨_, _, _, h3⟩ | h3 | ⟨h3, _⟩
          · cases h3
          · exact absurd h3 (by decide)
          · exact absurd h3 (by decide)
      · rintro ⟨h, _⟩
        cases h
    | none =>
      cases h2 : request_firmware (ti_firmware_name_second idVendor idProduct td_is_3410) with
      | some d =>
        simp only [ti_download_firmware, h1, h2] at hr
        obtain ⟨t, ht, hev⟩ := ti_download_image_added _ d buffer_alloc bulk fuel r hr
        have hn := requested_names_added t d hev
        refine ⟨by rw [ht, requested_names_append, hn]; simp [requested_names], ?_⟩
        constructor
        · intro hmem
          rw [ht] at hmem
          rcases List.mem_append.mp hmem with h | h
          · simp at h
          · rcases hev _ h with ⟨_, _, _, h3⟩ | h3 | ⟨h3, _⟩
            · cases h3
            · exact absurd h3 (by decide)
            · exact absurd h3 (by decide)
        · rintro ⟨_, h⟩
          cases h
      | none =>
        simp only [ti_download_firmware, h1, h2, Option.some.injEq] at hr
        subst hr
        simp [requested_names]
  · refine ⟨{ status := -ENOENT,
               trace := [Event.request_firmware (ti_firmware_name_id idVendor idProduct) false,
                 Event.request_firmware
                   (ti_firmware_name_second idVendor idProduct td_is_3410) false,
                 Event.dev_err "firmware not found"],
               buffer := none }, ?_, rfl, rfl⟩
    simp only [ti_download_firmware, h1, h2]
  · obtain ⟨requests, _, heq⟩ := ti_download_firmware_resolved idVendor idProduct td_is_3410
      request_firmware buffer_alloc bulk fuel data hres
    exact ⟨requests, heq⟩
  · subst hv
    refine ⟨?_, ?_, ?_, ?_, ?_, ?_, ?_⟩
    · rintro rfl; cases td_is_3410 <;> decide
    · rintro rfl; cases td_is_3410 <;> decide
    · rintro rfl; cases td_is_3410 <;> decide
    · rintro rfl; cases td_is_3410 <;> decide
    · rintro rfl; cases td_is_3410 <;> decide
    · rintro rfl; cases td_is_3410 <;> decide
    · intro hp
      apply ti_firmware_name_second_generic _ _ _ _ (by decide)
      intro _
      simp only [List.mem_cons, List.mem_singleton, List.not_mem_nil, or_false, not_or] at hp
      simp [ti_firmware_name_mts, MTS_CDMA_PRODUCT_ID, MTS_GSM_PRODUCT_ID, MTS_EDGE_PRODUCT_ID,
        MTS_MT9234MU_PRODUCT_ID, MTS_MT9234ZBA_PRODUCT_ID, MTS_MT9234ZBAOLD_PRODUCT_ID, hp]
  · subst hv
    have hne := ti_firmware_name_moxa_ne_empty idProduct
    simp [ti_firmware_name_second, show MXU1_VENDOR_ID ≠ MTS_VENDOR_ID by decide, hne]
  · exact ti_firmware_name_second_generic _ _ _ (fun h => absurd h hv1) hv2

/-- C9, amended, for a TI 3410 with no firmware available at all: both requests
fail and the download returns -ENOENT without a transfer. -/
theorem ti_download_firmware_candidates_witness :
    ∃ r, ti_download_firmware 0x0451 0x3410 true no_firmware true bulk_whole 0 = some r ∧
      r.status = -ENOENT ∧ bulk_lengths r.trace = [] :=
  (ti_download_firmware_candidates 0x0451 0x3410 true no_firmware true bulk_whole 0).2.1 rfl rfl

/-! ## Interrupt events -/

/-- C10. On a two-port device whose port 1 has been opened, the interrupt event
with code byte 0x44 (port ordinal 1, kind modem-status) and payload 0x10,
delivered with success status on port 0's interrupt URB, leaves the cached
modem status of port 1 at its old value 0 and sets that of port 0 to 0x10. -/
theorem ti_interrupt_callback_updates_urb_owner :
    ti_get_port_from_code 0x44 = 1 ∧ ti_get_func_from_code 0x44 = TI_CODE_MODEM_STATUS ∧
    (get_tport (ti_open fresh_5052 1 open_ok).1 0).tp_msr = 0 ∧
    (get_tport (ti_open fresh_5052 1 open_ok).1 1).tp_msr = 0 ∧
    (get_tport (ti_interrupt_callback (ti_open fresh_5052 1 open_ok).1
      { context := 0, status := 0, actual_length := 2, transfer_buffer := [0x44, 0x10] } 0)
      1).tp_msr = 0 ∧
    (get_tport (ti_interrupt_callback (ti_open fresh_5052 1 open_ok).1
      { context := 0, status := 0, actual_length := 2, transfer_buffer := [0x44, 0x10] } 0)
      0).tp_msr = 0x10 := by
  decide

/-! ## Attach, at concrete devices -/

/-- C4, amended, at three devices: one in the active configuration (attach
returns 0), one in the boot configuration whose configuration switch succeeds
(-ENODEV) and one without firmware whose download succeeds (-ENODEV). -/
theorem ti_startup_branches_witness :
    ti_startup_status startup_ready 0 = some 0 ∧
    ti_startup_status startup_boot_config 0 = some (-ENODEV) ∧
    ti_startup_status startup_no_firmware 1 = some (-ENODEV) := by
  refine ⟨((ti_startup_branches startup_ready 0).2 rfl).1.mpr ⟨by decide, by decide⟩,
    (((ti_startup_branches startup_boot_config 0).2 rfl).2.2 (by decide) rfl).1, ?_⟩
  obtain ⟨requests, _, heq⟩ := ti_download_firmware_resolved 0x0451 0x3410 true
    (any_firmware [0, 0, 0, 1]) true bulk_whole 1 [0, 0, 0, 1] rfl
  obtain ⟨r, hr, hs, _⟩ := ti_download_image_whole requests [0, 0, 0, 1] 0 4 (by decide)
    (by decide) rfl (by decide) 1 (le_refl _)
  have h := ((((ti_startup_branches startup_no_firmware 1).2 rfl).2.1 ⟨rfl, rfl⟩) r
    (heq.trans hr)).1
  rw [h, hs]
  rfl

/-! ## Traces of the helpers -/

@[simp] theorem emit_trace (s : usb_serial) (e : Event) : (emit s e).trace = s.trace ++ [e] := rfl

@[simp] theorem dev_err_if_trace (s : usb_serial) (c : Bool) (msg : String) :
    (dev_err_if s c msg).trace = s.trace ++ (if c then [Event.dev_err msg] else []) := by
  cases c <;> simp [dev_err_if]

@[simp] theorem set_tport_trace (s : usb_serial) (p : Nat) (f : ti_port → ti_port) :
    (set_tport s p f).trace = s.trace := rfl

@[simp] theorem usb_submit_interrupt_urb_trace (s : usb_serial) (st : Int) :
    (usb_submit_interrupt_urb s st).trace = s.trace ++ [Event.submit_interrupt_urb st] := by
  unfold usb_submit_interrupt_urb
  split_ifs <;> rfl

@[simp] theorem usb_submit_interrupt_urb_port (s : usb_serial) (st : Int) :
    (usb_submit_interrupt_urb s st).port = s.port := by
  unfold usb_submit_interrupt_urb
  split_ifs <;> rfl

theorem ti_handle_new_msr_trace (s : usb_serial) (port msr : Nat) :
    (ti_handle_new_msr s port msr).trace
      = s.trace ++ (if msr &&& TI_MSR_DELTA_MASK ≠ 0 then [Event.wake_up_delta_msr_wait] else []) := by
  unfold ti_handle_new_msr
  split_ifs <;> simp

theorem interrupt_submissions_append (a b : List Event) :
    interrupt_submissions (a ++ b) = interrupt_submissions a ++ interrupt_submissions b := by
  simp [interrupt_submissions]

theorem ti_interrupt_callback_exit_trace (s : usb_serial) (resubmit : Int) :
    (ti_interrupt_callback_exit s resubmit).trace
      = s.trace ++ Event.submit_interrupt_urb resubmit ::
          (if resubmit ≠ 0 then [Event.dev_err "resubmit interrupt urb failed"] else []) := by
  simp [ti_interrupt_callback_exit]

theorem ti_interrupt_callback_exit_port (s : usb_serial) (resubmit : Int) :
    (ti_interrupt_callback_exit s resubmit).port = s.port := by
  simp [ti_interrupt_callback_exit]

theorem ti_interrupt_callback_exit_submissions (s : usb_serial) (resubmit : Int) :
    interrupt_submissions (ti_interrupt_callback_exit s resubmit).trace
      = interrupt_submissions s.trace ++ [resubmit] := by
  rw [ti_interrupt_callback_exit_trace, interrupt_submissions_append]
  split_ifs <;> simp [interrupt_submissions]

/-- C11. On a one-port device whose port 0 is open, the interrupt buffer 04 13
delivered with success status has the port ordinal (0x04 >> 4) - 3 = -3, which
is outside 0 .. num_ports - 1, and yet `ti_interrupt_callback` changes the
state of port 0: its cached modem status goes from 0 to 0x10 and its CTS and
DSR event counters from 0 to 1 (the channel is resubmitted). -/
theorem ti_interrupt_callback_negative_ordinal :
    ti_get_port_from_code 0x04 = -3 ∧
    (ti_open fresh_3410 0 open_ok).1.num_ports = 1 ∧
    ((ti_open fresh_3410 0 open_ok).1.port.getD 0 default).tport.tp_msr = 0 ∧
    ((ti_open fresh_3410 0 open_ok).1.port.getD 0 default).icount
      = { cts := 0, dsr := 0, rng := 0, dcd := 0 } ∧
    ((ti_interrupt_callback (ti_open fresh_3410 0 open_ok).1
      { context := 0, status := 0, actual_length := 2, transfer_buffer := [0x04, 0x13] }
      0).port.getD 0 default).tport.tp_msr = 0x10 ∧
    ((ti_interrupt_callback (ti_open fresh_3410 0 open_ok).1
      { context := 0, status := 0, actual_length := 2, transfer_buffer := [0x04, 0x13] }
      0).port.getD 0 default).icount = { cts := 1, dsr := 1, rng := 0, dcd := 0 } ∧
    interrupt_submissions (ti_interrupt_callback (ti_open fresh_3410 0 open_ok).1
      { context := 0, status := 0, actual_length := 2, transfer_buffer := [0x04, 0x13] }
      0).trace = [0, 0] := by
  decide

/-- The discards that `ti_interrupt_callback` does make: a buffer delivered with
success status whose length is not 2, or whose code byte is 0xFF, or whose port
ordinal is `num_ports` or more, leaves every port as it was and resubmits the
channel once. -/
theorem ti_interrupt_callback_discards (s : usb_serial) (u : urb) (resubmit : Int)
    (hs : u.status = 0)
    (hd : u.actual_length ≠ 2 ∨ u.transfer_buffer.getD 0 0 = TI_CODE_HARDWARE_ERROR ∨
      ti_get_port_from_code (u.transfer_buffer.getD 0 0) ≥ (s.num_ports : Int)) :
    (ti_interrupt_callback s u resubmit).port = s.port ∧
    interrupt_submissions (ti_interrupt_callback s u resubmit).trace
      = interrupt_submissions s.trace ++ [resubmit] := by
  have key : ∀ s0 : usb_serial, s0.port = s.port → s0.trace = s.trace ∨
      (∃ msg, s0.trace = s.trace ++ [Event.dev_err msg]) →
      (ti_interrupt_callback_exit s0 resubmit).port = s.port ∧
      interrupt_submissions (ti_interrupt_callback_exit s0 resubmit).trace
        = interrupt_submissions s.trace ++ [resubmit] := by
    intro s0 hp ht
    refine ⟨by rw [ti_interrupt_callback_exit_port, hp], ?_⟩
    rw [ti_interrupt_callback_exit_submissions]
    rcases ht with ht | ⟨msg, ht⟩
    · rw [ht]
    · rw [ht, interrupt_submissions_append]
      simp [interrupt_submissions]
  unfold ti_interrupt_callback
  simp only [hs, if_true]
  by_cases h1 : u.actual_length ≠ 2
  · rw [if_pos h1]
    exact key _ rfl (Or.inl rfl)
  · rw [if_neg h1]
    by_cases h2 : u.transfer_buffer.getD 0 0 = TI_CODE_HARDWARE_ERROR
    · rw [if_pos h2]
      exact key _ rfl (Or.inr ⟨_, rfl⟩)
    · rw [if_neg h2]
      have h3 : ti_get_port_from_code (u.transfer_buffer.getD 0 0) ≥ (s.num_ports : Int) := by
        rcases hd with h | h | h
        · exact absurd h h1
        · exact absurd h h2
        · exact h
      rw [if_pos h3]
      exact key _ rfl (Or.inr ⟨_, rfl⟩)

/-- C12, as stated, fails: a buffer delivered with the status -71 (-EPROTO),
which is neither success nor a teardown status, is logged and the channel is
resubmitted. -/
theorem ti_interrupt_callback_resubmits_on_error :
    ¬ (interrupt_submissions (ti_interrupt_callback (ti_open fresh_3410 0 open_ok).1
          { context := 0, status := -71, actual_length := 0, transfer_buffer := [] } 0).trace
        ≠ interrupt_submissions (ti_open fresh_3410 0 open_ok).1.trace ↔ (-71 : Int) = 0) := by
  decide

/-- C12, amended. For every buffer delivered to `ti_interrupt_callback`, the
channel is resubmitted if and only if the completion status is not a
deliberate-teardown status: with -ECONNRESET, -ENOENT or -ESHUTDOWN the handler
stops without logging and without resubmitting, with any other non-zero status
it logs, leaves every port as it was and resubmits once, and with status 0 it
resubmits exactly once whatever the buffer's length and content. -/
theorem ti_interrupt_callback_resubmission (s : usb_serial) (u : urb) (resubmit : Int) :
    ((u.status = -ECONNRESET ∨ u.status = -ENOENT ∨ u.status = -ESHUTDOWN) →
      (ti_interrupt_callback s u resubmit).trace = s.trace ∧
      (ti_interrupt_callback s u resubmit).port = s.port ∧
      (ti_interrupt_callback s u resubmit).interrupt_in_urb_active = false) ∧
    (¬ (u.status = -ECONNRESET ∨ u.status = -ENOENT ∨ u.status = -ESHUTDOWN) →
      interrupt_submissions (ti_interrupt_callback s u resubmit).trace
        = interrupt_submissions s.trace ++ [resubmit]) ∧
    (u.status ≠ 0 → ¬ (u.status = -ECONNRESET ∨ u.status = -ENOENT ∨ u.status = -ESHUTDOWN) →
      (ti_interrupt_callback s u resubmit).port = s.port ∧
      (ti_interrupt_callback s u resubmit).trace
        = s.trace ++ Event.dev_err "nonzero urb status" :: Event.submit_interrupt_urb resubmit ::
            (if resubmit ≠ 0 then [Event.dev_err "resubmit interrupt urb failed"] else [])) := by
  refine ⟨fun ht => ?_, fun ht => ?_, fun h0 ht => ?_⟩
  · have h0 : u.status ≠ 0 := by
      rcases ht with h | h | h <;> rw [h] <;> decide
    simp [ti_interrupt_callback, h0, ht]
  · unfold ti_interrupt_callback
    simp only [ht, if_false]
    split_ifs <;> rw [ti_interrupt_callback_exit_submissions] <;>
      simp only [emit_trace, ti_handle_new_msr_trace, interrupt_submissions_append] <;>
      (try split_ifs) <;> simp [interrupt_submissions]
  · unfold ti_interrupt_callback
    simp only [h0, ht, if_false]
    constructor
    · simp [ti_interrupt_callback_exit_port]
    · rw [ti_interrupt_callback_exit_trace]
      simp

/-- C12, amended, at three buffers on a one-port device: the status -ENOENT adds
nothing to the trace, the status -71 and the status 0 with a buffer of length 3
each add one submission of the interrupt URB. -/
theorem ti_interrupt_callback_resubmission_witness :
    (ti_interrupt_callback fresh_3410
        { context := 0, status := -2, actual_length := 0, transfer_buffer := [] } 0).trace
      = fresh_3410.trace ∧
    interrupt_submissions (ti_interrupt_callback fresh_3410
        { context := 0, status := -71, actual_length := 0, transfer_buffer := [] } 0).trace
      = interrupt_submissions fresh_3410.trace ++ [0] ∧
    interrupt_submissions (ti_interrupt_callback fresh_3410
        { context := 0, status := 0, actual_length := 3, transfer_buffer := [0x34, 0x10, 0] }
        0).trace
      = interrupt_submissions fresh_3410.trace ++ [0] :=
  ⟨((ti_interrupt_callback_resubmission fresh_3410
      { context := 0, status := -2, actual_length := 0, transfer_buffer := [] } 0).1
      (by decide)).1,
   (ti_interrupt_callback_resubmission fresh_3410
      { context := 0, status := -71, actual_length := 0, transfer_buffer := [] } 0).2.1
      (by decide),
   (ti_interrupt_callback_resubmission fresh_3410
      { context := 0, status := 0, actual_length := 3, transfer_buffer := [0x34, 0x10, 0] }
      0).2.1 (by decide)⟩

/-! ## Baud divisor -/

theorem ti_termios_config_wBaudRate (tport : ti_port) (td_is_3410 : Bool) (tty : ktermios) :
    (ti_termios_config tport td_is_3410 tty).wBaudRate
      = (ti_baud_divisor td_is_3410 (ti_termios_baud tty) % 65536).toNat := by
  cases td_is_3410 <;> simp [ti_termios_config, ti_baud_divisor]

theorem ti_termios_config_wBaudRate_lt (tport : ti_port) (td_is_3410 : Bool)
    (tty : ktermios) : (ti_termios_config tport td_is_3410 tty).wBaudRate < 65536 := by
  rw [ti_termios_config_wBaudRate]
  have h1 := Int.emod_nonneg (ti_baud_divisor td_is_3410 (ti_termios_baud tty))
    (show (65536 : Int) ≠ 0 by decide)
  have h2 := Int.emod_lt_of_pos (ti_baud_divisor td_is_3410 (ti_termios_baud tty))
    (show (0 : Int) < 65536 by decide)
  omega

/-- A rate below 2^31 is the same number in `int baud`. -/
theorem int_of_unsigned_small (r : Nat) (h : r < 2147483648) :
    int_of_unsigned r = (r : Int) := by
  unfold int_of_unsigned
  have h1 : r % 4294967296 = r := Nat.mod_eq_of_lt (by omega)
  rw [h1, if_pos h]

theorem ti_termios_baud_small (tty : ktermios) (h1 : 1 ≤ tty.baud)
    (h2 : tty.baud < 2147483648) : ti_termios_baud tty = (tty.baud : Int) := by
  unfold ti_termios_baud
  rw [int_of_unsigned_small _ h2, if_neg]
  omega

/-- For a rate that is not negative the C `int` expression is the quotient of
natural numbers. -/
theorem ti_baud_divisor_eq (td_is_3410 : Bool) (r : Nat) :
    ti_baud_divisor td_is_3410 (r : Int)
      = (((ti_baud_base td_is_3410 + r / 2) / r : Nat) : Int) := by
  have h2 : Int.tdiv (r : Int) 2 = ((r / 2 : Nat) : Int) := (Int.ofNat_tdiv r 2).symm
  cases td_is_3410
  · simp only [ti_baud_divisor, ti_baud_base, Bool.false_eq_true, if_false, h2]
    rw [← Nat.cast_add]
    exact (Int.ofNat_tdiv _ _).symm
  · simp only [ti_baud_divisor, ti_baud_base, if_true, h2]
    rw [← Nat.cast_add]
    exact (Int.ofNat_tdiv _ _).symm

/-- The quotient `(base + r / 2) / r` is within half of `base / r`, an exact half
being rounded up. -/
theorem div_half_nearest (base r : Nat) (hr : 1 ≤ r) :
    2 * ((base + r / 2) / r * r) ≤ 2 * base + r ∧
    2 * base < 2 * ((base + r / 2) / r * r) + r := by
  have h1 : (base + r / 2) / r * r ≤ base + r / 2 := Nat.div_mul_le_self _ _
  have h2 : base + r / 2 < ((base + r / 2) / r + 1) * r := by
    have := Nat.lt_div_mul_add (a := base + r / 2) (b := r) (by omega)
    rw [Nat.add_mul, Nat.one_mul]
    exact this
  rw [Nat.add_mul, Nat.one_mul] at h2
  constructor <;> omega

theorem div_half_eq_round_div (base r : Nat) (hr : 1 ≤ r) :
    (base + r / 2) / r = round_div base r := by
  obtain ⟨h1, h2⟩ := div_half_nearest base r hr
  unfold round_div
  symm
  apply Nat.div_eq_of_lt_le
  · calc (base + r / 2) / r * (2 * r) = 2 * ((base + r / 2) / r * r) := by ring
      _ ≤ 2 * base + r := h1
  · calc 2 * base + r < 2 * ((base + r / 2) / r * r) + r + r := by omega
      _ = ((base + r / 2) / r).succ * (2 * r) := by rw [Nat.succ_eq_add_one]; ring

/-- C13, as stated, fails: the rate is held in a C `int`, so the requested rate
4294967295 (which a tty with `BOTHER` can carry) is the rate -1 in
`ti_set_termios`.  On a 3410 the divisor computed is -923077, sent as 59963,
whereas (base + r div 2) div r is 0 and the integer nearest to
923077 / 4294967295 is 0: twice the distance of the computed value from the
base is more than r. -/
theorem ti_set_termios_divisor_negative_rate :
    ti_termios_baud { tty_9600_8n1 with baud := 4294967295 } = -1 ∧
    ti_baud_divisor true (ti_termios_baud { tty_9600_8n1 with baud := 4294967295 })
      = -923077 ∧
    (ti_termios_config (probed_port 0).tport true
      { tty_9600_8n1 with baud := 4294967295 }).wBaudRate = 59963 ∧
    (ti_baud_base true + 4294967295 / 2) / 4294967295 = 0 ∧
    round_div (ti_baud_base true) 4294967295 = 0 ∧
    ¬ (2 * |ti_baud_divisor true (ti_termios_baud { tty_9600_8n1 with baud := 4294967295 })
              * 4294967295 - (ti_baud_base true : Int)| ≤ 4294967295) := by
  decide

/-- C13, amended. For both hardware families and every requested rate r with
1 <= r < 2^31 (the rates that are positive in the C `int` the driver keeps them
in) the divisor that `ti_set_termios` computes, q = (base + r div 2) div r with
base 923077 on the 3410 family and 461538 on the 5052 family, is the integer
nearest to base / r: 2 * |q * r - base| <= r, an exact half being rounded up,
that is q = round(base / r).  A requested rate of 0 is replaced by 9600 before
the computation, the 16-bit field `wBaudRate` receives q of the rate so
obtained, cut to 16 bits, and a rate of 9600 on a 3410-family device gives
`wBaudRate` = 96. -/
theorem ti_set_termios_divisor_nearest (tport : ti_port) (td_is_3410 : Bool)
    (tty : ktermios) :
    ti_baud_base true = 923077 ∧ ti_baud_base false = 461538 ∧
    (∀ r : Nat, 1 ≤ r → r < 2147483648 →
      ti_termios_baud { tty with baud := r } = (r : Int) ∧
      ti_baud_divisor td_is_3410 (ti_termios_baud { tty with baud := r })
        = (((ti_baud_base td_is_3410 + r / 2) / r : Nat) : Int) ∧
      2 * |ti_baud_divisor td_is_3410 (ti_termios_baud { tty with baud := r }) * (r : Int)
            - (ti_baud_base td_is_3410 : Int)| ≤ (r : Int) ∧
      2 * (ti_baud_base td_is_3410 : Int)
        < 2 * (ti_baud_divisor td_is_3410 (ti_termios_baud { tty with baud := r }) * (r : Int))
          + (r : Int) ∧
      ti_baud_divisor td_is_3410 (ti_termios_baud { tty with baud := r })
        = ((round_div (ti_baud_base td_is_3410) r : Nat) : Int)) ∧
    (tty.baud = 0 → ti_termios_baud tty = 9600) ∧
    (ti_termios_config tport td_is_3410 tty).wBaudRate
      = (ti_baud_divisor td_is_3410 (ti_termios_baud tty) % 65536).toNat ∧
    (td_is_3410 = true → tty.baud = 9600 →
      (ti_termios_config tport td_is_3410 tty).wBaudRate = 96) := by
  refine ⟨rfl, rfl, fun r hr hr2 => ?_, fun h => ?_,
    ti_termios_config_wBaudRate tport td_is_3410 tty, fun h3 h9 => ?_⟩
  · obtain ⟨h1, h2⟩ := div_half_nearest (ti_baud_base td_is_3410) r hr
    have hb : ti_termios_baud { tty with baud := r } = (r : Int) :=
      ti_termios_baud_small _ hr hr2
    rw [hb, ti_baud_divisor_eq, div_half_eq_round_div _ _ hr]
    rw [div_half_eq_round_div _ _ hr] at h1 h2
    have h1' : 2 * (((round_div (ti_baud_base td_is_3410) r : Nat) : Int) * (r : Int))
        ≤ 2 * (ti_baud_base td_is_3410 : Int) + (r : Int) := by exact_mod_cast h1
    have h2' : 2 * (ti_baud_base td_is_3410 : Int)
        < 2 * (((round_div (ti_baud_base td_is_3410) r : Nat) : Int) * (r : Int))
          + (r : Int) := by exact_mod_cast h2
    refine ⟨rfl, rfl, ?_, h2', rfl⟩
    rcases abs_cases ((((round_div (ti_baud_base td_is_3410) r : Nat) : Int)) * (r : Int)
      - (ti_baud_base td_is_3410 : Int)) with ⟨h, _⟩ | ⟨h, _⟩ <;> rw [h] <;> omega
  · simp [ti_termios_baud, int_of_unsigned, h]
  · subst h3
    rw [ti_termios_config_wBaudRate, ti_termios_baud_small tty (by omega) (by omega), h9]
    decide

/-- C13, amended, at 9600 baud on a 3410 and on a 5052 and at the rate 0. -/
theorem ti_set_termios_divisor_nearest_witness :
    (ti_termios_config (probed_port 0).tport true tty_9600_8n1).wBaudRate = 96 ∧
    ti_termios_baud tty_hangup_crtscts = 9600 ∧
    ti_baud_divisor false (ti_termios_baud { tty_hangup_crtscts with baud := 9600 })
      = ((round_div (ti_baud_base false) 9600 : Nat) : Int) :=
  ⟨(ti_set_termios_divisor_nearest (probed_port 0).tport true tty_9600_8n1).2.2.2.2.2 rfl rfl,
   (ti_set_termios_divisor_nearest (probed_port 0).tport false tty_hangup_crtscts).2.2.2.1 rfl,
   ((ti_set_termios_divisor_nearest (probed_port 0).tport false tty_hangup_crtscts).2.2.1
      9600 (by decide) (by decide)).2.2.2.2⟩

theorem ti_uart_config_bytes_baud (c : ti_uart_config) (h : c.wBaudRate < 65536) :
    (ti_uart_config_bytes c).getD 0 0 * 256 + (ti_uart_config_bytes c).getD 1 0
      = c.wBaudRate := by
  simp only [ti_uart_config_bytes, List.getD_cons_zero, List.getD_cons_succ]
  omega

theorem ti_termios_config_wBaudRate_small (tport : ti_port) (td_is_3410 : Bool)
    (tty : ktermios) (h1 : 1 ≤ tty.baud) (h2 : tty.baud < 2147483648) :
    (ti_termios_config tport td_is_3410 tty).wBaudRate
      = ((ti_baud_base td_is_3410 + tty.baud / 2) / tty.baud) % 65536 := by
  rw [ti_termios_config_wBaudRate, ti_termios_baud_small tty h1 h2, ti_baud_divisor_eq]
  have : (((ti_baud_base td_is_3410 + tty.baud / 2) / tty.baud : Nat) : Int) % 65536
      = ((((ti_baud_base td_is_3410 + tty.baud / 2) / tty.baud) % 65536 : Nat) : Int) := by
    push_cast
    rfl
  rw [this, Int.toNat_natCast]

/-- C20, as stated, fails: on a 5052 the requested rate 4294957696 (2^32 - 9600)
is the rate -9600 in the C `int` of `ti_set_termios`; the divisor computed is
-47 and `wBaudRate` is sent as 65489, which is neither
((base + r div 2) div r) mod 65536 = 0 nor the rounded quotient 0, although
r >= 8. -/
theorem ti_set_termios_divisor_16bit_negative_rate :
    ti_termios_baud { tty_9600_8n1 with baud := 4294957696 } = -9600 ∧
    ti_baud_divisor false (ti_termios_baud { tty_9600_8n1 with baud := 4294957696 }) = -47 ∧
    (ti_termios_config (probed_port 1).tport false
      { tty_9600_8n1 with baud := 4294957696 }).wBaudRate = 65489 ∧
    ((ti_baud_base false + 4294957696 / 2) / 4294957696) % 65536 = 0 ∧
    round_div 461538 4294957696 = 0 ∧
    (ti_termios_config (probed_port 1).tport false
      { tty_9600_8n1 with baud := 4294957696 }).wBaudRate
      ≠ ((ti_baud_base false + 4294957696 / 2) / 4294957696) % 65536 ∧
    (ti_termios_config (probed_port 1).tport false
      { tty_9600_8n1 with baud := 4294957696 }).wBaudRate ≠ round_div 461538 4294957696 := by
  decide

/-- C20, amended. The baud divisor is stored in a 16-bit field: for every
requested rate r with 1 <= r < 2^31 (the rates that are positive in the C `int`
the driver keeps them in) the `wBaudRate` that `ti_set_termios` transmits (bytes
0 and 1 of the record, most significant first) is
((base + r div 2) div r) mod 65536.  It equals the rounded quotient
round(base / r) for every such r >= 15 on the 3410 family (base 923077) and
every such r >= 8 on the 5052 family (base 461538), and differs from it for
every r with 1 <= r <= 14 on the 3410 family and 1 <= r <= 7 on the 5052
family. -/
theorem ti_set_termios_divisor_16bit (tport : ti_port) (td_is_3410 : Bool) (tty : ktermios)
    (hr : 1 ≤ tty.baud) (hr2 : tty.baud < 2147483648) :
    (ti_termios_config tport td_is_3410 tty).wBaudRate
      = ((ti_baud_base td_is_3410 + tty.baud / 2) / tty.baud) % 65536 ∧
    (ti_uart_config_bytes (ti_termios_config tport td_is_3410 tty)).getD 0 0 * 256
        + (ti_uart_config_bytes (ti_termios_config tport td_is_3410 tty)).getD 1 0
      = (ti_termios_config tport td_is_3410 tty).wBaudRate ∧
    (td_is_3410 = true → 15 ≤ tty.baud →
      (ti_termios_config tport td_is_3410 tty).wBaudRate = round_div 923077 tty.baud) ∧
    (td_is_3410 = true → tty.baud ≤ 14 →
      (ti_termios_config tport td_is_3410 tty).wBaudRate ≠ round_div 923077 tty.baud) ∧
    (td_is_3410 = false → 8 ≤ tty.baud →
      (ti_termios_config tport td_is_3410 tty).wBaudRate = round_div 461538 tty.baud) ∧
    (td_is_3410 = false → tty.baud ≤ 7 →
      (ti_termios_config tport td_is_3410 tty).wBaudRate ≠ round_div 461538 tty.baud) := by
  have hw := ti_termios_config_wBaudRate_small tport td_is_3410 tty hr hr2
  have hlt := ti_termios_config_wBaudRate_lt tport td_is_3410 tty
  refine ⟨hw, ti_uart_config_bytes_baud _ hlt, ?_, ?_, ?_, ?_⟩
  · intro h3 h
    subst h3
    rw [hw, ← div_half_eq_round_div _ _ hr]
    apply Nat.mod_eq_of_lt
    rw [Nat.div_lt_iff_lt_mul (by omega)]
    simp only [ti_baud_base, TI_3410_BAUD_BASE, if_true]
    omega
  · intro h3 h
    subst h3
    rw [hw, ← div_half_eq_round_div _ _ hr]
    have hge : 65536 ≤ (ti_baud_base true + tty.baud / 2) / tty.baud := by
      rw [Nat.le_div_iff_mul_le (by omega)]
      simp only [ti_baud_base, TI_3410_BAUD_BASE, if_true]
      omega
    have := Nat.mod_lt ((ti_baud_base true + tty.baud / 2) / tty.baud)
      (show 0 < 65536 by decide)
    simp only [ti_baud_base, TI_3410_BAUD_BASE, if_true] at this hge ⊢
    omega
  · intro h3 h
    subst h3
    rw [hw, ← div_half_eq_round_div _ _ hr]
    apply Nat.mod_eq_of_lt
    rw [Nat.div_lt_iff_lt_mul (by omega)]
    simp only [ti_baud_base, TI_5052_BAUD_BASE]
    simp
    omega
  · intro h3 h
    subst h3
    rw [hw, ← div_half_eq_round_div _ _ hr]
    have hge : 65536 ≤ (ti_baud_base false + tty.baud / 2) / tty.baud := by
      rw [Nat.le_div_iff_mul_le (by omega)]
      simp only [ti_baud_base, TI_5052_BAUD_BASE]
      simp
      omega
    have := Nat.mod_lt ((ti_baud_base false + tty.baud / 2) / tty.baud)
      (show 0 < 65536 by decide)
    simp only [ti_baud_base, TI_5052_BAUD_BASE] at this hge ⊢
    simp at this hge ⊢
    omega

/-- C20, amended, at the rates 14 and 15 on a 3410: the divisor of 14 is 65934
and is sent as 398, the divisor of 15 is 61538 and is sent as it is. -/
theorem ti_set_termios_divisor_16bit_witness :
    round_div 923077 14 = 65934 ∧
    (ti_termios_config (probed_port 0).tport true { tty_9600_8n1 with baud := 14 }).wBaudRate
      = 398 ∧
    round_div 923077 15 = 61538 ∧
    (ti_termios_config (probed_port 0).tport true { tty_9600_8n1 with baud := 15 }).wBaudRate
      = round_div 923077 15 :=
  ⟨by decide, by decide, by decide,
   (ti_set_termios_divisor_16bit (probed_port 0).tport true { tty_9600_8n1 with baud := 15 }
      (by decide) (by decide)).2.2.1 rfl (by decide)⟩

/-! ## Configuration record -/

/-- C15. For every line setting, the data-bits code in the configuration that
`ti_set_termios` builds (and sends as byte 4 of the record) is 0x00 for CS5,
0x01 for CS6, 0x02 for CS7 and 0x03 for CS8, and it is the 8-bit code 0x03 for
any other character-size value. -/
theorem ti_set_termios_data_bits (tport : ti_port) (td_is_3410 : Bool) (tty : ktermios) :
    (tty.c_cflag &&& CSIZE = CS5 →
      (ti_termios_config tport td_is_3410 tty).bDataBits = 0x00) ∧
    (tty.c_cflag &&& CSIZE = CS6 →
      (ti_termios_config tport td_is_3410 tty).bDataBits = 0x01) ∧
    (tty.c_cflag &&& CSIZE = CS7 →
      (ti_termios_config tport td_is_3410 tty).bDataBits = 0x02) ∧
    (tty.c_cflag &&& CSIZE = CS8 →
      (ti_termios_config tport td_is_3410 tty).bDataBits = 0x03) ∧
    (tty.c_cflag &&& CSIZE ≠ CS5 → tty.c_cflag &&& CSIZE ≠ CS6 → tty.c_cflag &&& CSIZE ≠ CS7 →
      (ti_termios_config tport td_is_3410 tty).bDataBits = 0x03) ∧
    (ti_uart_config_bytes (ti_termios_config tport td_is_3410 tty)).getD 4 0
      = (ti_termios_config tport td_is_3410 tty).bDataBits := by
  refine ⟨fun h => ?_, fun h => ?_, fun h => ?_, fun h => ?_, fun h5 h6 h7 => ?_, rfl⟩
  · simp [ti_termios_config, h, TI_UART_5_DATA_BITS]
  · simp [ti_termios_config, h, CS5, CS6, TI_UART_6_DATA_BITS]
  · simp [ti_termios_config, h, CS5, CS6, CS7, TI_UART_7_DATA_BITS]
  · simp [ti_termios_config, h, CS5, CS6, CS7, CS8, TI_UART_8_DATA_BITS]
  · simp [ti_termios_config, h5, h6, h7, TI_UART_8_DATA_BITS]

/-- C15, at the four character sizes. -/
theorem ti_set_termios_data_bits_witness :
    (ti_termios_config (probed_port 0).tport true { tty_9600_8n1 with c_cflag := 0o6215 }).bDataBits
      = 0 ∧
    (ti_termios_config (probed_port 0).tport true { tty_9600_8n1 with c_cflag := 0o6235 }).bDataBits
      = 1 ∧
    (ti_termios_config (probed_port 0).tport true { tty_9600_8n1 with c_cflag := 0o6255 }).bDataBits
      = 2 ∧
    (ti_termios_config (probed_port 0).tport true tty_9600_8n1).bDataBits = 3 :=
  ⟨(ti_set_termios_data_bits _ true { tty_9600_8n1 with c_cflag := 0o6215 }).1 (by decide),
   (ti_set_termios_data_bits _ true { tty_9600_8n1 with c_cflag := 0o6235 }).2.1 (by decide),
   (ti_set_termios_data_bits _ true { tty_9600_8n1 with c_cflag := 0o6255 }).2.2.1 (by decide),
   (ti_set_termios_data_bits _ true tty_9600_8n1).2.2.2.1 (by decide)⟩

theorem config_records_append (a b : List Event) :
    config_records (a ++ b) = config_records a ++ config_records b := by
  simp [config_records]

@[simp] theorem ti_send_ctrl_data_urb_port (s : usb_serial) (a b c : Nat) (d : List Nat)
    (ret : Int) : (ti_send_ctrl_data_urb s a b c d ret).1.port = s.port := by
  unfold ti_send_ctrl_data_urb
  simp only []
  split_ifs <;> rfl

/-- What one control transfer adds to the trace: the transfer, then at most one
error message. -/
theorem ti_send_ctrl_data_urb_trace (s : usb_serial) (a b c : Nat) (d : List Nat) (ret : Int) :
    ∃ msgs : List String, (ti_send_ctrl_data_urb s a b c d ret).1.trace
        = s.trace ++ Event.control_msg a b c d ret :: msgs.map Event.dev_err := by
  unfold ti_send_ctrl_data_urb
  simp only []
  split_ifs
  · exact ⟨["usb_control_msg failed"], by simp⟩
  · exact ⟨["short write"], by simp⟩
  · exact ⟨[], by simp⟩

theorem config_records_errors (msgs : List String) :
    config_records (msgs.map Event.dev_err) = [] := by
  induction msgs with
  | nil => rfl
  | cons a l ih => simp [config_records]

theorem config_records_dev_err_if (s : usb_serial) (c : Bool) (msg : String) :
    config_records (dev_err_if s c msg).trace = config_records s.trace := by
  cases c <;> simp [dev_err_if, config_records]

theorem config_records_ctrl (s : usb_serial) (a b c : Nat) (d : List Nat) (ret : Int) :
    config_records (ti_send_ctrl_data_urb s a b c d ret).1.trace
      = config_records s.trace ++ (if a = TI_SET_CONFIG then [d] else []) := by
  obtain ⟨msgs, h⟩ := ti_send_ctrl_data_urb_trace s a b c d ret
  rw [h, config_records_append]
  have : config_records (Event.control_msg a b c d ret :: msgs.map Event.dev_err)
      = (if a = TI_SET_CONFIG then [d] else []) := by
    have h2 := config_records_errors msgs
    unfold config_records at h2 ⊢
    rw [List.filterMap_cons]
    split_ifs <;> simp_all
  rw [this]

theorem config_records_set_mcr (s : usb_serial) (p mcr : Nat) (alloc : Bool) (ret : Int) :
    config_records (ti_set_mcr s p mcr alloc ret).1.trace = config_records s.trace := by
  have hw : ∀ addr mask byte, config_records (ti_write_byte s addr mask byte alloc ret).1.trace
      = config_records s.trace := by
    intro addr mask byte
    unfold ti_write_byte
    cases alloc
    · rfl
    · simp only [Bool.not_true, Bool.false_eq_true, if_false]
      rw [config_records_dev_err_if, config_records_ctrl]
      simp [TI_WRITE_DATA, TI_SET_CONFIG]
  unfold ti_set_mcr
  simp only []
  split_ifs
  · exact hw _ _ _
  · exact hw _ _ _

/-- The set-config transfers of one `ti_set_termios` whose `config` block was
allocated: exactly one, carrying the record built from the line settings. -/
theorem ti_set_termios_config_records (s : usb_serial) (p : Nat) (tty : ktermios)
    (e : termios_env) (ha : e.config_alloc = true) :
    config_records (ti_set_termios s p tty e).1.trace
      = config_records s.trace ++
          [ti_uart_config_bytes (ti_termios_config (get_tport s p) s.tdev.td_is_3410 tty)] := by
  unfold ti_set_termios
  simp only [ha, Bool.not_true, Bool.false_eq_true, if_false]
  rw [config_records_dev_err_if, config_records_set_mcr, config_records_dev_err_if,
    config_records_ctrl]
  simp

theorem ti_termios_config_wFlags_lt (tport : ti_port) (td_is_3410 : Bool) (tty : ktermios) :
    (ti_termios_config tport td_is_3410 tty).wFlags < 65536 := by
  simp only [ti_termios_config]
  split_ifs <;> decide

theorem ti_uart_config_bytes_flags (c : ti_uart_config) (h : c.wFlags < 65536) :
    (ti_uart_config_bytes c).getD 2 0 * 256 + (ti_uart_config_bytes c).getD 3 0
      = c.wFlags := by
  simp only [ti_uart_config_bytes, List.getD_cons_zero, List.getD_cons_succ]
  omega

/-- C16, as stated, fails: the record sent for 9600 baud, 8 data bits, no parity
on a 3410 is the 10 bytes 00 60 60 00 03 00 00 00 00 00, not 9 bytes. -/
theorem ti_set_termios_record_not_9_bytes :
    config_records (ti_set_termios fresh_3410 0 tty_9600_8n1 termios_ok).1.trace
      = [[0x00, 0x60, 0x60, 0x00, 0x03, 0x00, 0x00, 0x00, 0x00, 0x00]] ∧
    ¬ (∀ d ∈ config_records (ti_set_termios fresh_3410 0 tty_9600_8n1 termios_ok).1.trace,
        d.length = 9) := by
  decide

/-- C16, amended. The configuration record that `ti_set_termios` sends with the
set-config command (one per call, when its block is allocated) is exactly 10
bytes long: the baud divisor in bytes 0-1 and the flags word in bytes 2-3, each
most-significant byte first, followed by one byte each for data bits, parity,
stop bits, xon character, xoff character and uart mode, with no padding. -/
theorem ti_set_termios_record_layout (s : usb_serial) (p : Nat) (tty : ktermios)
    (e : termios_env) (ha : e.config_alloc = true) :
    config_records (ti_set_termios s p tty e).1.trace
      = config_records s.trace ++
          [ti_uart_config_bytes (ti_termios_config (get_tport s p) s.tdev.td_is_3410 tty)] ∧
    (ti_uart_config_bytes
      (ti_termios_config (get_tport s p) s.tdev.td_is_3410 tty)).length = 10 ∧
    (ti_uart_config_bytes (ti_termios_config (get_tport s p) s.tdev.td_is_3410 tty)).getD 0 0
        * 256
      + (ti_uart_config_bytes (ti_termios_config (get_tport s p) s.tdev.td_is_3410 tty)).getD 1 0
      = (ti_termios_config (get_tport s p) s.tdev.td_is_3410 tty).wBaudRate ∧
    (ti_uart_config_bytes (ti_termios_config (get_tport s p) s.tdev.td_is_3410 tty)).getD 2 0
        * 256
      + (ti_uart_config_bytes (ti_termios_config (get_tport s p) s.tdev.td_is_3410 tty)).getD 3 0
      = (ti_termios_config (get_tport s p) s.tdev.td_is_3410 tty).wFlags ∧
    (ti_uart_config_bytes (ti_termios_config (get_tport s p) s.tdev.td_is_3410 tty)).drop 4
      = [(ti_termios_config (get_tport s p) s.tdev.td_is_3410 tty).bDataBits,
         (ti_termios_config (get_tport s p) s.tdev.td_is_3410 tty).bParity,
         (ti_termios_config (get_tport s p) s.tdev.td_is_3410 tty).bStopBits,
         (ti_termios_config (get_tport s p) s.tdev.td_is_3410 tty).cXon,
         (ti_termios_config (get_tport s p) s.tdev.td_is_3410 tty).cXoff,
         (ti_termios_config (get_tport s p) s.tdev.td_is_3410 tty).bUartMode] := by
  refine ⟨ti_set_termios_config_records s p tty e ha, rfl, ?_, ?_, rfl⟩
  · exact ti_uart_config_bytes_baud _ (ti_termios_config_wBaudRate_lt _ _ _)
  · exact ti_uart_config_bytes_flags _ (ti_termios_config_wFlags_lt _ _ _)

/-- C16, amended, for 9600 baud, 8 data bits, no parity on a 3410. -/
theorem ti_set_termios_record_layout_witness :
    config_records (ti_set_termios fresh_3410 0 tty_9600_8n1 termios_ok).1.trace
      = config_records fresh_3410.trace ++
          [ti_uart_config_bytes
            (ti_termios_config (get_tport fresh_3410 0) fresh_3410.tdev.td_is_3410
              tty_9600_8n1)] :=
  (ti_set_termios_record_layout fresh_3410 0 tty_9600_8n1 termios_ok rfl).1

/-! ## Modem-control shadow -/

theorem update_port_getD (l : List usb_serial_port) (f : usb_serial_port → usb_serial_port)
    (d : usb_serial_port) : ∀ p, p < l.length → (update_port l p f).getD p d = f (l.getD p d) := by
  induction l with
  | nil => intro p hp; simp at hp
  | cons x xs ih =>
    intro p hp
    cases p with
    | zero => simp [update_port]
    | succ p =>
      simp only [update_port, List.getD_cons_succ]
      exact ih p (by simpa using hp)

theorem get_tport_set_tport (s : usb_serial) (p : Nat) (f : ti_port → ti_port)
    (hp : p < s.port.length) : get_tport (set_tport s p f) p = f (get_tport s p) := by
  simp only [get_tport, set_tport]
  rw [update_port_getD _ _ _ p hp]

theorem ti_write_byte_port (s : usb_serial) (addr mask byte : Nat) (alloc : Bool) (ret : Int) :
    (ti_write_byte s addr mask byte alloc ret).1.port = s.port := by
  unfold ti_write_byte
  cases alloc <;> simp

/-- The status `ti_write_byte`, and with it `ti_set_mcr`, returns: 0 exactly when
the record was allocated and the control transfer moved all 9 bytes. -/
theorem ti_write_byte_status (s : usb_serial) (addr mask byte : Nat) (alloc : Bool)
    (ret : Int) :
    (ti_write_byte s addr mask byte alloc ret).2
      = (if alloc = false then -ENOMEM else if ret < 0 then ret
          else if ret ≠ 9 then - EIO else 0) := by
  unfold ti_write_byte ti_send_ctrl_data_urb
  cases alloc
  · rfl
  · simp only [Bool.not_true, Bool.false_eq_true, if_false, List.length_cons, List.length_nil]
    split_ifs <;> simp_all

theorem ti_set_mcr_status (s : usb_serial) (p mcr : Nat) (alloc : Bool) (ret : Int) :
    (ti_set_mcr s p mcr alloc ret).2
      = (if alloc = false then -ENOMEM else if ret < 0 then ret
          else if ret ≠ 9 then - EIO else 0) := by
  have h : (ti_set_mcr s p mcr alloc ret).2
      = (ti_write_byte s ((get_tport s p).tp_uart_base_addr + TI_UART_OFFSET_MCR)
          (TI_MCR_RTS ||| TI_MCR_DTR ||| TI_MCR_LOOP) mcr alloc ret).2 := by
    unfold ti_set_mcr
    simp only []
    split_ifs <;> rfl
  rw [h, ti_write_byte_status]

/-- The cached bytes after `ti_set_mcr`: on success the shadow is the byte
written and the modem status is kept, on failure the ports are as before. -/
theorem ti_set_mcr_shadow (s : usb_serial) (p mcr : Nat) (alloc : Bool) (ret : Int)
    (hp : p < s.port.length) :
    ((ti_set_mcr s p mcr alloc ret).2 = 0 →
      get_tport (ti_set_mcr s p mcr alloc ret).1 p
        = { get_tport s p with tp_shadow_mcr := mcr % 256 }) ∧
    ((ti_set_mcr s p mcr alloc ret).2 ≠ 0 → (ti_set_mcr s p mcr alloc ret).1.port = s.port) := by
  unfold ti_set_mcr
  simp only []
  split_ifs with h
  · refine ⟨fun _ => ?_, fun h2 => absurd h h2⟩
    have hp2 : p < (ti_write_byte s ((get_tport s p).tp_uart_base_addr + TI_UART_OFFSET_MCR)
        (TI_MCR_RTS ||| TI_MCR_DTR ||| TI_MCR_LOOP) mcr alloc ret).1.port.length := by
      rw [ti_write_byte_port]; exact hp
    rw [get_tport_set_tport _ _ _ hp2]
    simp [get_tport, ti_write_byte_port]
  · exact ⟨fun h2 => absurd h2 h, fun _ => ti_write_byte_port _ _ _ _ _ _⟩

set_option maxRecDepth 100000 in
theorem and_not_rts_dtr_byte : ∀ s : Nat, s < 256 →
    ((s &&& (0xFFFFFFFF ^^^ (TI_MCR_DTR ||| TI_MCR_RTS))) % 256) &&& (TI_MCR_RTS ||| TI_MCR_DTR) = 0 ∧
    ((s &&& (0xFFFFFFFF ^^^ (TI_MCR_DTR ||| TI_MCR_RTS))) % 256)
      ||| (s &&& (TI_MCR_RTS ||| TI_MCR_DTR)) = s := by
  decide

theorem ti_termios_config_hangup_flags (tport : ti_port) (td_is_3410 : Bool) (tty : ktermios)
    (hflow : tty.c_cflag &&& CRTSCTS ≠ 0) (hb0 : tty.c_cflag &&& CBAUD = B0) :
    (ti_termios_config tport td_is_3410 tty).wFlags &&& TI_UART_ENABLE_RTS_IN = 0 ∧
    (ti_termios_config tport td_is_3410 tty).wFlags &&& TI_UART_ENABLE_CTS_OUT
      = TI_UART_ENABLE_CTS_OUT := by
  simp only [ti_termios_config, hflow, hb0, ne_eq, not_true_eq_false, not_false_eq_true, if_true,
    if_false]
  split_ifs <;> decide

/-- The state `ti_set_termios` hands to `ti_set_mcr` has the ports of the state
it was called in. -/
theorem ti_set_termios_shadow (s : usb_serial) (p : Nat) (tty : ktermios) (e : termios_env)
    (hp : p < s.port.length) (ha : e.config_alloc = true) (hm : e.mcr_alloc = true)
    (hr : e.mcr_ret = 9) :
    get_tport (ti_set_termios s p tty e).1 p
      = { get_tport s p with
          tp_shadow_mcr :=
            (if tty.c_cflag &&& CBAUD = B0 then
              (get_tport s p).tp_shadow_mcr &&& (0xFFFFFFFF ^^^ (TI_MCR_DTR ||| TI_MCR_RTS))
             else (get_tport s p).tp_shadow_mcr) % 256 } := by
  unfold ti_set_termios
  simp only [ha, Bool.not_true, Bool.false_eq_true, if_false]
  have h1 : ∀ c msg, get_tport (dev_err_if (ti_send_ctrl_data_urb s TI_SET_CONFIG 0
      (TI_UART1_PORT + p)
      (ti_uart_config_bytes (ti_termios_config (get_tport s p) s.tdev.td_is_3410 tty))
      e.set_config_ret).1 c msg) p = get_tport s p := by
    intro c msg
    simp [get_tport]
  have hp1 : ∀ c msg, p < (dev_err_if (ti_send_ctrl_data_urb s TI_SET_CONFIG 0
      (TI_UART1_PORT + p)
      (ti_uart_config_bytes (ti_termios_config (get_tport s p) s.tdev.td_is_3410 tty))
      e.set_config_ret).1 c msg).port.length := by
    intro c msg
    simpa using hp
  generalize hs1 : dev_err_if (ti_send_ctrl_data_urb s TI_SET_CONFIG 0 (TI_UART1_PORT + p)
      (ti_uart_config_bytes (ti_termios_config (get_tport s p) s.tdev.td_is_3410 tty))
      e.set_config_ret).1 _ "cannot set config" = s1
  have h1' : get_tport s1 p = get_tport s p := by rw [← hs1]; exact h1 _ _
  have hp1' : p < s1.port.length := by rw [← hs1]; exact hp1 _ _
  rw [h1']
  generalize hmcr : (if tty.c_cflag &&& CBAUD = B0 then
      (get_tport s p).tp_shadow_mcr &&& (0xFFFFFFFF ^^^ (TI_MCR_DTR ||| TI_MCR_RTS))
    else (get_tport s p).tp_shadow_mcr) = mcr
  have hst : (ti_set_mcr s1 p mcr e.mcr_alloc e.mcr_ret).2 = 0 := by
    rw [ti_set_mcr_status, hm, hr]
    simp
  have := (ti_set_mcr_shadow s1 p mcr e.mcr_alloc e.mcr_ret hp1').1 hst
  simp only [get_tport, dev_err_if_port] at this ⊢
  rw [this]
  simp only [get_tport] at h1'
  rw [h1']

/-- C14. For every line setting in which hardware flow control (CRTSCTS) is
enabled and the requested rate is the hang-up rate B0, and for every prior byte
value of the modem-control shadow, the configuration `ti_set_termios` sends has
the RTS-follows-input flag (0x0001) clear and the CTS-gates-output flag (0x0020)
set, and once the following modem-control write has been sent successfully
(whatever became of the configuration) the shadow equals the prior value with
both the RTS (0x20) and DTR (0x10) bits cleared and every other bit unchanged. -/
theorem ti_set_termios_hangup (s : usb_serial) (p : Nat) (tty : ktermios) (e : termios_env)
    (hp : p < s.port.length) (hs : (get_tport s p).tp_shadow_mcr < 256)
    (hflow : tty.c_cflag &&& CRTSCTS ≠ 0) (hb0 : tty.c_cflag &&& CBAUD = B0)
    (ha : e.config_alloc = true) :
    (ti_termios_config (get_tport s p) s.tdev.td_is_3410 tty).wFlags &&& 0x0001 = 0 ∧
    (ti_termios_config (get_tport s p) s.tdev.td_is_3410 tty).wFlags &&& 0x0020 = 0x0020 ∧
    config_records (ti_set_termios s p tty e).1.trace
      = config_records s.trace ++
          [ti_uart_config_bytes (ti_termios_config (get_tport s p) s.tdev.td_is_3410 tty)] ∧
    (ti_uart_config_bytes (ti_termios_config (get_tport s p) s.tdev.td_is_3410 tty)).getD 2 0
        * 256
      + (ti_uart_config_bytes (ti_termios_config (get_tport s p) s.tdev.td_is_3410 tty)).getD 3 0
      = (ti_termios_config (get_tport s p) s.tdev.td_is_3410 tty).wFlags ∧
    (e.mcr_alloc = true → e.mcr_ret = 9 →
      (get_tport (ti_set_termios s p tty e).1 p).tp_shadow_mcr &&& (0x20 ||| 0x10) = 0 ∧
      (get_tport (ti_set_termios s p tty e).1 p).tp_shadow_mcr
          ||| ((get_tport s p).tp_shadow_mcr &&& (0x20 ||| 0x10))
        = (get_tport s p).tp_shadow_mcr) := by
  obtain ⟨hf1, hf2⟩ := ti_termios_config_hangup_flags (get_tport s p) s.tdev.td_is_3410 tty
    hflow hb0
  refine ⟨hf1, hf2, ti_set_termios_config_records s p tty e ha,
    ti_uart_config_bytes_flags _ (ti_termios_config_wFlags_lt _ _ _), fun hm hr => ?_⟩
  rw [ti_set_termios_shadow s p tty e hp ha hm hr]
  simp only [hb0, if_true]
  exact and_not_rts_dtr_byte _ hs

/-- C14, on a port of a 3410 whose shadow has RTS, DTR and LOOP set (0x34), with
every call succeeding: the flags sent have bit 0x0001 clear and bit 0x0020 set,
and the shadow afterwards has RTS and DTR clear and is 0x04. -/
theorem ti_set_termios_hangup_witness :
    ((ti_termios_config
        (get_tport (set_tport fresh_3410 0 (fun t => { t with tp_shadow_mcr := 0x34 })) 0)
        (set_tport fresh_3410 0 (fun t => { t with tp_shadow_mcr := 0x34 })).tdev.td_is_3410
        tty_hangup_crtscts).wFlags &&& 0x0001 = 0 ∧
     (ti_termios_config
        (get_tport (set_tport fresh_3410 0 (fun t => { t with tp_shadow_mcr := 0x34 })) 0)
        (set_tport fresh_3410 0 (fun t => { t with tp_shadow_mcr := 0x34 })).tdev.td_is_3410
        tty_hangup_crtscts).wFlags &&& 0x0020 = 0x0020) ∧
    (get_tport (ti_set_termios
        (set_tport fresh_3410 0 (fun t => { t with tp_shadow_mcr := 0x34 }))
        0 tty_hangup_crtscts termios_ok).1 0).tp_shadow_mcr &&& (0x20 ||| 0x10) = 0 ∧
    (get_tport (ti_set_termios
        (set_tport fresh_3410 0 (fun t => { t with tp_shadow_mcr := 0x34 }))
        0 tty_hangup_crtscts termios_ok).1 0).tp_shadow_mcr = 0x04 :=
  have h := ti_set_termios_hangup
    (set_tport fresh_3410 0 (fun t => { t with tp_shadow_mcr := 0x34 }))
    0 tty_hangup_crtscts termios_ok (by decide) (by decide) (by decide) (by decide) rfl
  ⟨⟨h.1, h.2.1⟩, (h.2.2.2.2 rfl rfl).1, by decide⟩

/-! ## Modem-control requests -/

set_option maxRecDepth 1000000 in
theorem ti_tiocmset_steps_eq : ∀ (sr sd sl cr cd cl : Bool) (s : Nat), s < 256 →
    ti_tiocmset_steps sr sd sl cr cd cl s
      = (s ||| mcr_lines sr sd sl) &&& (0xFF ^^^ mcr_lines cr cd cl) := by
  decide

theorem tiocm_lines_eq (mask : Nat) :
    tiocm_lines mask = mcr_lines (decide (mask &&& TIOCM_RTS ≠ 0))
      (decide (mask &&& TIOCM_DTR ≠ 0)) (decide (mask &&& TIOCM_LOOP ≠ 0)) := by
  simp [tiocm_lines, mcr_lines]

theorem ti_tiocmset_mcr_steps (shadow set clear : Nat) :
    ti_tiocmset_mcr shadow set clear
      = ti_tiocmset_steps (decide (set &&& TIOCM_RTS ≠ 0)) (decide (set &&& TIOCM_DTR ≠ 0))
          (decide (set &&& TIOCM_LOOP ≠ 0)) (decide (clear &&& TIOCM_RTS ≠ 0))
          (decide (clear &&& TIOCM_DTR ≠ 0)) (decide (clear &&& TIOCM_LOOP ≠ 0)) shadow := by
  simp [ti_tiocmset_mcr, ti_tiocmset_steps]

/-- The value `ti_tiocmset` computes is the shadow with the lines named in `set`
turned on and then the lines named in `clear` turned off. -/
theorem ti_tiocmset_mcr_eq (shadow set clear : Nat) (h : shadow < 256) :
    ti_tiocmset_mcr shadow set clear = mcr_set_then_clear shadow set clear := by
  rw [ti_tiocmset_mcr_steps, ti_tiocmset_steps_eq _ _ _ _ _ _ _ h, mcr_set_then_clear,
    tiocm_lines_eq, tiocm_lines_eq]

theorem mcr_set_then_clear_lt (shadow set clear : Nat) :
    mcr_set_then_clear shadow set clear < 256 := by
  unfold mcr_set_then_clear
  have h1 : 0xFF ^^^ tiocm_lines clear < 2 ^ 8 := by
    apply Nat.xor_lt_two_pow (by decide)
    unfold tiocm_lines
    split_ifs <;> decide
  exact lt_of_le_of_lt Nat.and_le_right h1

/-- What `ti_tiocmget` reports of the three modem-control lines is what the
shadow holds. -/
theorem ti_tiocmget_result_lines (msr mcr : Nat) :
    (ti_tiocmget_result msr mcr &&& TIOCM_DTR ≠ 0 ↔ mcr &&& TI_MCR_DTR ≠ 0) ∧
    (ti_tiocmget_result msr mcr &&& TIOCM_RTS ≠ 0 ↔ mcr &&& TI_MCR_RTS ≠ 0) ∧
    (ti_tiocmget_result msr mcr &&& TIOCM_LOOP ≠ 0 ↔ mcr &&& TI_MCR_LOOP ≠ 0) := by
  unfold ti_tiocmget_result
  split_ifs <;> refine ⟨?_, ?_, ?_⟩ <;>
    first
      | exact iff_of_true (by decide) ‹_›
      | exact iff_of_false (by decide) ‹_›

set_option maxRecDepth 1000000 in
theorem mcr_lines_other_bits : ∀ (sr sd sl cr cd cl : Bool) (s : Nat), s < 256 →
    ((s ||| mcr_lines sr sd sl) &&& (0xFF ^^^ mcr_lines cr cd cl)) &&& 0xCB = s &&& 0xCB := by
  decide

theorem mcr_set_then_clear_other_bits (shadow set clear : Nat) (h : shadow < 256) :
    mcr_set_then_clear shadow set clear &&& 0xCB = shadow &&& 0xCB := by
  rw [mcr_set_then_clear, tiocm_lines_eq, tiocm_lines_eq]
  exact mcr_lines_other_bits _ _ _ _ _ _ _ h

theorem write_data_records_append (a b : List Event) :
    write_data_records (a ++ b) = write_data_records a ++ write_data_records b := by
  simp [write_data_records]

theorem write_data_records_errors (msgs : List String) :
    write_data_records (msgs.map Event.dev_err) = [] := by
  induction msgs with
  | nil => rfl
  | cons a l ih => simp [write_data_records]

theorem write_data_records_dev_err_if (s : usb_serial) (c : Bool) (msg : String) :
    write_data_records (dev_err_if s c msg).trace = write_data_records s.trace := by
  cases c <;> simp [dev_err_if, write_data_records]

theorem write_data_records_ctrl (s : usb_serial) (a b c : Nat) (d : List Nat) (ret : Int) :
    write_data_records (ti_send_ctrl_data_urb s a b c d ret).1.trace
      = write_data_records s.trace ++ (if a = TI_WRITE_DATA then [d] else []) := by
  obtain ⟨msgs, h⟩ := ti_send_ctrl_data_urb_trace s a b c d ret
  rw [h, write_data_records_append]
  have : write_data_records (Event.control_msg a b c d ret :: msgs.map Event.dev_err)
      = (if a = TI_WRITE_DATA then [d] else []) := by
    have h2 := write_data_records_errors msgs
    unfold write_data_records at h2 ⊢
    rw [List.filterMap_cons]
    split_ifs <;> simp_all
  rw [this]

/-- The write-data transfer of one `ti_set_mcr` whose record was allocated:
exactly one, to the port's modem-control register, under the mask of the
three lines. -/
theorem ti_set_mcr_write_data (s : usb_serial) (p mcr : Nat) (ret : Int) :
    write_data_records (ti_set_mcr s p mcr true ret).1.trace
      = write_data_records s.trace ++
          [[TI_RW_DATA_ADDR_XDATA, TI_RW_DATA_BYTE, 1,
            (((get_tport s p).tp_uart_base_addr + TI_UART_OFFSET_MCR) >>> 16) % 65536 / 256,
            (((get_tport s p).tp_uart_base_addr + TI_UART_OFFSET_MCR) >>> 16) % 65536 % 256,
            ((get_tport s p).tp_uart_base_addr + TI_UART_OFFSET_MCR) % 65536 / 256,
            ((get_tport s p).tp_uart_base_addr + TI_UART_OFFSET_MCR) % 65536 % 256,
            0x34, mcr % 256]] := by
  have hw : ∀ addr mask byte, write_data_records (ti_write_byte s addr mask byte true ret).1.trace
      = write_data_records s.trace ++
          [[TI_RW_DATA_ADDR_XDATA, TI_RW_DATA_BYTE, 1, (addr >>> 16) % 65536 / 256,
            (addr >>> 16) % 65536 % 256, addr % 65536 / 256, addr % 65536 % 256,
            mask % 256, byte % 256]] := by
    intro addr mask byte
    unfold ti_write_byte
    simp only [Bool.not_true, Bool.false_eq_true, if_false]
    rw [write_data_records_dev_err_if, write_data_records_ctrl]
    simp
  have hm : (TI_MCR_RTS ||| TI_MCR_DTR ||| TI_MCR_LOOP) % 256 = 0x34 := by decide
  unfold ti_set_mcr
  simp only []
  split_ifs
  · simp only [set_tport_trace]
    rw [hw, hm]
  · rw [hw, hm]

theorem ti_set_mcr_no_memory (s : usb_serial) (p mcr : Nat) (ret : Int) :
    (ti_set_mcr s p mcr false ret).1 = s := by
  simp [ti_set_mcr, ti_write_byte, ENOMEM]

/-- C19: for a port of the device whose modem-control shadow is a byte,
`ti_tiocmset` asks for the byte `m` got from the shadow by turning on the
lines named in `set` and then turning off the lines named in `clear`; the other
bits of the shadow are kept; when the record is allocated exactly one write of
`m` under the mask 0x34 goes to the device; when the write succeeds the shadow
becomes `m`, the cached status byte is kept and `ti_tiocmget` reports DTR, RTS
and LOOP as they are in `m`; when it fails no port changes and the failure is
returned. -/
theorem ti_tiocmset_sets_then_clears (s : usb_serial) (p set clear : Nat) (alloc : Bool)
    (ret : Int) (hp : p < s.port.length) (hs : (get_tport s p).tp_shadow_mcr < 256) :
    mcr_set_then_clear (get_tport s p).tp_shadow_mcr set clear < 256 ∧
    mcr_set_then_clear (get_tport s p).tp_shadow_mcr set clear &&& 0xCB
      = (get_tport s p).tp_shadow_mcr &&& 0xCB ∧
    (alloc = true →
      write_data_records (ti_tiocmset s p set clear alloc ret).1.trace
        = write_data_records s.trace ++
          [[TI_RW_DATA_ADDR_XDATA, TI_RW_DATA_BYTE, 1,
            (((get_tport s p).tp_uart_base_addr + TI_UART_OFFSET_MCR) >>> 16) % 65536 / 256,
            (((get_tport s p).tp_uart_base_addr + TI_UART_OFFSET_MCR) >>> 16) % 65536 % 256,
            ((get_tport s p).tp_uart_base_addr + TI_UART_OFFSET_MCR) % 65536 / 256,
            ((get_tport s p).tp_uart_base_addr + TI_UART_OFFSET_MCR) % 65536 % 256,
            0x34, mcr_set_then_clear (get_tport s p).tp_shadow_mcr set clear]]) ∧
    (alloc = false → (ti_tiocmset s p set clear alloc ret).1 = s) ∧
    ((ti_tiocmset s p set clear alloc ret).2 = 0 →
      get_tport (ti_tiocmset s p set clear alloc ret).1 p
        = { get_tport s p with
            tp_shadow_mcr := mcr_set_then_clear (get_tport s p).tp_shadow_mcr set clear } ∧
      (ti_tiocmget (ti_tiocmset s p set clear alloc ret).1 p &&& TIOCM_DTR ≠ 0 ↔
        mcr_set_then_clear (get_tport s p).tp_shadow_mcr set clear &&& TI_MCR_DTR ≠ 0) ∧
      (ti_tiocmget (ti_tiocmset s p set clear alloc ret).1 p &&& TIOCM_RTS ≠ 0 ↔
        mcr_set_then_clear (get_tport s p).tp_shadow_mcr set clear &&& TI_MCR_RTS ≠ 0) ∧
      (ti_tiocmget (ti_tiocmset s p set clear alloc ret).1 p &&& TIOCM_LOOP ≠ 0 ↔
        mcr_set_then_clear (get_tport s p).tp_shadow_mcr set clear &&& TI_MCR_LOOP ≠ 0)) ∧
    ((ti_tiocmset s p set clear alloc ret).2 ≠ 0 →
      (ti_tiocmset s p set clear alloc ret).1.port = s.port ∧
      (ti_tiocmset s p set clear alloc ret).2
        = (if alloc = false then -ENOMEM else if ret < 0 then ret else - EIO)) := by
  have hm := mcr_set_then_clear_lt (get_tport s p).tp_shadow_mcr set clear
  have hmod : mcr_set_then_clear (get_tport s p).tp_shadow_mcr set clear % 256
      = mcr_set_then_clear (get_tport s p).tp_shadow_mcr set clear := Nat.mod_eq_of_lt hm
  unfold ti_tiocmset
  rw [ti_tiocmset_mcr_eq _ _ _ hs]
  refine ⟨hm, mcr_set_then_clear_other_bits _ _ _ hs, ?_, ?_, ?_, ?_⟩
  · intro ha
    subst ha
    rw [ti_set_mcr_write_data, hmod]
  · intro ha
    subst ha
    exact ti_set_mcr_no_memory _ _ _ _
  · intro h0
    have h1 := (ti_set_mcr_shadow s p _ alloc ret hp).1 h0
    rw [hmod] at h1
    have h2 := ti_tiocmget_result_lines (get_tport s p).tp_msr
      (mcr_set_then_clear (get_tport s p).tp_shadow_mcr set clear)
    refine ⟨h1, ?_⟩
    unfold ti_tiocmget
    rw [h1]
    exact h2
  · intro h0
    refine ⟨(ti_set_mcr_shadow s p _ alloc ret hp).2 h0, ?_⟩
    rw [ti_set_mcr_status] at h0 ⊢
    split_ifs at h0 ⊢ <;> first | rfl | exact absurd rfl h0

theorem ti_tiocmset_sets_then_clears_witness :
    0 < fresh_3410.port.length ∧ (get_tport fresh_3410 0).tp_shadow_mcr < 256 ∧
    mcr_set_then_clear 0 (TIOCM_RTS ||| TIOCM_DTR) TIOCM_RTS = 0x10 ∧
    get_tport (ti_tiocmset fresh_3410 0 (TIOCM_RTS ||| TIOCM_DTR) TIOCM_RTS true 9).1 0
      = { get_tport fresh_3410 0 with tp_shadow_mcr := 0x10 } ∧
    ti_tiocmget (ti_tiocmset fresh_3410 0 (TIOCM_RTS ||| TIOCM_DTR) TIOCM_RTS true 9).1 0
      = TIOCM_DTR ∧
    (ti_tiocmset fresh_3410 0 (TIOCM_RTS ||| TIOCM_DTR) TIOCM_RTS true (-71)).1.port
      = fresh_3410.port :=
  ⟨by decide, by decide, by decide,
   ((ti_tiocmset_sets_then_clears fresh_3410 0 (TIOCM_RTS ||| TIOCM_DTR) TIOCM_RTS true 9
      (by decide) (by decide)).2.2.2.2.1 (by decide)).1,
   by decide,
   ((ti_tiocmset_sets_then_clears fresh_3410 0 (TIOCM_RTS ||| TIOCM_DTR) TIOCM_RTS true (-71)
      (by decide) (by decide)).2.2.2.2.2 (by decide)).1⟩

/-! ## The open/close lock -/

theorem gate_quiet_refl (a : usb_serial) : gate_quiet a a :=
  ⟨[], by simp, by simp [gate_free]⟩

theorem gate_quiet_trace (a b c : usb_serial) (h : gate_quiet a b) (hc : c.trace = b.trace) :
    gate_quiet a c := by
  obtain ⟨t, ht, hf⟩ := h
  exact ⟨t, by rw [hc, ht], hf⟩

theorem gate_quiet_emit (a b : usb_serial) (e : Event) (h : gate_quiet a b)
    (h1 : e ≠ Event.mutex_lock) (h2 : e ≠ Event.mutex_unlock) : gate_quiet a (emit b e) := by
  obtain ⟨t, ht, hf1, hf2⟩ := h
  refine ⟨t ++ [e], by simp [emit, ht], ?_, ?_⟩
  · simp only [List.mem_append, List.mem_singleton, not_or]
    exact ⟨hf1, fun h => h1 h.symm⟩
  · simp only [List.mem_append, List.mem_singleton, not_or]
    exact ⟨hf2, fun h => h2 h.symm⟩

theorem gate_quiet_dev_err (a b : usb_serial) (msg : String) (h : gate_quiet a b) :
    gate_quiet a (emit b (Event.dev_err msg)) :=
  gate_quiet_emit a b _ h (fun h => Event.noConfusion h) (fun h => Event.noConfusion h)

theorem gate_quiet_dev_err_if (a b : usb_serial) (c : Bool) (msg : String)
    (h : gate_quiet a b) : gate_quiet a (dev_err_if b c msg) := by
  cases c
  · exact h
  · exact gate_quiet_dev_err a b msg h

theorem gate_quiet_set_tport (a b : usb_serial) (p : Nat) (f : ti_port → ti_port)
    (h : gate_quiet a b) : gate_quiet a (set_tport b p f) :=
  gate_quiet_trace a b _ h rfl

theorem gate_quiet_kill (a b : usb_serial) (h : gate_quiet a b) :
    gate_quiet a (usb_kill_interrupt_urb b) :=
  gate_quiet_trace a _ _
    (gate_quiet_emit a b Event.kill_interrupt_urb h (fun h => Event.noConfusion h)
      (fun h => Event.noConfusion h)) rfl

theorem gate_quiet_submit (a b : usb_serial) (st : Int) (h : gate_quiet a b) :
    gate_quiet a (usb_submit_interrupt_urb b st) := by
  have h1 := gate_quiet_emit a b (Event.submit_interrupt_urb st) h
    (fun h => Event.noConfusion h) (fun h => Event.noConfusion h)
  unfold usb_submit_interrupt_urb
  split_ifs
  · exact gate_quiet_trace a _ _ h1 rfl
  · exact h1

theorem gate_quiet_ctrl_data (a b : usb_serial) (r v i : Nat) (d : List Nat) (ret : Int)
    (h : gate_quiet a b) : gate_quiet a (ti_send_ctrl_data_urb b r v i d ret).1 := by
  have h1 := gate_quiet_emit a b (Event.control_msg r v i d ret) h
    (fun h => Event.noConfusion h) (fun h => Event.noConfusion h)
  unfold ti_send_ctrl_data_urb
  simp only []
  split_ifs
  · exact gate_quiet_dev_err a _ _ h1
  · exact gate_quiet_dev_err a _ _ h1
  · exact h1

theorem gate_quiet_ctrl (a b : usb_serial) (r v i : Nat) (ret : Int) (h : gate_quiet a b) :
    gate_quiet a (ti_send_ctrl_urb b r v i ret).1 :=
  gate_quiet_ctrl_data a b r v i [] ret h

theorem gate_quiet_write_byte (a b : usb_serial) (addr mask byte : Nat) (alloc : Bool)
    (ret : Int) (h : gate_quiet a b) :
    gate_quiet a (ti_write_byte b addr mask byte alloc ret).1 := by
  unfold ti_write_byte
  cases alloc
  · exact h
  · simp only [Bool.not_true, Bool.false_eq_true, if_false]
    exact gate_quiet_dev_err_if a _ _ _ (gate_quiet_ctrl_data a b _ _ _ _ _ h)

theorem gate_quiet_set_mcr (a b : usb_serial) (p mcr : Nat) (alloc : Bool) (ret : Int)
    (h : gate_quiet a b) : gate_quiet a (ti_set_mcr b p mcr alloc ret).1 := by
  unfold ti_set_mcr
  simp only []
  split_ifs
  · exact gate_quiet_set_tport a _ _ _ (gate_quiet_write_byte a b _ _ _ _ _ h)
  · exact gate_quiet_write_byte a b _ _ _ _ _ h

theorem gate_quiet_set_termios (a b : usb_serial) (p : Nat) (tty : ktermios) (e : termios_env)
    (h : gate_quiet a b) : gate_quiet a (ti_set_termios b p tty e).1 := by
  unfold ti_set_termios
  by_cases hc : (!e.config_alloc) = true
  · rw [if_pos hc]
    exact h
  · rw [if_neg hc]
    exact gate_quiet_dev_err_if a _ _ _ (gate_quiet_set_mcr a _ _ _ _ _
      (gate_quiet_dev_err_if a _ _ _ (gate_quiet_ctrl_data a b _ _ _ _ _ h)))

theorem gate_quiet_open_set_termios (a b : usb_serial) (p : Nat) (tty : Option ktermios)
    (e : termios_env) (h : gate_quiet a b) :
    gate_quiet a (ti_open_set_termios b p tty e).1 := by
  cases tty with
  | none => exact h
  | some t => exact gate_quiet_set_termios a b p t e h

/-- Label `release_lock` closes a stretch in which the lock was held. -/
theorem gate_held_once_release (a b : usb_serial) (st : Int)
    (h : gate_quiet (mutex_lock a) b) : gate_held_once a (ti_open_release_lock b st).1 := by
  obtain ⟨t, ht, hf⟩ := h
  refine ⟨t, hf, ?_, rfl⟩
  simp [ti_open_release_lock, mutex_unlock, emit, ht, mutex_lock]

theorem gate_held_once_unlink (a b : usb_serial) (st : Int)
    (h : gate_quiet (mutex_lock a) b) : gate_held_once a (ti_open_unlink_int_urb b st).1 := by
  unfold ti_open_unlink_int_urb
  split_ifs
  · exact gate_held_once_release a _ st (gate_quiet_kill _ b h)
  · exact gate_held_once_release a _ st h

theorem gate_held_once_fail (a b : usb_serial) (msg : String) (st : Int)
    (h : gate_quiet (mutex_lock a) b) : gate_held_once a (ti_open_fail b msg st).1 :=
  gate_held_once_unlink a _ st (gate_quiet_dev_err _ b msg h)

theorem gate_outcome_returned (a : usb_serial) (x : usb_serial × Int)
    (h : gate_held_once a x.1) : gate_outcome a (returned x) :=
  ⟨fun _ => h, fun hn => by simp [returned] at hn⟩

theorem gate_outcome_fault (a b : usb_serial) (h : gate_quiet (mutex_lock a) b) :
    gate_outcome a (b, none) :=
  ⟨fun hn => absurd rfl hn, fun _ => h⟩

theorem gate_outcome_restart (a b : usb_serial) (p : Nat) (tty : Option ktermios)
    (e : ti_open_env) (h : gate_quiet (mutex_lock a) b) :
    gate_outcome a (ti_open_restart b p tty e) := by
  have h1 := gate_quiet_emit _ _ Event.clear_halt_write h (fun h => Event.noConfusion h)
    (fun h => Event.noConfusion h)
  have h2 := gate_quiet_emit _ _ Event.clear_halt_read h1 (fun h => Event.noConfusion h)
    (fun h => Event.noConfusion h)
  have t2 := gate_quiet_open_set_termios _ _ p tty e.termios2 h2
  have c5 := gate_quiet_ctrl _ _ TI_OPEN_PORT ti_open_settings (TI_UART1_PORT + p) e.open2 t2
  have c6 := gate_quiet_ctrl _ _ TI_START_PORT 0 (TI_UART1_PORT + p) e.start2 c5
  have r1 := gate_quiet_emit _ _ (Event.submit_read_urb e.read_submit) c6
    (fun h => Event.noConfusion h) (fun h => Event.noConfusion h)
  unfold ti_open_restart
  simp only []
  split_ifs
  · exact gate_outcome_fault a _ h
  · exact gate_outcome_fault a _ h1
  · exact gate_outcome_returned a _ (gate_held_once_fail a _ _ _ c5)
  · exact gate_outcome_returned a _ (gate_held_once_fail a _ _ _ c6)
  · exact gate_outcome_returned a _ (gate_held_once_fail a _ _ _ c6)
  · exact gate_outcome_returned a _ (gate_held_once_fail a _ _ _ r1)
  · exact gate_outcome_returned a _
      (gate_held_once_release a _ _ (gate_quiet_trace _ _ _ r1 rfl))

theorem gate_outcome_commands (a b : usb_serial) (p : Nat) (e : ti_open_env)
    (h : gate_quiet (mutex_lock a) b) : gate_outcome a (ti_open_commands b p e) := by
  have t1 := gate_quiet_open_set_termios _ b p e.tty e.termios1 h
  have c1 := gate_quiet_ctrl _ _ TI_OPEN_PORT ti_open_settings (TI_UART1_PORT + p) e.open1 t1
  have c2 := gate_quiet_ctrl _ _ TI_START_PORT 0 (TI_UART1_PORT + p) e.start1 c1
  have c3 := gate_quiet_ctrl _ _ TI_PURGE_INPUT TI_PURGE_INPUT (TI_UART1_PORT + p) e.purge_in c2
  have c4 := gate_quiet_ctrl _ _ TI_PURGE_INPUT TI_PURGE_OUTPUT (TI_UART1_PORT + p) e.purge_out c3
  unfold ti_open_commands
  simp only []
  split_ifs
  · exact gate_outcome_returned a _ (gate_held_once_fail a _ _ _ c1)
  · exact gate_outcome_returned a _ (gate_held_once_fail a _ _ _ c2)
  · exact gate_outcome_returned a _ (gate_held_once_fail a _ _ _ c3)
  · exact gate_outcome_returned a _ (gate_held_once_fail a _ _ _ c4)
  · exact gate_outcome_restart a _ p _ e c4

/-- A `ti_open` that is not interrupted and finds the lock free. -/
theorem gate_outcome_ti_open (s : usb_serial) (p : Nat) (e : ti_open_env)
    (h : e.lock_interrupted = false) (hk : s.td_open_close_lock = false) :
    gate_outcome s (ti_open s p e) := by
  have h0 : gate_quiet (mutex_lock s) (ti_open_reset_cache (mutex_lock s) p) :=
    gate_quiet_set_tport _ _ _ _ (gate_quiet_refl _)
  unfold ti_open
  simp only [h, hk, Bool.false_eq_true, if_false]
  split_ifs
  · exact gate_outcome_returned s _ (gate_held_once_release s _ _ (gate_quiet_dev_err _ _ _ h0))
  · exact gate_outcome_returned s _
      (gate_held_once_release s _ _ (gate_quiet_dev_err _ _ _ (gate_quiet_submit _ _ _ h0)))
  · exact gate_outcome_commands s _ p e (gate_quiet_submit _ _ _ h0)
  · exact gate_outcome_commands s _ p e h0

/-- A `ti_open` that is not interrupted and finds the lock held does not come
back and does nothing. -/
theorem ti_open_blocked (s : usb_serial) (p : Nat) (e : ti_open_env)
    (h : e.lock_interrupted = false) (hk : s.td_open_close_lock = true) :
    ti_open s p e = (s, none) := by
  unfold ti_open
  simp [h, hk]

theorem dev_err_if_lock (s : usb_serial) (c : Bool) (msg : String) :
    (dev_err_if s c msg).td_open_close_lock = s.td_open_close_lock := by
  cases c <;> rfl

theorem ti_send_ctrl_urb_lock (s : usb_serial) (a b c : Nat) (ret : Int) :
    (ti_send_ctrl_urb s a b c ret).1.td_open_close_lock = s.td_open_close_lock := by
  unfold ti_send_ctrl_urb ti_send_ctrl_data_urb
  simp only []
  split_ifs <;> rfl

/-- The part of `ti_close` before `mutex_lock_interruptible`. -/
theorem gate_quiet_close_head (s : usb_serial) (p : Nat) (e : ti_close_env) :
    gate_quiet s (ti_close_head s p e) := by
  have h1 := gate_quiet_emit s s Event.kill_read_urb (gate_quiet_refl s)
    (fun h => Event.noConfusion h) (fun h => Event.noConfusion h)
  have h2 := gate_quiet_emit s _ Event.kill_write_urb h1
    (fun h => Event.noConfusion h) (fun h => Event.noConfusion h)
  have h3 := gate_quiet_emit s _ Event.kfifo_reset_out h2
    (fun h => Event.noConfusion h) (fun h => Event.noConfusion h)
  exact gate_quiet_dev_err_if s _ _ _ (gate_quiet_ctrl s _ _ _ _ _ h3)

theorem ti_close_head_lock (s : usb_serial) (p : Nat) (e : ti_close_env) :
    (ti_close_head s p e).td_open_close_lock = s.td_open_close_lock := by
  unfold ti_close_head
  simp only [dev_err_if_lock, ti_send_ctrl_urb_lock]
  rfl

/-- The counter update of `ti_close` neither locks nor unlocks. -/
theorem gate_quiet_close_count (a b : usb_serial) (h : gate_quiet a b) :
    gate_quiet a
      (if b.tdev.td_open_port_count - 1 ≤ 0 then
        { usb_kill_interrupt_urb
            { b with tdev := { b.tdev with
                td_open_port_count := b.tdev.td_open_port_count - 1 } } with
          tdev := { b.tdev with td_open_port_count := 0 } }
      else
        { b with tdev := { b.tdev with
            td_open_port_count := b.tdev.td_open_port_count - 1 } }) := by
  split_ifs
  · exact gate_quiet_trace a _ _ (gate_quiet_kill a _ (gate_quiet_trace a b _ h rfl)) rfl
  · exact gate_quiet_trace a b _ h rfl

/-- The rest of a `ti_close` whose wait for the lock was interrupted. -/
theorem ti_close_tail_interrupted (b : usb_serial) :
    gate_quiet b (ti_close_tail b false) ∧
    (ti_close_tail b false).td_open_close_lock = b.td_open_close_lock := by
  constructor
  · exact gate_quiet_close_count b b (gate_quiet_refl b)
  · unfold ti_close_tail
    simp only [Bool.false_eq_true, if_false]
    split_ifs <;> rfl

/-- The rest of a `ti_close` that took the lock. -/
theorem ti_close_tail_locked (b : usb_serial) : gate_held_once b (ti_close_tail b true) :=
  gate_held_once_release b _ 0 (gate_quiet_close_count (mutex_lock b) _ (gate_quiet_refl _))

theorem ti_close_interrupted (s : usb_serial) (p : Nat) (e : ti_close_env)
    (h : e.lock_interrupted = true) :
    (ti_close s p e).2 = some () ∧
    gate_quiet s (ti_close s p e).1 ∧
    (ti_close s p e).1.td_open_close_lock = s.td_open_close_lock := by
  obtain ⟨h1, h2⟩ := ti_close_tail_interrupted (ti_close_head s p e)
  obtain ⟨t1, ht1, hf1⟩ := gate_quiet_close_head s p e
  obtain ⟨t2, ht2, hf2⟩ := h1
  unfold ti_close
  simp only [h, Bool.not_true, Bool.false_and, Bool.false_eq_true, if_false, true_and]
  refine ⟨⟨t1 ++ t2, by rw [ht2, ht1, List.append_assoc], ?_, ?_⟩, ?_⟩
  · intro hm
    rcases List.mem_append.mp hm with hm | hm
    · exact hf1.1 hm
    · exact hf2.1 hm
  · intro hm
    rcases List.mem_append.mp hm with hm | hm
    · exact hf1.2 hm
    · exact hf2.2 hm
  · rw [h2, ti_close_head_lock]

theorem ti_close_not_interrupted (s : usb_serial) (p : Nat) (e : ti_close_env)
    (h : e.lock_interrupted = false) :
    ((ti_close s p e).2 ≠ none →
      gate_quiet s (ti_close_head s p e) ∧
      gate_held_once (ti_close_head s p e) (ti_close s p e).1) ∧
    ((ti_close s p e).2 = none →
      s.td_open_close_lock = true ∧ (ti_close s p e).1 = ti_close_head s p e) := by
  unfold ti_close
  simp only [h, Bool.not_false, Bool.true_and]
  by_cases hk : (ti_close_head s p e).td_open_close_lock = true
  · rw [if_pos hk]
    refine ⟨fun hn => absurd rfl hn, fun _ => ⟨?_, rfl⟩⟩
    rw [← ti_close_head_lock s p e]
    exact hk
  · rw [if_neg hk]
    exact ⟨fun _ => ⟨gate_quiet_close_head s p e, ti_close_tail_locked _⟩,
      fun hn => by simp at hn⟩

/-- What does hold of the lock.  A `ti_open` whose lock acquisition is
interrupted returns `-ERESTARTSYS` and leaves the device as it was (nothing
sent, nothing started, counter and cached bytes unchanged).  Every other
`ti_open` that comes back has added to the trace one lock, then events that
neither lock nor unlock, then one unlock as its last event, and returns with
the lock free; one that found the lock free and does not come back has added
one lock and then events that neither lock nor unlock.  A `ti_close` whose
acquisition is not interrupted and that comes back has added its close-port
command, then one lock, events that neither lock nor unlock, and one unlock as
its last event; a `ti_close` whose acquisition is interrupted comes back, adds
neither a lock nor an unlock and leaves the lock flag as it was. -/
theorem ti_open_ti_close_lock_when_calls_return (s : usb_serial) (p : Nat)
    (eo : ti_open_env) (ec : ti_close_env) :
    (eo.lock_interrupted = true → ti_open s p eo = (s, some (-ERESTARTSYS))) ∧
    (eo.lock_interrupted = false → (ti_open s p eo).2 ≠ none →
      ∃ t, gate_free t ∧
        (ti_open s p eo).1.trace = s.trace ++ Event.mutex_lock :: (t ++ [Event.mutex_unlock]) ∧
        (ti_open s p eo).1.td_open_close_lock = false) ∧
    (eo.lock_interrupted = false → s.td_open_close_lock = false → (ti_open s p eo).2 = none →
      ∃ t, gate_free t ∧ (ti_open s p eo).1.trace = s.trace ++ Event.mutex_lock :: t) ∧
    (ec.lock_interrupted = false → (ti_close s p ec).2 ≠ none →
      ∃ t1 t2, gate_free t1 ∧ gate_free t2 ∧
        (ti_close s p ec).1.trace
          = s.trace ++ t1 ++ Event.mutex_lock :: (t2 ++ [Event.mutex_unlock]) ∧
        (ti_close s p ec).1.td_open_close_lock = false) ∧
    (ec.lock_interrupted = true →
      (ti_close s p ec).2 = some () ∧
      ∃ t, gate_free t ∧ (ti_close s p ec).1.trace = s.trace ++ t ∧
        (ti_close s p ec).1.td_open_close_lock = s.td_open_close_lock) := by
  refine ⟨?_, ?_, ?_, ?_, ?_⟩
  · intro h
    unfold ti_open
    rw [if_pos h]
  · intro h hr
    cases hk : s.td_open_close_lock with
    | true =>
      rw [ti_open_blocked s p eo h hk] at hr
      exact absurd rfl hr
    | false => exact (gate_outcome_ti_open s p eo h hk).1 hr
  · intro h hk hn
    obtain ⟨t, ht, hf⟩ := (gate_outcome_ti_open s p eo h hk).2 hn
    refine ⟨t, hf, ?_⟩
    rw [ht]
    simp [mutex_lock, emit]
  · intro h hr
    obtain ⟨⟨t1, hb, h1⟩, t2, h2, ht, hl⟩ := (ti_close_not_interrupted s p ec h).1 hr
    exact ⟨t1, t2, h1, h2, by rw [ht, hb], hl⟩
  · intro h
    obtain ⟨hr, ⟨t, ht, hf⟩, hl⟩ := ti_close_interrupted s p ec h
    exact ⟨hr, t, hf, ht, hl⟩

/-- C17. On a two-port device whose second port has no read URB, after port 0
was opened (lock taken and released once), a `ti_open` of port 1 in which every
transport call succeeds takes the lock, sends its first four commands and then
faults at line 747 (`port->read_urb->pipe` with `read_urb` `NULL`): the call
does not come back, the lock is still held, and the trace holds two locks and
one unlock, its last events being the purge command and the halt reset of the
write pipe. -/
theorem ti_open_fault_keeps_lock :
    (ti_open attached_5052_no_read_urb 0 open_ok).2 = some 0 ∧
    (ti_open attached_5052_no_read_urb 0 open_ok).1.td_open_close_lock = false ∧
    (ti_open (ti_open attached_5052_no_read_urb 0 open_ok).1 1 open_ok).2 = none ∧
    (ti_open (ti_open attached_5052_no_read_urb 0 open_ok).1 1 open_ok).1.td_open_close_lock
      = true ∧
    (ti_open (ti_open attached_5052_no_read_urb 0 open_ok).1 1 open_ok).1.trace.count
      Event.mutex_lock = 2 ∧
    (ti_open (ti_open attached_5052_no_read_urb 0 open_ok).1 1 open_ok).1.trace.count
      Event.mutex_unlock = 1 ∧
    ((ti_open (ti_open attached_5052_no_read_urb 0 open_ok).1 1 open_ok).1.trace.drop
        (ti_open attached_5052_no_read_urb 0 open_ok).1.trace.length)
      = [Event.mutex_lock,
         Event.control_msg TI_OPEN_PORT 0x89 4 [] 0,
         Event.control_msg TI_START_PORT 0 4 [] 0,
         Event.control_msg TI_PURGE_INPUT TI_PURGE_INPUT 4 [] 0,
         Event.control_msg TI_PURGE_INPUT TI_PURGE_OUTPUT 4 [] 0,
         Event.clear_halt_write] := by
  decide

/-! ## The download loop -/

theorem bulk_transferred_append (a b : List Event) :
    bulk_transferred (a ++ b) = bulk_transferred a ++ bulk_transferred b := by
  induction a with
  | nil => rfl
  | cons ev l ih => cases ev <;> simp [bulk_transferred, ih]

theorem bulk_statuses_append (a b : List Event) :
    bulk_statuses (a ++ b) = bulk_statuses a ++ bulk_statuses b := by
  simp [bulk_statuses]

theorem take_chunk_append (l : List Nat) (pos len d m : Nat) (hd : d ≤ len) :
    ((l.drop pos).take len).take d ++ (l.drop (pos + d)).take m = (l.drop pos).take (d + m) := by
  rw [List.take_take, Nat.min_eq_left hd, List.take_add, List.drop_drop]

/-- With enough fuel the loop returns whenever every successful transfer moves
at least one byte and at most the requested chunk: the chunks asked for are 1
to 64 bytes long and the bytes moved are the buffer from `pos` on, up to `size`
when the status is 0. -/
theorem ti_do_download_loop_progress (bulk : Nat → Nat → Int × Nat) (buffer : List Nat)
    (size : Nat) (hb : size ≤ buffer.length)
    (H : ∀ k len, 1 ≤ len → (bulk k len).1 = 0 → 1 ≤ (bulk k len).2 ∧ (bulk k len).2 ≤ len) :
    ∀ (fuel k pos : Nat), pos ≤ size → size - pos ≤ fuel →
    ∃ st t, ti_do_download_loop bulk buffer size fuel k pos = some (st, t) ∧
      (∀ l ∈ bulk_lengths t, 1 ≤ l ∧ l ≤ 64) ∧
      ∃ m, pos + m ≤ size ∧ bulk_transferred t = (buffer.drop pos).take m ∧
        (st = 0 → pos + m = size) := by
  intro fuel
  induction fuel with
  | zero =>
    intro k pos hp hf
    refine ⟨0, [], ti_do_download_loop_done bulk buffer size 0 k pos (by omega), ?_, 0, ?_, ?_, ?_⟩
    · simp [bulk_lengths]
    · omega
    · simp [bulk_transferred]
    · intro _; omega
  | succ fuel ih =>
    intro k pos hp hf
    by_cases hlt : pos < size
    · have hlen1 : 1 ≤ min (size - pos) TI_DOWNLOAD_MAX_PACKET_SIZE := by
        simp only [TI_DOWNLOAD_MAX_PACKET_SIZE]; omega
      have hlen2 : min (size - pos) TI_DOWNLOAD_MAX_PACKET_SIZE ≤ 64 := by
        simp only [TI_DOWNLOAD_MAX_PACKET_SIZE]; omega
      have hlen3 : min (size - pos) TI_DOWNLOAD_MAX_PACKET_SIZE ≤ size - pos := by
        simp only [TI_DOWNLOAD_MAX_PACKET_SIZE]; omega
      have hdata : ((buffer.drop pos).take
          (min (size - pos) TI_DOWNLOAD_MAX_PACKET_SIZE)).length
          = min (size - pos) TI_DOWNLOAD_MAX_PACKET_SIZE := by
        rw [List.length_take, List.length_drop]; omega
      by_cases hs : (bulk k (min (size - pos) TI_DOWNLOAD_MAX_PACKET_SIZE)).1 = 0
      · obtain ⟨hd1, hd2⟩ := H k _ hlen1 hs
        obtain ⟨st, t, ht, hl, m, hm, htr, hst⟩ := ih (k + 1)
          (pos + (bulk k (min (size - pos) TI_DOWNLOAD_MAX_PACKET_SIZE)).2) (by omega) (by omega)
        refine ⟨st, Event.bulk_msg ((buffer.drop pos).take
          (min (size - pos) TI_DOWNLOAD_MAX_PACKET_SIZE)) 0
          (bulk k (min (size - pos) TI_DOWNLOAD_MAX_PACKET_SIZE)).2 :: t, ?_, ?_,
          (bulk k (min (size - pos) TI_DOWNLOAD_MAX_PACKET_SIZE)).2 + m, by omega, ?_, ?_⟩
        · simp only [ti_do_download_loop, hlt, if_true, hs, ne_eq, not_true_eq_false, if_false,
            ht, Option.map_some']
        · intro l hl2
          simp only [bulk_lengths, List.filterMap_cons, List.mem_cons] at hl2
          rcases hl2 with rfl | hl2
          · rw [hdata]; exact ⟨hlen1, hlen2⟩
          · exact hl l hl2
        · simp only [bulk_transferred, if_true]
          rw [htr, take_chunk_append _ _ _ _ _ hd2]
        · intro h0
          have := hst h0
          omega
      · refine ⟨(bulk k (min (size - pos) TI_DOWNLOAD_MAX_PACKET_SIZE)).1,
          [Event.bulk_msg ((buffer.drop pos).take
            (min (size - pos) TI_DOWNLOAD_MAX_PACKET_SIZE))
            (bulk k (min (size - pos) TI_DOWNLOAD_MAX_PACKET_SIZE)).1
            (bulk k (min (size - pos) TI_DOWNLOAD_MAX_PACKET_SIZE)).2], ?_, ?_, 0, by omega, ?_, ?_⟩
        · simp only [ti_do_download_loop, hlt, if_true, hs, ne_eq, not_false_eq_true]
        · intro l hl2
          simp only [bulk_lengths, List.filterMap_cons, List.filterMap_nil,
            List.mem_singleton] at hl2
          subst hl2
          rw [hdata]; exact ⟨hlen1, hlen2⟩
        · simp [bulk_transferred, hs]
        · intro h0; exact absurd h0 hs
    · refine ⟨0, [], ti_do_download_loop_done bulk buffer size _ k pos hlt, ?_, 0, ?_, ?_, ?_⟩
      · simp [bulk_lengths]
      · omega
      · simp [bulk_transferred]
      · intro _; omega

/-- Whatever the transfers report, a loop that returns made no transfer after a
failed one: status 0 means every transfer returned 0, and another status is
that of the last transfer, all earlier ones having returned 0. -/
theorem ti_do_download_loop_stops (bulk : Nat → Nat → Int × Nat) (buffer : List Nat)
    (size : Nat) : ∀ (fuel k pos : Nat) (st : Int) (t : List Event),
    ti_do_download_loop bulk buffer size fuel k pos = some (st, t) →
    (st = 0 → ∀ x ∈ bulk_statuses t, x = 0) ∧
    (st ≠ 0 → ∃ t0 d dn, t = t0 ++ [Event.bulk_msg d st dn] ∧
      ∀ x ∈ bulk_statuses t0, x = 0) := by
  intro fuel
  induction fuel with
  | zero =>
    intro k pos st t hx
    by_cases hp : pos < size
    · simp [ti_do_download_loop, hp] at hx
    · simp only [ti_do_download_loop, hp, if_false, Option.some.injEq, Prod.mk.injEq] at hx
      obtain ⟨rfl, rfl⟩ := hx
      exact ⟨fun _ => by simp [bulk_statuses], fun h => absurd rfl h⟩
  | succ fuel ih =>
    intro k pos st t hx
    by_cases hp : pos < size
    · simp only [ti_do_download_loop, hp, if_true] at hx
      by_cases hs : (bulk k (min (size - pos) TI_DOWNLOAD_MAX_PACKET_SIZE)).1 = 0
      · simp only [hs, ne_eq, not_true_eq_false, if_false, Option.map_eq_some',
          Prod.mk.injEq] at hx
        obtain ⟨⟨st2, t2⟩, hy, rfl, rfl⟩ := hx
        obtain ⟨h1, h2⟩ := ih _ _ st2 t2 hy
        constructor
        · intro h0 x hx2
          simp only [bulk_statuses, List.filterMap_cons, List.mem_cons] at hx2
          rcases hx2 with rfl | hx2
          · rfl
          · exact h1 h0 x hx2
        · intro h0
          obtain ⟨t0, d, dn, rfl, h3⟩ := h2 h0
          refine ⟨_ :: t0, d, dn, rfl, ?_⟩
          intro x hx2
          simp only [bulk_statuses, List.filterMap_cons, List.mem_cons] at hx2
          rcases hx2 with rfl | hx2
          · rfl
          · exact h3 x hx2
      · simp only [hs, ne_eq, not_false_eq_true, if_true, Option.some.injEq,
          Prod.mk.injEq] at hx
        obtain ⟨rfl, rfl⟩ := hx
        exact ⟨fun h0 => absurd h0 hs, fun _ => ⟨[], _, _, rfl, by simp [bulk_statuses]⟩⟩
    · simp only [ti_do_download_loop, hp, if_false, Option.some.injEq, Prod.mk.injEq] at hx
      obtain ⟨rfl, rfl⟩ := hx
      exact ⟨fun _ => by simp [bulk_statuses], fun h => absurd rfl h⟩

/-- A status other than 0 that the loop returns is one a transfer returned. -/
theorem ti_do_download_loop_status (bulk : Nat → Nat → Int × Nat) (buffer : List Nat)
    (size : Nat) : ∀ (fuel k pos : Nat) (st : Int) (t : List Event),
    ti_do_download_loop bulk buffer size fuel k pos = some (st, t) → st ≠ 0 →
    ∃ j len, (bulk j len).1 = st := by
  intro fuel
  induction fuel with
  | zero =>
    intro k pos st t hx h0
    by_cases hp : pos < size
    · simp [ti_do_download_loop, hp] at hx
    · simp only [ti_do_download_loop, hp, if_false, Option.some.injEq, Prod.mk.injEq] at hx
      exact absurd hx.1.symm h0
  | succ fuel ih =>
    intro k pos st t hx h0
    by_cases hp : pos < size
    · simp only [ti_do_download_loop, hp, if_true] at hx
      by_cases hs : (bulk k (min (size - pos) TI_DOWNLOAD_MAX_PACKET_SIZE)).1 = 0
      · simp only [hs, ne_eq, not_true_eq_false, if_false, Option.map_eq_some',
          Prod.mk.injEq] at hx
        obtain ⟨⟨st2, t2⟩, hy, rfl, rfl⟩ := hx
        exact ih _ _ st2 t2 hy h0
      · simp only [hs, ne_eq, not_false_eq_true, if_true, Option.some.injEq,
          Prod.mk.injEq] at hx
        exact ⟨_, _, hx.1⟩
    · simp only [ti_do_download_loop, hp, if_false, Option.some.injEq, Prod.mk.injEq] at hx
      exact absurd hx.1.symm h0

/-- The number of transfers when every chunk is moved whole. -/
theorem ti_do_download_loop_whole_count (buffer : List Nat) (size : Nat)
    (hb : size ≤ buffer.length) (fuel : Nat) (hf : size ≤ fuel) :
    ∃ t, ti_do_download_loop bulk_whole buffer size fuel 0 0 = some (0, t) ∧
      (bulk_lengths t).length = (size + 63) / 64 := by
  by_cases h0 : size = 0
  · subst h0
    exact ⟨[], ti_do_download_loop_done bulk_whole buffer 0 fuel 0 0 (by omega), rfl⟩
  · obtain ⟨t, ht, hl⟩ := ti_do_download_loop_whole buffer size hb (size - 64 * ((size - 1) / 64))
      (by omega) (by omega) ((size - 1) / 64) fuel 0 0 (by omega) (by omega)
    refine ⟨t, ht, ?_⟩
    rw [hl, List.length_append, List.length_replicate, List.length_singleton]
    omega

/-- C18: `ti_do_download` on a buffer of at least `size` bytes.  When every
transfer that succeeds reports between 1 byte and the requested length, the
call returns (fuel `size` is enough): every chunk asked for is 1 to 64 bytes
long, the bytes moved up to any point of the run are at most `size`, the bytes
moved in all are a leading part of the streamed buffer and, when the status is
0, its first `size` bytes; the status is 0 when no transfer fails, and with
every chunk moved whole there are `(size + 63) / 64` transfers.  Whatever the
transfers report, a call that returns a status other than 0 made the failed
transfer last, every earlier one having returned 0, and returns its status; a
call that returns 0 saw every transfer return 0. -/
theorem ti_do_download_loop_terminates (bulk : Nat → Nat → Int × Nat) (buffer : List Nat)
    (size fuel : Nat) :
    (size ≤ buffer.length → size ≤ fuel →
      (∀ k len, 1 ≤ len → (bulk k len).1 = 0 → 1 ≤ (bulk k len).2 ∧ (bulk k len).2 ≤ len) →
      ∃ r, ti_do_download bulk buffer size fuel = some r ∧
        r.buffer = some (ti_do_download_header buffer size) ∧
        (∀ l ∈ bulk_lengths r.trace, 1 ≤ l ∧ l ≤ 64) ∧
        (∀ t1 t2, r.trace = t1 ++ t2 → (bulk_transferred t1).length ≤ size) ∧
        (∃ m, m ≤ size ∧
          bulk_transferred r.trace = (ti_do_download_header buffer size).take m ∧
          (r.status = 0 → m = size)) ∧
        ((∀ k len, (bulk k len).1 = 0) → r.status = 0) ∧
        ((∀ k len, bulk k len = (0, len)) →
          (bulk_lengths r.trace).length = (size + 63) / 64)) ∧
    (∀ r, ti_do_download bulk buffer size fuel = some r →
      (r.status = 0 → ∀ x ∈ bulk_statuses r.trace, x = 0) ∧
      (r.status ≠ 0 → ∃ t0 d dn, r.trace = t0 ++ [Event.bulk_msg d r.status dn] ∧
        ∀ x ∈ bulk_statuses t0, x = 0)) := by
  constructor
  · intro hb hf H
    have hb2 : size ≤ (ti_do_download_header buffer size).length := by
      rw [ti_do_download_header_length]; exact hb
    obtain ⟨st, t, ht, hl, m, hm, htr, hst⟩ :=
      ti_do_download_loop_progress bulk (ti_do_download_header buffer size) size hb2 H fuel 0 0
        (Nat.zero_le _) (by omega)
    rw [List.drop_zero] at htr
    refine ⟨{ status := st, trace := t, buffer := some (ti_do_download_header buffer size) },
      ?_, rfl, hl, ?_, ⟨m, by omega, htr, fun h => by have := hst h; omega⟩, ?_, ?_⟩
    · simp [ti_do_download, ht]
    · intro t1 t2 h12
      have h1 : (bulk_transferred t).length ≤ m := by
        rw [htr]; exact List.length_take_le _ _
      have h2 : bulk_transferred t = bulk_transferred t1 ++ bulk_transferred t2 := by
        have h3 : t = t1 ++ t2 := h12
        rw [h3, bulk_transferred_append]
      rw [h2, List.length_append] at h1
      omega
    · intro hall
      by_contra hne
      obtain ⟨j, len, hj⟩ := ti_do_download_loop_status bulk _ size fuel 0 0 st t ht hne
      rw [hall j len] at hj
      exact hne hj.symm
    · intro hall
      have hw : bulk = bulk_whole := by
        funext k len
        rw [hall k len]
        rfl
      subst hw
      obtain ⟨t2, ht2, hc⟩ :=
        ti_do_download_loop_whole_count (ti_do_download_header buffer size) size hb2 fuel hf
      rw [ht] at ht2
      simp only [Option.some.injEq, Prod.mk.injEq] at ht2
      obtain ⟨_, rfl⟩ := ht2
      exact hc
  · intro r hr
    simp only [ti_do_download, Option.map_eq_some'] at hr
    obtain ⟨⟨st, t⟩, hx, rfl⟩ := hr
    exact ti_do_download_loop_stops bulk _ size fuel 0 0 st t hx

theorem ti_do_download_loop_terminates_witness :
    (∃ r, ti_do_download bulk_whole (List.range 200) 130 130 = some r ∧ r.status = 0 ∧
      (bulk_lengths r.trace).length = 3 ∧
      bulk_transferred r.trace = (ti_do_download_header (List.range 200) 130).take 130) ∧
    (∃ r, ti_do_download bulk_second_fails [1, 2, 3, 4, 5, 6, 7, 8] 5 5 = some r ∧
      r.status = -110 ∧
      ∃ t0 d dn, r.trace = t0 ++ [Event.bulk_msg d (-110) dn] ∧
        ∀ x ∈ bulk_statuses t0, x = 0) := by
  constructor
  · obtain ⟨r, hr, _, _, _, ⟨m, _, htr, hm⟩, hs, hc⟩ :=
      (ti_do_download_loop_terminates bulk_whole (List.range 200) 130 130).1
        (by simp) (le_refl _)
        (fun k len h1 _ => ⟨h1, le_refl _⟩)
    have h0 := hs (fun _ _ => rfl)
    refine ⟨r, hr, h0, hc (fun _ _ => rfl), ?_⟩
    rw [htr, hm h0]
  · have hr : ti_do_download bulk_second_fails [1, 2, 3, 4, 5, 6, 7, 8] 5 5
        = some { status := -110,
                 trace := [Event.bulk_msg [2, 0, 9, 4, 5] 0 2, Event.bulk_msg [9, 4, 5] (-110) 0],
                 buffer := some [2, 0, 9, 4, 5, 6, 7, 8] } := by
      decide
    have h := (ti_do_download_loop_terminates bulk_second_fails [1, 2, 3, 4, 5, 6, 7, 8] 5 5).2
      _ hr
    exact ⟨_, hr, rfl, h.2 (by decide)⟩

end TiUsb
